import Mathlib

/-!
Verification development for the ydb-tli-analyzer repository.

This file contains a shallow embedding of the two core components:
  * `log_parser.py` — the log-line parser (`LogParser.parse_line`), with the
    regular expressions of the source translated into explicit, structurally
    recursive scanning functions over `List Char` (leftmost-search with the
    backtracking behaviour each concrete pattern actually exhibits);
  * `chain_tracer_single_pass.py` — the single-pass correlator
    (`ChainTracerSinglePass`), with the Python object heap modelled as an
    explicit store of chains indexed by `Nat`, so that the aliasing of one
    chain object from several index dictionaries is preserved, and Python
    dicts modelled as association lists with insertion-order semantics.

Python truthiness of optional strings / lists is modelled explicitly
(`None` and the empty string / empty list are falsy).  Calls to
`logging.warning` are modelled by appending a tag to a `warnings` field of
the state; `logging.debug` / `logging.info` calls are not modelled.
-/

namespace TLIAnalyzer

set_option maxRecDepth 100000

/-- Truthiness of an optional string, as in Python: `None` and `""` are falsy. -/
def strTruthy : Option String → Bool
  | none => false
  | some s => !(s = "")

/-- Truthiness of an optional list, as in Python: `None` and `[]` are falsy. -/
def listTruthy {α : Type} : Option (List α) → Bool
  | none => false
  | some l => !l.isEmpty

/-- `LogEntry` from `log_parser.py`: one parsed log line. -/
structure LogEntry where
  timestamp : String := ""
  node : Option String := none
  process : String := ""
  message_type : String := ""
  log_level : String := ""
  begin_tx : Bool := false
  session_id : Option String := none
  trace_id : Option String := none
  phy_tx_id : Option String := none
  lock_id : Option (List String) := none
  status : Option String := none
  query_text : Option String := none
  key : Option String := none
  issues : Option String := none
  break_lock_id : Option (List String) := none
  tx_id : Option String := none
  query_action : Option String := none
  query_type : Option String := none
  component : Option String := none
  raw_line : String := ""
  deriving Repr, DecidableEq

/-- `LockInvalidationChain` from `chain_models.py`.
`log_details` (an `OrderedSet` of raw lines in the source) is modelled as a
duplicate-free list in insertion order. -/
structure LockInvalidationChain where
  victim_session_id : String
  victim_trace_id : String
  victim_tx_id : Option String := none
  victim_entry : LogEntry
  table_name : Option String := none
  lock_id : Option String := none
  culprit_phy_tx_id : Option String := none
  culprit_trace_id : Option String := none
  culprit_session_id : Option String := none
  victim_phy_tx_id : Option String := none
  culprit_entry : Option LogEntry := none
  culprit_tx_id : Option String := none
  victim_queries : Option (List LogEntry) := none
  culprit_queries : Option (List LogEntry) := none
  log_details : Option (List String) := none
  deriving Repr, DecidableEq

/-- Python `dict` lookup (`d.get(k)` / `d[k]`), on an association list that
keeps one binding per key. -/
def dget {α : Type} : List (String × α) → String → Option α
  | [], _ => none
  | (k, v) :: rest, key => if k = key then some v else dget rest key

/-- Python `dict` assignment `d[k] = v`: replaces the value in place if the
key is present (keeping its position), otherwise appends the new binding. -/
def dset {α : Type} : List (String × α) → String → α → List (String × α)
  | [], key, v => [(key, v)]
  | (k, w) :: rest, key, v =>
      if k = key then (k, v) :: rest else (k, w) :: dset rest key v

/-- Python `k in d`. -/
def dmem {α : Type} (d : List (String × α)) (key : String) : Bool :=
  (dget d key).isSome

/-- Python `d.pop(k, None)`: removes the binding for `k` if present. -/
def dpop {α : Type} : List (String × α) → String → List (String × α)
  | [], _ => []
  | (k, v) :: rest, key => if k = key then rest else (k, v) :: dpop rest key

/-- Python `d.values()` in insertion order. -/
def dvalues {α : Type} (d : List (String × α)) : List α := d.map Prod.snd

/-- `OrderedSet.add`: append the element if it is not already present. -/
def osetAdd (l : List String) (x : String) : List String :=
  if x ∈ l then l else l ++ [x]

/-- The mutable state of one `ChainTracerSinglePass` instance.
Chain objects live in `chainStore` (the heap); the dictionaries that in the
Python source hold references to the same chain objects hold `Nat` indices
into `chainStore` instead, so aliasing is preserved. -/
structure TracerState where
  chainStore : List LockInvalidationChain := []
  chains : List (String × Nat) := []
  queries_by_tx : List (String × List LogEntry) := []
  session_current_tx : List (String × String) := []
  chains_by_lock_id : List (String × Nat) := []
  chains_by_culprit_phy_tx_id : List (String × List Nat) := []
  chains_by_culprit_trace_id : List (String × List Nat) := []
  entries_by_trace : List (String × LogEntry) := []
  warnings : List String := []
  deriving Repr

/-- A placeholder chain, only returned for out-of-range heap indices (which
never occur in reachable states). -/
def defaultChain : LockInvalidationChain :=
  { victim_session_id := "", victim_trace_id := "",
    victim_entry := {} }

def getChainD (s : TracerState) (i : Nat) : LockInvalidationChain :=
  (s.chainStore.get? i).getD defaultChain

def setChain (s : TracerState) (i : Nat) (c : LockInvalidationChain) : TracerState :=
  { s with chainStore := s.chainStore.set i c }

/-- `logging.warning(...)`, modelled as appending a tag. -/
def warn (s : TracerState) (w : String) : TracerState :=
  { s with warnings := s.warnings ++ [w] }

/-- `chain.log_details.add(entry.raw_line)` guarded by
`if chain.log_details is not None`. -/
def addDetail (s : TracerState) (i : Nat) (line : String) : TracerState :=
  let c := getChainD s i
  match c.log_details with
  | none => s
  | some d => setChain s i { c with log_details := some (osetAdd d line) }

/-- Warning tags, one per `logging.warning` call site of the source. -/
def wLockChainMissing : String := "fill lock id - chain for victim TraceId not found"
def wLockAlready : String := "fill lock id - chain already has LockId"
def wLockMissing : String := "fill lock id - expected LockId but not found"
def wLockSeveral : String := "fill lock id - several LockId in BreakLocks row"
def wVictimChainMissing : String := "fill victim phy tx id - chain for victim TraceId not found"
def wVictimPhyAlready : String := "fill victim phy tx id - chain already has victim PhyTxId"
def wVictimPhyMissing : String := "fill victim phy tx id - expected PhyTxId but not found"
def wBreakPhyMissing : String := "fill culprit phy tx id - expected PhyTxId in BreakLocks entry"
def wCulpritPhyConflict : String := "fill culprit phy tx id - chain already has culprit PhyTxId"
def wCulpritTraceNoChains : String := "fill culprit trace id - expected chains for culprit PhyTxId"
def wCulpritTraceConflict : String := "fill culprit trace id - chain already has culprit TraceId"
def wCulpritTraceInvalid : String := "fill culprit trace id - expected valid TraceId"
def wCulpritSessionNoChains : String := "fill culprit session id - expected chain for culprit TraceId"
def wCulpritSessionMissing : String := "fill culprit session id - expected SessionId but not found"
def wCulpritSessionConflict : String := "fill culprit session id - chain already has culprit session id"
def wCulpritTxNoChains : String := "fill culprit tx id - expected chain for culprit TraceId"
def wCulpritTxInvalid : String := "fill culprit tx id - expected valid TxId"
def wQueryNoInfer : String := "query has no TxId and unable to infer TxId from SessionId"
def wQueryNoIds : String := "query entry has QueryText and QueryAction but no TxId and no SessionId"
def wIncompleteChain : String := "incomplete chain"

/-! ## Character-level scanning (embedding of the `re` patterns of `log_parser.py`)

Each compiled pattern of the source is translated into a structurally
recursive leftmost-search function over `List Char` that reproduces the
backtracking behaviour of the concrete pattern.  Character classes follow
the ASCII semantics of `\s`, `\d`, `\w`. -/

/-- Does `hay` start with `needle`? -/
def leadMatch : List Char → List Char → Bool
  | _, [] => true
  | [], _ :: _ => false
  | c :: cs, d :: ds => c = d && leadMatch cs ds

/-- Does `hay` contain `needle` as a contiguous subsequence? -/
def containsSeq : List Char → List Char → Bool
  | [], needle => needle.isEmpty
  | c :: cs, needle => leadMatch (c :: cs) needle || containsSeq cs needle

/-- Python `needle in hay` on strings. -/
def strContains (hay needle : String) : Bool := containsSeq hay.toList needle.toList

/-- The `\s` class (and the whitespace set of `str.strip` / `str.split`). -/
def reSpace (c : Char) : Bool :=
  c = ' ' || c = '\t' || c = '\n' || c = '\r' || c = '\x0b' || c = '\x0c'

/-- The `\d` class. -/
def reDigit (c : Char) : Bool := '0' ≤ c && c ≤ '9'

/-- The `\w` class. -/
def reWord (c : Char) : Bool := c.isAlphanum || c = '_'

/-- The `[^,\s]` class used by most labeled-field patterns. -/
def classFld (c : Char) : Bool := !(c = ',') && !reSpace c

/-- Python `str.strip()`. -/
def pyStrip (s : String) : String :=
  String.mk (((s.toList.dropWhile reSpace).reverse.dropWhile reSpace).reverse)

/-- Python `str.split()` (split on whitespace runs, dropping empty pieces). -/
def splitWsAux : List Char → List Char → List String
  | [], acc => if acc.isEmpty then [] else [String.mk acc.reverse]
  | c :: cs, acc =>
      if reSpace c then
        if acc.isEmpty then splitWsAux cs []
        else String.mk acc.reverse :: splitWsAux cs []
      else splitWsAux cs (c :: acc)

def splitWs (s : String) : List String := splitWsAux s.toList []

/-- Leftmost search for `Label:\s*(CLASS+)`: at each occurrence of the label
the maximal whitespace run is skipped (shortening `\s*` can never help since
the classes exclude whitespace) and a non-empty run of class characters is
required; on failure the search resumes one position further. -/
def scanLabeled (label : List Char) (good : Char → Bool) : List Char → Option String
  | [] => none
  | c :: cs =>
    if leadMatch (c :: cs) label then
      let grp := (((c :: cs).drop label.length).dropWhile reSpace).takeWhile good
      if grp.isEmpty then scanLabeled label good cs
      else some (String.mk grp)
    else scanLabeled label good cs

/-- `re.findall` for `LockId:\s*(\d+)`: every occurrence is collected.  (A
second occurrence of the literal can never start inside a previous match, so
advancing one position at a time finds exactly the non-overlapping matches.) -/
def scanLockIds : List Char → List String
  | [] => []
  | c :: cs =>
    if leadMatch (c :: cs) "LockId:".toList then
      let grp := (((c :: cs).drop 7).dropWhile reSpace).takeWhile reDigit
      if grp.isEmpty then scanLockIds cs
      else String.mk grp :: scanLockIds cs
    else scanLockIds cs

/-- Take exactly `n` characters satisfying `\d`, returning them and the rest. -/
def exactDigits : Nat → List Char → Option (List Char × List Char)
  | 0, l => some ([], l)
  | _ + 1, [] => none
  | n + 1, c :: cs =>
      if reDigit c then (exactDigits n cs).map (fun p => (c :: p.1, p.2)) else none

def expectChar (c : Char) : List Char → Option (List Char)
  | [] => none
  | d :: rest => if d = c then some rest else none

/-- Anchored match of `(\d{4}-\d{2}-\d{2}T\d{2}:\d{2}:\d{2}\.\d+Z)`. -/
def matchTimestampAt (l : List Char) : Option String := do
  let (d1, r) ← exactDigits 4 l
  let r ← expectChar '-' r
  let (d2, r) ← exactDigits 2 r
  let r ← expectChar '-' r
  let (d3, r) ← exactDigits 2 r
  let r ← expectChar 'T' r
  let (d4, r) ← exactDigits 2 r
  let r ← expectChar ':' r
  let (d5, r) ← exactDigits 2 r
  let r ← expectChar ':' r
  let (d6, r) ← exactDigits 2 r
  let r ← expectChar '.' r
  let frac := r.takeWhile reDigit
  if frac.isEmpty then none
  else
    match r.dropWhile reDigit with
    | 'Z' :: _ =>
        some (String.mk (d1 ++ '-' :: d2 ++ '-' :: d3 ++ 'T' :: d4 ++ ':' :: d5 ++
          ':' :: d6 ++ '.' :: frac ++ ['Z']))
    | _ => none

def scanTimestamp : List Char → Option String
  | [] => none
  | c :: cs =>
    match matchTimestampAt (c :: cs) with
    | some s => some s
    | none => scanTimestamp cs

/-- The lazy body of `QueryText: "(.*?)(?<![\\])"`: at each boundary first try
to close on a quote whose preceding character is not a backslash; otherwise
consume the next character into the group (`.` rejects a newline). -/
def qtClose (acc : List Char) (prev : Char) : List Char → Option (List Char)
  | [] => none
  | c :: cs =>
    if c = '\"' && !(prev = '\\') then some acc.reverse
    else if c = '\n' then none
    else qtClose (c :: acc) c cs

def scanQueryText : List Char → Option String
  | [] => none
  | c :: cs =>
    if leadMatch (c :: cs) "QueryText: \"".toList then
      match qtClose [] '\"' ((c :: cs).drop 12) with
      | some grp => some (String.mk grp)
      | none => scanQueryText cs
    else scanQueryText cs

/-- Leftmost search for a `Label:\s*OPEN([^CLOSE]+)CLOSE` bracketed group
(used by the `Issues: {...}` and `BreakLocks: [...]` patterns): skip maximal
whitespace, require the opening delimiter, take the maximal run free of the
closing delimiter (non-empty) and require the closing delimiter after it. -/
def scanBracketed (label : List Char) (openC closeC : Char) : List Char → Option String
  | [] => none
  | c :: cs =>
    if leadMatch (c :: cs) label then
      match ((c :: cs).drop label.length).dropWhile reSpace with
      | b :: rest =>
        if b = openC then
          let grp := rest.takeWhile (fun x => !(x = closeC))
          -- `rest.dropWhile` is either empty (no closing delimiter: fail) or
          -- starts with the closing delimiter (success).
          if grp.isEmpty then scanBracketed label openC closeC cs
          else
            match rest.dropWhile (fun x => !(x = closeC)) with
            | _ :: _ => some (String.mk grp)
            | [] => scanBracketed label openC closeC cs
        else scanBracketed label openC closeC cs
      | [] => scanBracketed label openC closeC cs
    else scanBracketed label openC closeC cs

/-- `re.search(r':(\w+)\s+(\w+):', content)`: the class boundaries are forced
(`\w` and `\s` are disjoint), so each group is the maximal run. -/
def matchLevelAt : List Char → Option (String × String)
  | [] => none
  | c :: cs =>
    if c = ':' then
      let g1 := cs.takeWhile reWord
      let r1 := cs.dropWhile reWord
      if g1.isEmpty then none
      else if (r1.takeWhile reSpace).isEmpty then none
      else
        let r2 := r1.dropWhile reSpace
        let g2 := r2.takeWhile reWord
        if g2.isEmpty then none
        else
          match r2.dropWhile reWord with
          | ':' :: _ => some (String.mk g1, String.mk g2)
          | _ => none
    else none

def scanLevel : List Char → Option (String × String)
  | [] => none
  | c :: cs =>
    match matchLevelAt (c :: cs) with
    | some p => some p
    | none => scanLevel cs

/-- The backtick delimiter of the table-name pattern. -/
def btick : Char := '\x60'

/-- Leftmost search for `Table:\s*BTICK([^BTICK]+)BTICK` from
`_extract_table_name`. -/
def scanTableName (l : List Char) : Option String :=
  scanBracketed "Table:".toList btick btick l

/-- `ChainTracerSinglePass._extract_table_name`. -/
def extract_table_name : Option String → Option String
  | none => none
  | some s => if s = "" then none else scanTableName s.toList

/-! ## The parser (`LogParser.parse_line`) -/

inductive LogFormat where
  | systemd
  | raw
  deriving Repr, DecidableEq

/-- `value.replace(r'\n', '\n')`: leftmost, non-overlapping. -/
def replEscN : List Char → List Char
  | '\\' :: 'n' :: rest => '\n' :: replEscN rest
  | c :: rest => c :: replEscN rest
  | [] => []

/-- `value.replace(r'\"', '"')`: leftmost, non-overlapping. -/
def replEscQ : List Char → List Char
  | '\\' :: '\"' :: rest => '\"' :: replEscQ rest
  | c :: rest => c :: replEscQ rest
  | [] => []

def unescapeQueryText (s : String) : String :=
  String.mk (replEscQ (replEscN s.toList))

/-- Take a non-empty maximal run of characters satisfying `p` (`CLASS+`). -/
def run1 (p : Char → Bool) (l : List Char) : Option (List Char × List Char) :=
  let g := l.takeWhile p
  if g.isEmpty then none else some (g, l.dropWhile p)

/-- The `\s*(.+)` tail of the envelope pattern: `\s*` is greedy but `.`
rejects a newline, so the engine backtracks to the largest number `j` of
skipped whitespace characters whose following character exists and is not a
newline; the group is then the maximal newline-free run from there. -/
def contentTry (r : List Char) : Nat → Option (List Char)
  | 0 =>
    match r with
    | c :: _ => if c = '\n' then none else some (r.takeWhile (fun x => !(x = '\n')))
    | [] => none
  | j + 1 =>
    match r.drop (j + 1) with
    | c :: _ =>
        if c = '\n' then contentTry r j
        else some ((r.drop (j + 1)).takeWhile (fun x => !(x = '\n')))
    | [] => contentTry r j

def contentAfter (r : List Char) : Option (List Char) :=
  contentTry r (r.takeWhile reSpace).length

/-- `re.match` of the systemd transport envelope
`\w+\s+\d+\s+\d+:\d+:\d+\s+([^\s]+)\s+([^[]+)\[(\d+)\]:\s*(.+)`, anchored at
the start of the line.  Returns (host group, process group, pid group,
payload).  The `\s+([^[]+)` boundary backtracks by at most one whitespace
character (the process group runs to the first `[`; when the first `[`
immediately follows the whitespace run, the engine gives the group one
trailing whitespace character back, and fails if the run had only one). -/
def envTime (l : List Char) : Option (List Char) :=
  (run1 reWord l).bind fun p1 =>
  (run1 reSpace p1.2).bind fun p2 =>
  (run1 reDigit p2.2).bind fun p3 =>
  (run1 reSpace p3.2).bind fun p4 =>
  (run1 reDigit p4.2).bind fun p5 =>
  (expectChar ':' p5.2).bind fun r1 =>
  (run1 reDigit r1).bind fun p6 =>
  (expectChar ':' p6.2).bind fun r2 =>
  (run1 reDigit r2).bind fun p7 =>
  (run1 reSpace p7.2).map fun p8 => p8.2

def envTail (host : List Char) (proc : List Char) (r3 : List Char) :
    Option (String × String × String × List Char) :=
  (expectChar '[' r3).bind fun r4 =>
  (run1 reDigit r4).bind fun pidP =>
  (expectChar ']' pidP.2).bind fun r6 =>
  (expectChar ':' r6).bind fun r7 =>
  (contentAfter r7).map fun content =>
  (String.mk host, String.mk proc, String.mk pidP.1, content)

def matchEnvelope (l : List Char) : Option (String × String × String × List Char) :=
  (envTime l).bind fun r =>
  (run1 (fun c => !reSpace c) r).bind fun hostP =>
  let sp := hostP.2.takeWhile reSpace
  let r2 := hostP.2.dropWhile reSpace
  if sp.isEmpty then none
  else
    let g2 := r2.takeWhile (fun c => !(c = '['))
    let r3 := r2.dropWhile (fun c => !(c = '['))
    if g2.isEmpty then
      if 2 ≤ sp.length then envTail hostP.1 [' '] r3 else none
    else envTail hostP.1 g2 r3

/-! The field-extraction loop of `parse_line`, applied to the payload in the
insertion order of `self.patterns`; each match is stripped and stored, with
the special cases for `lock_id`, `break_lock_id`, `query_text`, `begin_tx`.
One definition per iteration of the loop. -/

def exTimestamp (content : List Char) (e : LogEntry) : LogEntry :=
  match scanTimestamp content with
  | some v => { e with timestamp := pyStrip v }
  | none => e

def exSessionId (content : List Char) (e : LogEntry) : LogEntry :=
  match scanLabeled "SessionId:".toList classFld content with
  | some v => { e with session_id := some (pyStrip v) }
  | none => e

def exTraceId (content : List Char) (e : LogEntry) : LogEntry :=
  match scanLabeled "TraceId:".toList classFld content with
  | some v => { e with trace_id := some (pyStrip v) }
  | none => e

def exPhyTxId (content : List Char) (e : LogEntry) : LogEntry :=
  match scanLabeled "PhyTxId:".toList reDigit content with
  | some v => { e with phy_tx_id := some (pyStrip v) }
  | none => e

def exLockId (content : List Char) (e : LogEntry) : LogEntry :=
  match scanLockIds content with
  | [] => e
  | ids => { e with lock_id := some ids }

def exStatus (content : List Char) (e : LogEntry) : LogEntry :=
  match scanLabeled "Status:".toList classFld content with
  | some v => { e with status := some (pyStrip v) }
  | none => e

def exQueryText (content : List Char) (e : LogEntry) : LogEntry :=
  match scanQueryText content with
  | some v => { e with query_text := some (unescapeQueryText (pyStrip v)) }
  | none => e

def exKey (content : List Char) (e : LogEntry) : LogEntry :=
  match scanLabeled "Key:".toList classFld content with
  | some v => { e with key := some (pyStrip v) }
  | none => e

def exIssues (content : List Char) (e : LogEntry) : LogEntry :=
  match scanBracketed "Issues:".toList '\x7b' '\x7d' content with
  | some v => { e with issues := some (pyStrip v) }
  | none => e

def exBreakLocks (content : List Char) (e : LogEntry) : LogEntry :=
  match scanBracketed "BreakLocks:".toList '[' ']' content with
  | some v => { e with break_lock_id := some (splitWs (pyStrip v)) }
  | none => e

def exComponent (content : List Char) (e : LogEntry) : LogEntry :=
  match scanLabeled "Component:".toList classFld content with
  | some v => { e with component := some (pyStrip v) }
  | none => e

def exTxId (content : List Char) (e : LogEntry) : LogEntry :=
  match scanLabeled "TxId:".toList classFld content with
  | some v => { e with tx_id := some (pyStrip v) }
  | none => e

def exQueryAction (content : List Char) (e : LogEntry) : LogEntry :=
  match scanLabeled "QueryAction:".toList classFld content with
  | some v => { e with query_action := some (pyStrip v) }
  | none => e

def exQueryType (content : List Char) (e : LogEntry) : LogEntry :=
  match scanLabeled "QueryType:".toList classFld content with
  | some v => { e with query_type := some (pyStrip v) }
  | none => e

def exBeginTx (content : List Char) (e : LogEntry) : LogEntry :=
  if containsSeq content "BeginTx: true".toList then { e with begin_tx := true } else e

def extractFields (content : List Char) (e0 : LogEntry) : LogEntry :=
  exBeginTx content (exQueryType content (exQueryAction content (exTxId content
    (exComponent content (exBreakLocks content (exIssues content (exKey content
      (exQueryText content (exStatus content (exLockId content (exPhyTxId content
        (exTraceId content (exSessionId content (exTimestamp content e0))))))))))))))

/-- The tail of `parse_line` shared by the two dialects: locate the
`:CATEGORY LEVEL:` marker in the payload, build the initial entry and run the
field-extraction loop. -/
def parseWithContent (node : Option String) (proc : String) (content : List Char)
    (line : String) : Option LogEntry :=
  match scanLevel content with
  | none => none
  | some (mt, lvl) =>
    some (extractFields content
      { node := node, process := proc, message_type := mt, log_level := lvl,
        raw_line := line })

/-- `LogParser.parse_line`.  In the raw dialect the source leaves `node`,
`process` and `pid` as `None` and then stores `f"{process}[{pid}]"`, i.e. the
literal string `None[None]`, in the process field. -/
def parse_line (format : LogFormat) (line : String) : Option LogEntry :=
  if pyStrip line = "" then none
  else
    match format with
    | .systemd =>
      match matchEnvelope line.toList with
      | some (host, proc, pid, content) =>
          parseWithContent (some host) (proc ++ "[" ++ pid ++ "]") content line
      | none => none
    | .raw => parseWithContent none "None[None]" line.toList line

/-! ## The correlator (`ChainTracerSinglePass`) -/

/-- `ChainTracerSinglePass._is_transaction_locks_invalidated`. -/
def isTransactionLocksInvalidated (e : LogEntry) : Bool :=
  strTruthy e.issues &&
  strContains (e.issues.getD "") "Transaction locks invalidated" &&
  e.status == some "ABORTED"

/-- The chain object built by `_create_new_chain` from the invalidation
record: a victim transaction id equal to the literal `Unknown` is stored as
unset. -/
def mkVictimChain (e : LogEntry) (collect : Bool) : LockInvalidationChain :=
  { victim_session_id := e.session_id.getD ""
    victim_trace_id := e.trace_id.getD ""
    victim_entry := e
    table_name := extract_table_name e.issues
    victim_tx_id := if e.tx_id = some "Unknown" then none else e.tx_id
    log_details := if collect then some [e.raw_line] else none }

/-- `ChainTracerSinglePass._create_new_chain`.  Note that the source stores
the new chain with `self.chains[entry.trace_id] = chain` unconditionally: an
existing chain for the same trace id is replaced in the dictionary (the old
chain object survives in the heap and in any other index that points to it). -/
def create_new_chain (s : TracerState) (e : LogEntry) (collect : Bool) : TracerState :=
  if !strTruthy e.trace_id || !strTruthy e.session_id then s
  else
    { s with chainStore := s.chainStore ++ [mkVictimChain e collect]
             chains := dset s.chains (e.trace_id.getD "") s.chainStore.length }

/-- `self.chains.get(entry.trace_id)` (a `None` trace id is never a key). -/
def chainIdxFor (s : TracerState) (t : Option String) : Option Nat :=
  match t with
  | none => none
  | some t => dget s.chains t

/-- `ChainTracerSinglePass._fill_lock_id`. -/
def fill_lock_id (s : TracerState) (e : LogEntry) : TracerState :=
  match chainIdxFor s e.trace_id with
  | none => warn s wLockChainMissing
  | some i =>
    let c := getChainD s i
    let s1 := addDetail s i e.raw_line
    if strTruthy c.lock_id then warn s1 wLockAlready
    else if !listTruthy e.lock_id then warn s1 wLockMissing
    else
      let s2 := if 1 < (e.lock_id.getD []).length then warn s1 wLockSeveral else s1
      let first := (e.lock_id.getD []).headD ""
      -- `chain.lock_id` is falsy here, so the final write-once guard passes.
      let s3 := setChain s2 i { getChainD s2 i with lock_id := some first }
      { s3 with chains_by_lock_id := dset s3.chains_by_lock_id first i }

/-- `ChainTracerSinglePass._fill_victim_phy_tx_id`. -/
def fill_victim_phy_tx_id (s : TracerState) (e : LogEntry) : TracerState :=
  match chainIdxFor s e.trace_id with
  | none => warn s wVictimChainMissing
  | some i =>
    let c := getChainD s i
    let s1 := addDetail s i e.raw_line
    if strTruthy c.victim_phy_tx_id then warn s1 wVictimPhyAlready
    else if !strTruthy e.phy_tx_id then warn s1 wVictimPhyMissing
    else setChain s1 i { getChainD s1 i with victim_phy_tx_id := e.phy_tx_id }

/-- Python `defaultdict(list)` append `d[k].append(i)`. -/
def appendAt (d : List (String × List Nat)) (k : String) (i : Nat) :
    List (String × List Nat) :=
  dset d k ((dget d k).getD [] ++ [i])

/-- The `for lock_id in entry.break_lock_id` loop of
`_fill_culprit_phy_tx_id`: every `continue` moves to the next broken-lock id. -/
def fill_culprit_phy_goLoop (e : LogEntry) : List String → TracerState → TracerState
  | [], s => s
  | lid :: rest, s =>
    match dget s.chains_by_lock_id lid with
    | none => fill_culprit_phy_goLoop e rest s
    | some i =>
      let s1 := addDetail s i e.raw_line
      let c := getChainD s1 i
      if strTruthy c.victim_phy_tx_id && c.victim_phy_tx_id == e.phy_tx_id then
        -- the victim noticing its own broken lock: skip
        fill_culprit_phy_goLoop e rest s1
      else if strTruthy c.culprit_phy_tx_id && !(c.culprit_phy_tx_id == e.phy_tx_id) then
        fill_culprit_phy_goLoop e rest (warn s1 wCulpritPhyConflict)
      else if !strTruthy c.culprit_phy_tx_id then
        let s2 := setChain s1 i { c with culprit_phy_tx_id := e.phy_tx_id }
        let d2 := appendAt s2.chains_by_culprit_phy_tx_id (e.phy_tx_id.getD "") i
        fill_culprit_phy_goLoop e rest { s2 with chains_by_culprit_phy_tx_id := d2 }
      else fill_culprit_phy_goLoop e rest s1

/-- `ChainTracerSinglePass._fill_culprit_phy_tx_id`. -/
def fill_culprit_phy_tx_id (s : TracerState) (e : LogEntry) : TracerState :=
  if !listTruthy e.break_lock_id then s
  else if !strTruthy e.phy_tx_id then warn s wBreakPhyMissing
  else fill_culprit_phy_goLoop e (e.break_lock_id.getD []) s

/-- The `for chain in victim_chains` loop of `_fill_culprit_trace_id`.  A
conflicting or invalid trace id executes `return`, abandoning the remaining
chains of the list. -/
def fill_culprit_trace_goLoop (e : LogEntry) : List Nat → TracerState → TracerState
  | [], s => s
  | i :: rest, s =>
    let s1 := addDetail s i e.raw_line
    let c := getChainD s1 i
    if strTruthy c.culprit_trace_id && !(c.culprit_trace_id == e.trace_id) then
      warn s1 wCulpritTraceConflict
    else if !strTruthy e.trace_id || e.trace_id == some "Empty" then
      warn s1 wCulpritTraceInvalid
    else if !strTruthy c.culprit_trace_id then
      let s2 := setChain s1 i { c with culprit_trace_id := e.trace_id }
      let d2 := appendAt s2.chains_by_culprit_trace_id (e.trace_id.getD "") i
      fill_culprit_trace_goLoop e rest { s2 with chains_by_culprit_trace_id := d2 }
    else fill_culprit_trace_goLoop e rest s1

/-- `ChainTracerSinglePass._fill_culprit_trace_id`. -/
def fill_culprit_trace_id (s : TracerState) (e : LogEntry) : TracerState :=
  let l := match e.phy_tx_id with
    | none => none
    | some p => dget s.chains_by_culprit_phy_tx_id p
  match l with
  | none => warn s wCulpritTraceNoChains
  | some l => if l.isEmpty then warn s wCulpritTraceNoChains
              else fill_culprit_trace_goLoop e l s

/-- The `for chain in victim_chains` loop of `_fill_culprit_session_id`.  A
missing session id or a conflict executes `return`. -/
def fill_culprit_session_goLoop (e : LogEntry) : List Nat → TracerState → TracerState
  | [], s => s
  | i :: rest, s =>
    let s1 := addDetail s i e.raw_line
    let c := getChainD s1 i
    if !strTruthy e.session_id then warn s1 wCulpritSessionMissing
    else if strTruthy c.culprit_session_id && !(c.culprit_session_id == e.session_id) then
      warn s1 wCulpritSessionConflict
    else if !strTruthy c.culprit_session_id then
      fill_culprit_session_goLoop e rest
        (setChain s1 i { c with culprit_session_id := e.session_id })
    else fill_culprit_session_goLoop e rest s1

/-- `ChainTracerSinglePass._fill_culprit_session_id`. -/
def fill_culprit_session_id (s : TracerState) (e : LogEntry) : TracerState :=
  let l := match e.trace_id with
    | none => none
    | some t => dget s.chains_by_culprit_trace_id t
  match l with
  | none => warn s wCulpritSessionNoChains
  | some l => if l.isEmpty then warn s wCulpritSessionNoChains
              else fill_culprit_session_goLoop e l s

/-- The `for chain in victim_chains` loop of `_fill_culprit_tx_id`.  All four
guard branches execute `return`; the duplicate / conflicting / physical-id
cases log at debug level only. -/
def fill_culprit_tx_goLoop (e : LogEntry) : List Nat → TracerState → TracerState
  | [], s => s
  | i :: rest, s =>
    let s1 := addDetail s i e.raw_line
    let c := getChainD s1 i
    if !strTruthy e.tx_id || e.tx_id == some "Empty" then warn s1 wCulpritTxInvalid
    else if c.culprit_tx_id == e.tx_id then s1
    else if strTruthy c.culprit_tx_id && !(c.culprit_tx_id == e.tx_id) then s1
    else if e.tx_id == c.culprit_phy_tx_id then s1
    else if !strTruthy c.culprit_tx_id then
      fill_culprit_tx_goLoop e rest (setChain s1 i { c with culprit_tx_id := e.tx_id })
    else fill_culprit_tx_goLoop e rest s1

/-- `ChainTracerSinglePass._fill_culprit_tx_id`. -/
def fill_culprit_tx_id (s : TracerState) (e : LogEntry) : TracerState :=
  let l := match e.trace_id with
    | none => none
    | some t => dget s.chains_by_culprit_trace_id t
  match l with
  | none => warn s wCulpritTxNoChains
  | some l => if l.isEmpty then warn s wCulpritTxNoChains
              else fill_culprit_tx_goLoop e l s

/-- `ChainTracerSinglePass._collect_session_tx`. -/
def collect_session_tx (s : TracerState) (e : LogEntry) : TracerState :=
  if strTruthy e.session_id && strTruthy e.tx_id then
    let d := dset s.session_current_tx (e.session_id.getD "") (e.tx_id.getD "")
    { s with session_current_tx := d }
  else if strTruthy e.session_id && e.begin_tx then
    { s with session_current_tx := dpop s.session_current_tx (e.session_id.getD "") }
  else s

/-- Append a query record to `queries_by_tx[k]` (a `defaultdict(list)`). -/
def appendQuery (d : List (String × List LogEntry)) (k : String) (e : LogEntry) :
    List (String × List LogEntry) :=
  dset d k ((dget d k).getD [] ++ [e])

/-- `ChainTracerSinglePass._collect_transaction_queries`. -/
def collect_transaction_queries (s : TracerState) (e : LogEntry) : TracerState :=
  if !strTruthy e.query_action then s
  else if strTruthy e.tx_id && !(e.tx_id == some "Empty") then
    { s with queries_by_tx := appendQuery s.queries_by_tx (e.tx_id.getD "") e }
  else if strTruthy e.session_id then
    match dget s.session_current_tx (e.session_id.getD "") with
    | some inferred =>
        if inferred = "" then warn s wQueryNoInfer
        else { s with queries_by_tx := appendQuery s.queries_by_tx inferred e }
    | none => warn s wQueryNoInfer
  else warn s wQueryNoIds

/-- The trace-representative caching block at the top of `_process_entry`. -/
def cache_entry_by_trace (s : TracerState) (e : LogEntry) : TracerState :=
  if strTruthy e.trace_id && !(e.trace_id == some "Empty") then
    let t := e.trace_id.getD ""
    match dget s.entries_by_trace t with
    | none => { s with entries_by_trace := dset s.entries_by_trace t e }
    | some cur =>
      if strTruthy e.session_id && !strTruthy cur.session_id then
        { s with entries_by_trace := dset s.entries_by_trace t e }
      else if strTruthy e.query_text && !strTruthy cur.query_text then
        { s with entries_by_trace := dset s.entries_by_trace t e }
      else s
  else s

/-- Python `entry.trace_id in self.chains`. -/
def chainsHasTrace (s : TracerState) (e : LogEntry) : Bool :=
  match e.trace_id with
  | some t => dmem s.chains t
  | none => false

/-- Python `entry.phy_tx_id in self.chains_by_culprit_phy_tx_id`. -/
def culpritPhyHas (s : TracerState) (e : LogEntry) : Bool :=
  match e.phy_tx_id with
  | some p => dmem s.chains_by_culprit_phy_tx_id p
  | none => false

/-- Python `entry.trace_id in self.chains_by_culprit_trace_id`. -/
def culpritTraceHas (s : TracerState) (e : LogEntry) : Bool :=
  match e.trace_id with
  | some t => dmem s.chains_by_culprit_trace_id t
  | none => false

/-- The first three steps of `_process_entry` (query accumulation,
active-transaction tracking, trace-representative caching). -/
def pre_steps (s : TracerState) (e : LogEntry) : TracerState :=
  let s := if strTruthy e.query_action then collect_transaction_queries s e else s
  let s := collect_session_tx s e
  cache_entry_by_trace s e

/-- The six guarded fill steps of `_process_entry`, in source order; each
guard is evaluated against the state mutated by the previous steps. -/
def post_fill_steps (s : TracerState) (e : LogEntry) : TracerState :=
  let s := if chainsHasTrace s e && e.status == some "LOCKS_BROKEN" &&
              strTruthy e.phy_tx_id then fill_victim_phy_tx_id s e else s
  let s := if chainsHasTrace s e && e.status == some "LOCKS_BROKEN" &&
              listTruthy e.lock_id then fill_lock_id s e else s
  let s := if listTruthy e.break_lock_id then fill_culprit_phy_tx_id s e else s
  let s := if culpritPhyHas s e && strTruthy e.trace_id &&
              !(e.trace_id == some "Empty") then fill_culprit_trace_id s e else s
  let s := if culpritTraceHas s e && strTruthy e.session_id then
              fill_culprit_session_id s e else s
  if culpritTraceHas s e && strTruthy e.tx_id &&
              !(e.tx_id == some "Empty") then fill_culprit_tx_id s e else s

/-- `ChainTracerSinglePass._process_entry`, in the fixed source order. -/
def process_entry (s : TracerState) (e : LogEntry) (collect : Bool) : TracerState :=
  let s := pre_steps s e
  let s := if isTransactionLocksInvalidated e then create_new_chain s e collect else s
  post_fill_steps s e

/-! ### Finalization -/

/-- Lexicographic comparison of code-point sequences: the order Python uses
to compare the timestamp strings. -/
def lexLe : List Char → List Char → Bool
  | [], _ => true
  | _ :: _, [] => false
  | a :: as, b :: bs =>
    if a.toNat < b.toNat then true
    else if b.toNat < a.toNat then false
    else lexLe as bs

/-- Non-decreasing timestamp order used by the query sort
(`key=lambda x: x.timestamp or ''`; the timestamp is already a string). -/
def tsLe (a b : LogEntry) : Bool := lexLe a.timestamp.toList b.timestamp.toList

/-- Stable insertion: the new element goes before the first element whose
timestamp is not smaller. -/
def insertByTs (a : LogEntry) : List LogEntry → List LogEntry
  | [] => [a]
  | b :: l => if tsLe a b then a :: b :: l else b :: insertByTs a l

/-- Python `sorted(queries, key=lambda x: x.timestamp or '')`: a stable sort
by timestamp.  (Stability plus sortedness determine the output uniquely, so
any stable sorting algorithm is a faithful model of `sorted`.) -/
def sortByTs : List LogEntry → List LogEntry
  | [] => []
  | a :: l => insertByTs a (sortByTs l)

/-- `ChainTracerSinglePass._get_sorted_queries`. -/
def get_sorted_queries (s : TracerState) (txid : String) : List LogEntry :=
  sortByTs ((dget s.queries_by_tx txid).getD [])

/-- The victim half of one `_populate_queries` iteration. -/
def populate_victim (st : TracerState) (i : Nat) : TracerState :=
  let c := getChainD st i
  if strTruthy c.victim_tx_id then
    setChain st i { c with victim_queries := some (get_sorted_queries st (c.victim_tx_id.getD "")) }
  else st

/-- The culprit half of one `_populate_queries` iteration (the chain is
re-read because the victim half may have updated it). -/
def populate_culprit (st : TracerState) (i : Nat) : TracerState :=
  let c := getChainD st i
  if strTruthy c.culprit_tx_id then
    setChain st i { c with culprit_queries := some (get_sorted_queries st (c.culprit_tx_id.getD "")) }
  else st

def populate_step (st : TracerState) (i : Nat) : TracerState :=
  populate_culprit (populate_victim st i) i

/-- `ChainTracerSinglePass._populate_queries`. -/
def populate_queries (s : TracerState) : TracerState :=
  (dvalues s.chains).foldl populate_step s

/-- One iteration of `_complete_remaining_chains`. -/
def complete_step (st : TracerState) (i : Nat) : TracerState :=
  let c := getChainD st i
  let culpritE := match c.culprit_trace_id with
    | some t => dget st.entries_by_trace t
    | none => none
  match c.culprit_entry, culpritE with
  | none, some ce => setChain st i { c with culprit_entry := some ce }
  | _, _ => st

/-- `ChainTracerSinglePass._complete_remaining_chains`. -/
def complete_remaining_chains (s : TracerState) : TracerState :=
  (dvalues s.chains).foldl complete_step s

/-- The per-chain missing-field audit of `_validate_chains` (warnings only). -/
def chainIncomplete (c : LockInvalidationChain) : Bool :=
  !(c.victim_session_id ≠ "") || !(c.victim_trace_id ≠ "") ||
  !strTruthy c.lock_id || !strTruthy c.culprit_phy_tx_id ||
  !strTruthy c.culprit_trace_id || !strTruthy c.culprit_session_id ||
  c.culprit_entry.isNone || !strTruthy c.table_name ||
  !strTruthy c.victim_tx_id || !strTruthy c.culprit_tx_id ||
  !listTruthy c.victim_queries || !listTruthy c.culprit_queries

/-- `ChainTracerSinglePass._validate_chains` (the `victim_entry` check of the
source is always truthy for an object field and is omitted). -/
def validate_chains (s : TracerState) : TracerState :=
  (dvalues s.chains).foldl
    (fun st i => if chainIncomplete (getChainD st i) then warn st wIncompleteChain else st)
    s

/-- The scan loop of `find_all_invalidation_chains`, from the empty state of
`__init__`. -/
def runScan (entries : List LogEntry) (collect : Bool) : TracerState :=
  entries.foldl (fun s e => process_entry s e collect) {}

/-- `ChainTracerSinglePass.find_all_invalidation_chains`. -/
def find_all_invalidation_chains (entries : List LogEntry) (collect : Bool) :
    List LockInvalidationChain :=
  let s := runScan entries collect
  let s := populate_queries s
  let s := complete_remaining_chains s
  let s := validate_chains s
  (dvalues s.chains).map (getChainD s)

/-! ## General lemmas about the parser -/

theorem mk_ne_empty (l : List Char) (h : l ≠ []) : String.mk l ≠ "" := by
  intro hc
  exact h (by simpa using congrArg String.data hc)

theorem dropWhile_of_no (p : Char → Bool) (l : List Char)
    (h : ∀ c ∈ l, p c = false) : l.dropWhile p = l := by
  cases l with
  | nil => rfl
  | cons c cs => simp [List.dropWhile_cons, h c (by simp)]

theorem pyStrip_of_noSpace (l : List Char) (h : ∀ c ∈ l, reSpace c = false) :
    pyStrip (String.mk l) = String.mk l := by
  unfold pyStrip
  have h1 : (String.mk l).toList = l := rfl
  rw [h1, dropWhile_of_no _ _ h,
      dropWhile_of_no _ _ (fun c hm => h c (List.mem_reverse.mp hm)),
      List.reverse_reverse]

theorem scanLabeled_inv (label : List Char) (good : Char → Bool) (l : List Char)
    (v : String) (h : scanLabeled label good l = some v) :
    ∃ grp, v = String.mk grp ∧ grp ≠ [] ∧ ∀ ch ∈ grp, good ch = true := by
  induction l with
  | nil => simp [scanLabeled] at h
  | cons c cs ih =>
    rw [scanLabeled] at h
    split at h
    · dsimp only at h
      split at h
      · exact ih h
      · rename_i hne
        refine ⟨_, (Option.some_inj.mp h).symm, ?_, ?_⟩
        · simpa using hne
        · intro ch hm
          exact List.mem_takeWhile_imp hm
    · exact ih h

theorem classFld_no_space (c : Char) (h : classFld c = true) : reSpace c = false := by
  unfold classFld at h
  simp only [Bool.and_eq_true, Bool.not_eq_true'] at h
  exact h.2

theorem reDigit_no_space (c : Char) (h : reDigit c = true) : reSpace c = false := by
  have hne : c ≠ ' ' ∧ c ≠ '\t' ∧ c ≠ '\n' ∧ c ≠ '\r' ∧ c ≠ '\x0b' ∧ c ≠ '\x0c' := by
    refine ⟨?_, ?_, ?_, ?_, ?_, ?_⟩ <;> (rintro rfl; exact absurd h (by decide))
  obtain ⟨h1, h2, h3, h4, h5, h6⟩ := hne
  simp [reSpace, h1, h2, h3, h4, h5, h6]

/-! Frame lemmas for the field-extraction steps: only the step's own field is
modified. -/

theorem exTimestamp_keeps (c : List Char) (e : LogEntry) :
    (exTimestamp c e).process = e.process ∧ (exTimestamp c e).node = e.node := by
  unfold exTimestamp; split <;> exact ⟨rfl, rfl⟩

theorem exSessionId_keeps (c : List Char) (e : LogEntry) :
    (exSessionId c e).process = e.process ∧ (exSessionId c e).node = e.node := by
  unfold exSessionId; split <;> exact ⟨rfl, rfl⟩

theorem exTraceId_keeps (c : List Char) (e : LogEntry) :
    (exTraceId c e).process = e.process ∧ (exTraceId c e).node = e.node := by
  unfold exTraceId; split <;> exact ⟨rfl, rfl⟩

theorem exPhyTxId_keeps (c : List Char) (e : LogEntry) :
    (exPhyTxId c e).process = e.process ∧ (exPhyTxId c e).node = e.node := by
  unfold exPhyTxId; split <;> exact ⟨rfl, rfl⟩

theorem exLockId_keeps (c : List Char) (e : LogEntry) :
    (exLockId c e).process = e.process ∧ (exLockId c e).node = e.node := by
  unfold exLockId; split <;> exact ⟨rfl, rfl⟩

theorem exStatus_keeps (c : List Char) (e : LogEntry) :
    (exStatus c e).process = e.process ∧ (exStatus c e).node = e.node := by
  unfold exStatus; split <;> exact ⟨rfl, rfl⟩

theorem exQueryText_keeps (c : List Char) (e : LogEntry) :
    (exQueryText c e).process = e.process ∧ (exQueryText c e).node = e.node := by
  unfold exQueryText; split <;> exact ⟨rfl, rfl⟩

theorem exKey_keeps (c : List Char) (e : LogEntry) :
    (exKey c e).process = e.process ∧ (exKey c e).node = e.node := by
  unfold exKey; split <;> exact ⟨rfl, rfl⟩

theorem exIssues_keeps (c : List Char) (e : LogEntry) :
    (exIssues c e).process = e.process ∧ (exIssues c e).node = e.node := by
  unfold exIssues; split <;> exact ⟨rfl, rfl⟩

theorem exBreakLocks_keeps (c : List Char) (e : LogEntry) :
    (exBreakLocks c e).process = e.process ∧ (exBreakLocks c e).node = e.node := by
  unfold exBreakLocks; split <;> exact ⟨rfl, rfl⟩

theorem exComponent_keeps (c : List Char) (e : LogEntry) :
    (exComponent c e).process = e.process ∧ (exComponent c e).node = e.node := by
  unfold exComponent; split <;> exact ⟨rfl, rfl⟩

theorem exTxId_keeps (c : List Char) (e : LogEntry) :
    (exTxId c e).process = e.process ∧ (exTxId c e).node = e.node := by
  unfold exTxId; split <;> exact ⟨rfl, rfl⟩

theorem exQueryAction_keeps (c : List Char) (e : LogEntry) :
    (exQueryAction c e).process = e.process ∧ (exQueryAction c e).node = e.node := by
  unfold exQueryAction; split <;> exact ⟨rfl, rfl⟩

theorem exQueryType_keeps (c : List Char) (e : LogEntry) :
    (exQueryType c e).process = e.process ∧ (exQueryType c e).node = e.node := by
  unfold exQueryType; split <;> exact ⟨rfl, rfl⟩

theorem exBeginTx_keeps (c : List Char) (e : LogEntry) :
    (exBeginTx c e).process = e.process ∧ (exBeginTx c e).node = e.node := by
  unfold exBeginTx; split <;> exact ⟨rfl, rfl⟩

theorem extractFields_process_node (c : List Char) (e0 : LogEntry) :
    (extractFields c e0).process = e0.process ∧ (extractFields c e0).node = e0.node := by
  unfold extractFields
  constructor
  · rw [(exBeginTx_keeps _ _).1, (exQueryType_keeps _ _).1, (exQueryAction_keeps _ _).1,
        (exTxId_keeps _ _).1, (exComponent_keeps _ _).1, (exBreakLocks_keeps _ _).1,
        (exIssues_keeps _ _).1, (exKey_keeps _ _).1, (exQueryText_keeps _ _).1,
        (exStatus_keeps _ _).1, (exLockId_keeps _ _).1, (exPhyTxId_keeps _ _).1,
        (exTraceId_keeps _ _).1, (exSessionId_keeps _ _).1, (exTimestamp_keeps _ _).1]
  · rw [(exBeginTx_keeps _ _).2, (exQueryType_keeps _ _).2, (exQueryAction_keeps _ _).2,
        (exTxId_keeps _ _).2, (exComponent_keeps _ _).2, (exBreakLocks_keeps _ _).2,
        (exIssues_keeps _ _).2, (exKey_keeps _ _).2, (exQueryText_keeps _ _).2,
        (exStatus_keeps _ _).2, (exLockId_keeps _ _).2, (exPhyTxId_keeps _ _).2,
        (exTraceId_keeps _ _).2, (exSessionId_keeps _ _).2, (exTimestamp_keeps _ _).2]

theorem parseWithContent_some (node : Option String) (proc : String)
    (content : List Char) (line : String) (e : LogEntry)
    (h : parseWithContent node proc content line = some e) :
    ∃ mt lvl, e = extractFields content
      { node := node, process := proc, message_type := mt, log_level := lvl,
        raw_line := line } := by
  unfold parseWithContent at h
  split at h
  · exact absurd h (by simp)
  · rename_i mt lvl heq
    exact ⟨mt, lvl, (Option.some_inj.mp h).symm⟩

theorem parse_line_some (fmt : LogFormat) (line : String) (e : LogEntry)
    (h : parse_line fmt line = some e) :
    ∃ n p c, parseWithContent n p c line = some e ∧
      (fmt = .raw → n = none ∧ p = "None[None]") := by
  cases fmt with
  | systemd =>
    unfold parse_line at h
    split at h
    · exact absurd h (by simp)
    · dsimp only at h
      split at h
      · exact ⟨_, _, _, h, by intro hc; cases hc⟩
      · exact absurd h (by simp)
  | raw =>
    unfold parse_line at h
    split at h
    · exact absurd h (by simp)
    · dsimp only at h
      exact ⟨_, _, _, h, fun _ => ⟨rfl, rfl⟩⟩

/-! The parser never stores the empty string in a comma/whitespace-delimited
labeled field: those patterns require at least one class character, and the
class excludes whitespace, so stripping cannot empty the value. -/

def NoEmptyIds (e : LogEntry) : Prop :=
  e.session_id ≠ some "" ∧ e.trace_id ≠ some "" ∧ e.phy_tx_id ≠ some "" ∧
  e.status ≠ some "" ∧ e.key ≠ some "" ∧ e.component ≠ some "" ∧
  e.tx_id ≠ some "" ∧ e.query_action ≠ some "" ∧ e.query_type ≠ some ""

theorem noEmpty_exTimestamp (c : List Char) (e : LogEntry) (h : NoEmptyIds e) :
    NoEmptyIds (exTimestamp c e) := by
  unfold exTimestamp; split <;> exact h

theorem noEmpty_exLockId (c : List Char) (e : LogEntry) (h : NoEmptyIds e) :
    NoEmptyIds (exLockId c e) := by
  unfold exLockId; split <;> exact h

theorem noEmpty_exQueryText (c : List Char) (e : LogEntry) (h : NoEmptyIds e) :
    NoEmptyIds (exQueryText c e) := by
  unfold exQueryText; split <;> exact h

theorem noEmpty_exIssues (c : List Char) (e : LogEntry) (h : NoEmptyIds e) :
    NoEmptyIds (exIssues c e) := by
  unfold exIssues; split <;> exact h

theorem noEmpty_exBreakLocks (c : List Char) (e : LogEntry) (h : NoEmptyIds e) :
    NoEmptyIds (exBreakLocks c e) := by
  unfold exBreakLocks; split <;> exact h

theorem noEmpty_exBeginTx (c : List Char) (e : LogEntry) (h : NoEmptyIds e) :
    NoEmptyIds (exBeginTx c e) := by
  unfold exBeginTx; split <;> exact h

theorem noEmpty_exSessionId (c : List Char) (e : LogEntry) (h : NoEmptyIds e) :
    NoEmptyIds (exSessionId c e) := by
  unfold exSessionId
  cases hs : scanLabeled "SessionId:".toList classFld c with
  | none => exact h
  | some v =>
    obtain ⟨grp, hv, hne, hgood⟩ := scanLabeled_inv _ _ _ _ hs
    subst hv
    have hstr := pyStrip_of_noSpace grp (fun ch hm => classFld_no_space ch (hgood ch hm))
    have hval : some (pyStrip (String.mk grp)) ≠ some "" := by
      rw [hstr]; simpa using mk_ne_empty grp hne
    obtain ⟨a1, a2, a3, a4, a5, a6, a7, a8, a9⟩ := h
    exact ⟨hval, a2, a3, a4, a5, a6, a7, a8, a9⟩

theorem noEmpty_exTraceId (c : List Char) (e : LogEntry) (h : NoEmptyIds e) :
    NoEmptyIds (exTraceId c e) := by
  unfold exTraceId
  cases hs : scanLabeled "TraceId:".toList classFld c with
  | none => exact h
  | some v =>
    obtain ⟨grp, hv, hne, hgood⟩ := scanLabeled_inv _ _ _ _ hs
    subst hv
    have hstr := pyStrip_of_noSpace grp (fun ch hm => classFld_no_space ch (hgood ch hm))
    have hval : some (pyStrip (String.mk grp)) ≠ some "" := by
      rw [hstr]; simpa using mk_ne_empty grp hne
    obtain ⟨a1, a2, a3, a4, a5, a6, a7, a8, a9⟩ := h
    exact ⟨a1, hval, a3, a4, a5, a6, a7, a8, a9⟩

theorem noEmpty_exPhyTxId (c : List Char) (e : LogEntry) (h : NoEmptyIds e) :
    NoEmptyIds (exPhyTxId c e) := by
  unfold exPhyTxId
  cases hs : scanLabeled "PhyTxId:".toList reDigit c with
  | none => exact h
  | some v =>
    obtain ⟨grp, hv, hne, hgood⟩ := scanLabeled_inv _ _ _ _ hs
    subst hv
    have hstr := pyStrip_of_noSpace grp (fun ch hm => reDigit_no_space ch (hgood ch hm))
    have hval : some (pyStrip (String.mk grp)) ≠ some "" := by
      rw [hstr]; simpa using mk_ne_empty grp hne
    obtain ⟨a1, a2, a3, a4, a5, a6, a7, a8, a9⟩ := h
    exact ⟨a1, a2, hval, a4, a5, a6, a7, a8, a9⟩

theorem noEmpty_exStatus (c : List Char) (e : LogEntry) (h : NoEmptyIds e) :
    NoEmptyIds (exStatus c e) := by
  unfold exStatus
  cases hs : scanLabeled "Status:".toList classFld c with
  | none => exact h
  | some v =>
    obtain ⟨grp, hv, hne, hgood⟩ := scanLabeled_inv _ _ _ _ hs
    subst hv
    have hstr := pyStrip_of_noSpace grp (fun ch hm => classFld_no_space ch (hgood ch hm))
    have hval : some (pyStrip (String.mk grp)) ≠ some "" := by
      rw [hstr]; simpa using mk_ne_empty grp hne
    obtain ⟨a1, a2, a3, a4, a5, a6, a7, a8, a9⟩ := h
    exact ⟨a1, a2, a3, hval, a5, a6, a7, a8, a9⟩

theorem noEmpty_exKey (c : List Char) (e : LogEntry) (h : NoEmptyIds e) :
    NoEmptyIds (exKey c e) := by
  unfold exKey
  cases hs : scanLabeled "Key:".toList classFld c with
  | none => exact h
  | some v =>
    obtain ⟨grp, hv, hne, hgood⟩ := scanLabeled_inv _ _ _ _ hs
    subst hv
    have hstr := pyStrip_of_noSpace grp (fun ch hm => classFld_no_space ch (hgood ch hm))
    have hval : some (pyStrip (String.mk grp)) ≠ some "" := by
      rw [hstr]; simpa using mk_ne_empty grp hne
    obtain ⟨a1, a2, a3, a4, a5, a6, a7, a8, a9⟩ := h
    exact ⟨a1, a2, a3, a4, hval, a6, a7, a8, a9⟩

theorem noEmpty_exComponent (c : List Char) (e : LogEntry) (h : NoEmptyIds e) :
    NoEmptyIds (exComponent c e) := by
  unfold exComponent
  cases hs : scanLabeled "Component:".toList classFld c with
  | none => exact h
  | some v =>
    obtain ⟨grp, hv, hne, hgood⟩ := scanLabeled_inv _ _ _ _ hs
    subst hv
    have hstr := pyStrip_of_noSpace grp (fun ch hm => classFld_no_space ch (hgood ch hm))
    have hval : some (pyStrip (String.mk grp)) ≠ some "" := by
      rw [hstr]; simpa using mk_ne_empty grp hne
    obtain ⟨a1, a2, a3, a4, a5, a6, a7, a8, a9⟩ := h
    exact ⟨a1, a2, a3, a4, a5, hval, a7, a8, a9⟩

theorem noEmpty_exTxId (c : List Char) (e : LogEntry) (h : NoEmptyIds e) :
    NoEmptyIds (exTxId c e) := by
  unfold exTxId
  cases hs : scanLabeled "TxId:".toList classFld c with
  | none => exact h
  | some v =>
    obtain ⟨grp, hv, hne, hgood⟩ := scanLabeled_inv _ _ _ _ hs
    subst hv
    have hstr := pyStrip_of_noSpace grp (fun ch hm => classFld_no_space ch (hgood ch hm))
    have hval : some (pyStrip (String.mk grp)) ≠ some "" := by
      rw [hstr]; simpa using mk_ne_empty grp hne
    obtain ⟨a1, a2, a3, a4, a5, a6, a7, a8, a9⟩ := h
    exact ⟨a1, a2, a3, a4, a5, a6, hval, a8, a9⟩

theorem noEmpty_exQueryAction (c : List Char) (e : LogEntry) (h : NoEmptyIds e) :
    NoEmptyIds (exQueryAction c e) := by
  unfold exQueryAction
  cases hs : scanLabeled "QueryAction:".toList classFld c with
  | none => exact h
  | some v =>
    obtain ⟨grp, hv, hne, hgood⟩ := scanLabeled_inv _ _ _ _ hs
    subst hv
    have hstr := pyStrip_of_noSpace grp (fun ch hm => classFld_no_space ch (hgood ch hm))
    have hval : some (pyStrip (String.mk grp)) ≠ some "" := by
      rw [hstr]; simpa using mk_ne_empty grp hne
    obtain ⟨a1, a2, a3, a4, a5, a6, a7, a8, a9⟩ := h
    exact ⟨a1, a2, a3, a4, a5, a6, a7, hval, a9⟩

theorem noEmpty_exQueryType (c : List Char) (e : LogEntry) (h : NoEmptyIds e) :
    NoEmptyIds (exQueryType c e) := by
  unfold exQueryType
  cases hs : scanLabeled "QueryType:".toList classFld c with
  | none => exact h
  | some v =>
    obtain ⟨grp, hv, hne, hgood⟩ := scanLabeled_inv _ _ _ _ hs
    subst hv
    have hstr := pyStrip_of_noSpace grp (fun ch hm => classFld_no_space ch (hgood ch hm))
    have hval : some (pyStrip (String.mk grp)) ≠ some "" := by
      rw [hstr]; simpa using mk_ne_empty grp hne
    obtain ⟨a1, a2, a3, a4, a5, a6, a7, a8, a9⟩ := h
    exact ⟨a1, a2, a3, a4, a5, a6, a7, a8, hval⟩

theorem extractFields_noEmptyIds (c : List Char) (e0 : LogEntry)
    (h : NoEmptyIds e0) : NoEmptyIds (extractFields c e0) := by
  unfold extractFields
  exact noEmpty_exBeginTx _ _ (noEmpty_exQueryType _ _ (noEmpty_exQueryAction _ _
    (noEmpty_exTxId _ _ (noEmpty_exComponent _ _ (noEmpty_exBreakLocks _ _
      (noEmpty_exIssues _ _ (noEmpty_exKey _ _ (noEmpty_exQueryText _ _
        (noEmpty_exStatus _ _ (noEmpty_exLockId _ _ (noEmpty_exPhyTxId _ _
          (noEmpty_exTraceId _ _ (noEmpty_exSessionId _ _
            (noEmpty_exTimestamp _ _ h))))))))))))))

/-! ### Claim C3 -/

def c3_line : String := "x :A B: QueryText: \"\",TraceId: t1"

/-- C3 counterexample: the claim says every labeled field whose extracted
value is the empty string is normalized to the unset value (`none`).  The
query-text pattern can extract an empty group (`QueryText: ""`), and
`parse_line` stores the stripped value unconditionally, so the parsed record
holds `some ""` in `query_text`, not `none`. -/
theorem C3_counterexample :
    (parse_line .raw c3_line).map LogEntry.query_text = some (some "") := by rfl

/-- C3 (amended): the comma/whitespace-delimited labeled id fields are never
stored as the empty string: their patterns demand at least one
non-comma-non-whitespace (or digit) character, so an empty field is simply
left unset.  Only the quote-delimited query-text field (and the
brace-delimited issues field) can extract an empty value, and it is then
stored as the empty string - which is falsy in Python, hence behaves as
unset in every downstream truthiness check - rather than as `None`. -/
theorem C3_no_empty_labeled_fields (fmt : LogFormat) (line : String) (e : LogEntry)
    (h : parse_line fmt line = some e) :
    e.session_id ≠ some "" ∧ e.trace_id ≠ some "" ∧ e.phy_tx_id ≠ some "" ∧
    e.status ≠ some "" ∧ e.key ≠ some "" ∧ e.component ≠ some "" ∧
    e.tx_id ≠ some "" ∧ e.query_action ≠ some "" ∧ e.query_type ≠ some "" := by
  obtain ⟨n, p, c, hpc, _⟩ := parse_line_some fmt line e h
  obtain ⟨mt, lvl, rfl⟩ := parseWithContent_some _ _ _ _ _ hpc
  have h0 : NoEmptyIds
      { node := n, process := p, message_type := mt, log_level := lvl,
        raw_line := line } := by
    refine ⟨?_, ?_, ?_, ?_, ?_, ?_, ?_, ?_, ?_⟩ <;> simp
  exact extractFields_noEmptyIds c _ h0

def c3_witness_entry : LogEntry := (parse_line .raw "x :A B: TraceId: t1").getD {}

/-- Witness for the amended C3 theorem at a concrete parsed line. -/
theorem C3_witness : c3_witness_entry.session_id ≠ some "" ∧
    c3_witness_entry.trace_id ≠ some "" ∧ c3_witness_entry.phy_tx_id ≠ some "" ∧
    c3_witness_entry.status ≠ some "" ∧ c3_witness_entry.key ≠ some "" ∧
    c3_witness_entry.component ≠ some "" ∧ c3_witness_entry.tx_id ≠ some "" ∧
    c3_witness_entry.query_action ≠ some "" ∧ c3_witness_entry.query_type ≠ some "" :=
  C3_no_empty_labeled_fields .raw "x :A B: TraceId: t1" c3_witness_entry (by rfl)

/-! ### Claim C10 -/

/-- C10: in the raw dialect every successfully parsed record carries the
literal string `None[None]` in its originating-process field (the f-string
formatting of the absent process and pid) and an unset origin host. -/
theorem C10_raw_dialect_process (line : String) (e : LogEntry)
    (h : parse_line .raw line = some e) :
    e.process = "None[None]" ∧ e.node = none := by
  obtain ⟨n, p, c, hpc, hr⟩ := parse_line_some _ _ _ h
  obtain ⟨hn, hp⟩ := hr rfl
  subst hn hp
  obtain ⟨mt, lvl, rfl⟩ := parseWithContent_some _ _ _ _ _ hpc
  have hk := extractFields_process_node c
    { node := none, process := "None[None]", message_type := mt, log_level := lvl,
      raw_line := line }
  exact ⟨hk.1, hk.2⟩

def c10_entry : LogEntry := (parse_line .raw "x :A B: TraceId: t1").getD {}

/-- Witness for C10 at a concrete raw-dialect line. -/
theorem C10_witness : c10_entry.process = "None[None]" ∧ c10_entry.node = none :=
  C10_raw_dialect_process "x :A B: TraceId: t1" c10_entry (by rfl)

/-! ### Claim C6 -/

/-- Escape a query text for injection into a synthetic line: quotes and
newlines become their backslash escapes (the inverse of the unescaping that
`parse_line` performs). -/
def escQ : List Char → List Char
  | [] => []
  | c :: cs =>
    if c = '\"' then '\\' :: '\"' :: escQ cs
    else if c = '\n' then '\\' :: 'n' :: escQ cs
    else c :: escQ cs

/-- Build a synthetic raw-dialect log line carrying the given labeled field
values. -/
def mkTestLine (ts sid tid tx qt : String) : String :=
  ts ++ " :KQP_SESSION INFO: SessionId: " ++ sid ++ ",TraceId: " ++ tid ++
  ",TxId: " ++ tx ++ ",QueryText: \"" ++ String.mk (escQ qt.toList) ++
  "\",QueryAction: QUERY_ACTION_EXECUTE"

def c6_query : String := "SELECT \"name\"\nFROM users WHERE id=1"

/-- C6: parsing a synthetically constructed line and reading back each
injected field yields exactly the injected values; the escaped quotes and
the escaped newline inside the query text are unescaped back to their
literal characters. -/
theorem C6_round_trip :
    (parse_line .raw
        (mkTestLine "2025-01-02T03:04:05.678901Z" "sess1" "trace1" "tx42" c6_query)).map
      (fun e => (e.timestamp, e.session_id, e.trace_id, e.tx_id, e.query_text,
                 e.query_action)) =
    some ("2025-01-02T03:04:05.678901Z", some "sess1", some "trace1", some "tx42",
          some c6_query, some "QUERY_ACTION_EXECUTE") := by rfl

/-! ## Frame lemmas for the correlator state

Each state-modifying primitive and each processing step leaves every state
component it does not mention unchanged. -/

theorem dget_dset_self {α : Type} (d : List (String × α)) (k : String) (v : α) :
    dget (dset d k v) k = some v := by
  induction d with
  | nil => simp [dset, dget]
  | cons p rest ih =>
    unfold dset
    split
    · rename_i h
      simp [dget, h]
    · rename_i h
      simpa [dget, h] using ih

theorem dget_dset_ne {α : Type} (d : List (String × α)) (k q : String) (v : α)
    (h : q ≠ k) : dget (dset d k v) q = dget d q := by
  induction d with
  | nil => simp [dset, dget, Ne.symm h]
  | cons p rest ih =>
    obtain ⟨pk, pv⟩ := p
    unfold dset
    split
    · rename_i hk
      have hq : ¬pk = q := by
        rw [hk]
        exact fun hc => h hc.symm
      simp [dget, hq]
    · by_cases hq : pk = q <;> simp [dget, hq, ih]

@[simp] theorem setChain_frame (s : TracerState) (i : Nat) (c : LockInvalidationChain) :
    (setChain s i c).chains = s.chains ∧
    (setChain s i c).queries_by_tx = s.queries_by_tx ∧
    (setChain s i c).session_current_tx = s.session_current_tx ∧
    (setChain s i c).chains_by_lock_id = s.chains_by_lock_id ∧
    (setChain s i c).chains_by_culprit_phy_tx_id = s.chains_by_culprit_phy_tx_id ∧
    (setChain s i c).chains_by_culprit_trace_id = s.chains_by_culprit_trace_id ∧
    (setChain s i c).entries_by_trace = s.entries_by_trace ∧
    (setChain s i c).warnings = s.warnings ∧
    (setChain s i c).chainStore.length = s.chainStore.length := by
  unfold setChain; simp

@[simp] theorem warn_frame (s : TracerState) (w : String) :
    (warn s w).chains = s.chains ∧
    (warn s w).queries_by_tx = s.queries_by_tx ∧
    (warn s w).session_current_tx = s.session_current_tx ∧
    (warn s w).chains_by_lock_id = s.chains_by_lock_id ∧
    (warn s w).chains_by_culprit_phy_tx_id = s.chains_by_culprit_phy_tx_id ∧
    (warn s w).chains_by_culprit_trace_id = s.chains_by_culprit_trace_id ∧
    (warn s w).entries_by_trace = s.entries_by_trace ∧
    (warn s w).chainStore = s.chainStore := by
  exact ⟨rfl, rfl, rfl, rfl, rfl, rfl, rfl, rfl⟩

@[simp] theorem addDetail_frame (s : TracerState) (i : Nat) (l : String) :
    (addDetail s i l).chains = s.chains ∧
    (addDetail s i l).queries_by_tx = s.queries_by_tx ∧
    (addDetail s i l).session_current_tx = s.session_current_tx ∧
    (addDetail s i l).chains_by_lock_id = s.chains_by_lock_id ∧
    (addDetail s i l).chains_by_culprit_phy_tx_id = s.chains_by_culprit_phy_tx_id ∧
    (addDetail s i l).chains_by_culprit_trace_id = s.chains_by_culprit_trace_id ∧
    (addDetail s i l).entries_by_trace = s.entries_by_trace ∧
    (addDetail s i l).warnings = s.warnings ∧
    (addDetail s i l).chainStore.length = s.chainStore.length := by
  simp only [addDetail]
  cases hx : (getChainD s i).log_details <;> simp [hx]

@[simp] theorem collect_transaction_queries_frame (s : TracerState) (e : LogEntry) :
    (collect_transaction_queries s e).chains = s.chains ∧
    (collect_transaction_queries s e).session_current_tx = s.session_current_tx ∧
    (collect_transaction_queries s e).chains_by_lock_id = s.chains_by_lock_id ∧
    (collect_transaction_queries s e).chains_by_culprit_phy_tx_id = s.chains_by_culprit_phy_tx_id ∧
    (collect_transaction_queries s e).chains_by_culprit_trace_id = s.chains_by_culprit_trace_id ∧
    (collect_transaction_queries s e).entries_by_trace = s.entries_by_trace ∧
    (collect_transaction_queries s e).chainStore = s.chainStore := by
  unfold collect_transaction_queries; (repeat' split) <;> simp [apply_ite]

@[simp] theorem collect_session_tx_frame (s : TracerState) (e : LogEntry) :
    (collect_session_tx s e).chains = s.chains ∧
    (collect_session_tx s e).queries_by_tx = s.queries_by_tx ∧
    (collect_session_tx s e).chains_by_lock_id = s.chains_by_lock_id ∧
    (collect_session_tx s e).chains_by_culprit_phy_tx_id = s.chains_by_culprit_phy_tx_id ∧
    (collect_session_tx s e).chains_by_culprit_trace_id = s.chains_by_culprit_trace_id ∧
    (collect_session_tx s e).entries_by_trace = s.entries_by_trace ∧
    (collect_session_tx s e).warnings = s.warnings ∧
    (collect_session_tx s e).chainStore = s.chainStore := by
  unfold collect_session_tx; (repeat' split) <;> simp [apply_ite]

@[simp] theorem cache_entry_by_trace_frame (s : TracerState) (e : LogEntry) :
    (cache_entry_by_trace s e).chains = s.chains ∧
    (cache_entry_by_trace s e).queries_by_tx = s.queries_by_tx ∧
    (cache_entry_by_trace s e).session_current_tx = s.session_current_tx ∧
    (cache_entry_by_trace s e).chains_by_lock_id = s.chains_by_lock_id ∧
    (cache_entry_by_trace s e).chains_by_culprit_phy_tx_id = s.chains_by_culprit_phy_tx_id ∧
    (cache_entry_by_trace s e).chains_by_culprit_trace_id = s.chains_by_culprit_trace_id ∧
    (cache_entry_by_trace s e).warnings = s.warnings ∧
    (cache_entry_by_trace s e).chainStore = s.chainStore := by
  unfold cache_entry_by_trace
  split
  · cases hx : dget s.entries_by_trace (e.trace_id.getD "") with
    | none => simp [hx]
    | some cur =>
      simp only [hx]
      (repeat' split) <;> simp [apply_ite]
  · simp

@[simp] theorem create_new_chain_frame (s : TracerState) (e : LogEntry) (collect : Bool) :
    (create_new_chain s e collect).queries_by_tx = s.queries_by_tx ∧
    (create_new_chain s e collect).session_current_tx = s.session_current_tx ∧
    (create_new_chain s e collect).chains_by_lock_id = s.chains_by_lock_id ∧
    (create_new_chain s e collect).chains_by_culprit_phy_tx_id = s.chains_by_culprit_phy_tx_id ∧
    (create_new_chain s e collect).chains_by_culprit_trace_id = s.chains_by_culprit_trace_id ∧
    (create_new_chain s e collect).entries_by_trace = s.entries_by_trace ∧
    (create_new_chain s e collect).warnings = s.warnings := by
  unfold create_new_chain; split <;> simp

@[simp] theorem fill_victim_phy_tx_id_frame (s : TracerState) (e : LogEntry) :
    (fill_victim_phy_tx_id s e).chains = s.chains ∧
    (fill_victim_phy_tx_id s e).queries_by_tx = s.queries_by_tx ∧
    (fill_victim_phy_tx_id s e).session_current_tx = s.session_current_tx ∧
    (fill_victim_phy_tx_id s e).chains_by_lock_id = s.chains_by_lock_id ∧
    (fill_victim_phy_tx_id s e).chains_by_culprit_phy_tx_id = s.chains_by_culprit_phy_tx_id ∧
    (fill_victim_phy_tx_id s e).chains_by_culprit_trace_id = s.chains_by_culprit_trace_id ∧
    (fill_victim_phy_tx_id s e).entries_by_trace = s.entries_by_trace ∧
    (fill_victim_phy_tx_id s e).chainStore.length = s.chainStore.length := by
  unfold fill_victim_phy_tx_id; (repeat' split) <;> simp [apply_ite]

@[simp] theorem fill_lock_id_frame (s : TracerState) (e : LogEntry) :
    (fill_lock_id s e).chains = s.chains ∧
    (fill_lock_id s e).queries_by_tx = s.queries_by_tx ∧
    (fill_lock_id s e).session_current_tx = s.session_current_tx ∧
    (fill_lock_id s e).chains_by_culprit_phy_tx_id = s.chains_by_culprit_phy_tx_id ∧
    (fill_lock_id s e).chains_by_culprit_trace_id = s.chains_by_culprit_trace_id ∧
    (fill_lock_id s e).entries_by_trace = s.entries_by_trace ∧
    (fill_lock_id s e).chainStore.length = s.chainStore.length := by
  unfold fill_lock_id; (repeat' split) <;> simp [apply_ite]

@[simp] theorem fill_culprit_phy_goLoop_frame (e : LogEntry) (ls : List String) (s : TracerState) :
    (fill_culprit_phy_goLoop e ls s).chains = s.chains ∧
    (fill_culprit_phy_goLoop e ls s).queries_by_tx = s.queries_by_tx ∧
    (fill_culprit_phy_goLoop e ls s).session_current_tx = s.session_current_tx ∧
    (fill_culprit_phy_goLoop e ls s).chains_by_lock_id = s.chains_by_lock_id ∧
    (fill_culprit_phy_goLoop e ls s).chains_by_culprit_trace_id = s.chains_by_culprit_trace_id ∧
    (fill_culprit_phy_goLoop e ls s).entries_by_trace = s.entries_by_trace ∧
    (fill_culprit_phy_goLoop e ls s).chainStore.length = s.chainStore.length := by
  induction ls generalizing s with
  | nil => simp [fill_culprit_phy_goLoop]
  | cons x rest ih =>
    unfold fill_culprit_phy_goLoop
    cases hx : dget s.chains_by_lock_id x with
    | none => simpa [hx] using ih s
    | some i =>
      simp only [hx]
      split
      · simp [ih]
      · split
        · simp [ih]
        · split <;> simp [ih]

@[simp] theorem fill_culprit_trace_goLoop_frame (e : LogEntry) (ls : List Nat) (s : TracerState) :
    (fill_culprit_trace_goLoop e ls s).chains = s.chains ∧
    (fill_culprit_trace_goLoop e ls s).queries_by_tx = s.queries_by_tx ∧
    (fill_culprit_trace_goLoop e ls s).session_current_tx = s.session_current_tx ∧
    (fill_culprit_trace_goLoop e ls s).chains_by_lock_id = s.chains_by_lock_id ∧
    (fill_culprit_trace_goLoop e ls s).chains_by_culprit_phy_tx_id = s.chains_by_culprit_phy_tx_id ∧
    (fill_culprit_trace_goLoop e ls s).entries_by_trace = s.entries_by_trace ∧
    (fill_culprit_trace_goLoop e ls s).chainStore.length = s.chainStore.length := by
  induction ls generalizing s with
  | nil => simp [fill_culprit_trace_goLoop]
  | cons x rest ih =>
    unfold fill_culprit_trace_goLoop
    repeat' (split <;> (try simp [ih]))
    all_goals simp [ih]

@[simp] theorem fill_culprit_session_goLoop_frame (e : LogEntry) (ls : List Nat) (s : TracerState) :
    (fill_culprit_session_goLoop e ls s).chains = s.chains ∧
    (fill_culprit_session_goLoop e ls s).queries_by_tx = s.queries_by_tx ∧
    (fill_culprit_session_goLoop e ls s).session_current_tx = s.session_current_tx ∧
    (fill_culprit_session_goLoop e ls s).chains_by_lock_id = s.chains_by_lock_id ∧
    (fill_culprit_session_goLoop e ls s).chains_by_culprit_phy_tx_id = s.chains_by_culprit_phy_tx_id ∧
    (fill_culprit_session_goLoop e ls s).chains_by_culprit_trace_id = s.chains_by_culprit_trace_id ∧
    (fill_culprit_session_goLoop e ls s).entries_by_trace = s.entries_by_trace ∧
    (fill_culprit_session_goLoop e ls s).chainStore.length = s.chainStore.length := by
  induction ls generalizing s with
  | nil => simp [fill_culprit_session_goLoop]
  | cons x rest ih =>
    unfold fill_culprit_session_goLoop
    repeat' (split <;> (try simp [ih]))
    all_goals simp [ih]

@[simp] theorem fill_culprit_tx_goLoop_frame (e : LogEntry) (ls : List Nat) (s : TracerState) :
    (fill_culprit_tx_goLoop e ls s).chains = s.chains ∧
    (fill_culprit_tx_goLoop e ls s).queries_by_tx = s.queries_by_tx ∧
    (fill_culprit_tx_goLoop e ls s).session_current_tx = s.session_current_tx ∧
    (fill_culprit_tx_goLoop e ls s).chains_by_lock_id = s.chains_by_lock_id ∧
    (fill_culprit_tx_goLoop e ls s).chains_by_culprit_phy_tx_id = s.chains_by_culprit_phy_tx_id ∧
    (fill_culprit_tx_goLoop e ls s).chains_by_culprit_trace_id = s.chains_by_culprit_trace_id ∧
    (fill_culprit_tx_goLoop e ls s).entries_by_trace = s.entries_by_trace ∧
    (fill_culprit_tx_goLoop e ls s).chainStore.length = s.chainStore.length := by
  induction ls generalizing s with
  | nil => simp [fill_culprit_tx_goLoop]
  | cons x rest ih =>
    unfold fill_culprit_tx_goLoop
    repeat' (split <;> (try simp [ih]))
    all_goals simp [ih]

@[simp] theorem fill_culprit_phy_tx_id_frame (s : TracerState) (e : LogEntry) :
    (fill_culprit_phy_tx_id s e).chains = s.chains ∧
    (fill_culprit_phy_tx_id s e).queries_by_tx = s.queries_by_tx ∧
    (fill_culprit_phy_tx_id s e).session_current_tx = s.session_current_tx ∧
    (fill_culprit_phy_tx_id s e).chains_by_lock_id = s.chains_by_lock_id ∧
    (fill_culprit_phy_tx_id s e).chains_by_culprit_trace_id = s.chains_by_culprit_trace_id ∧
    (fill_culprit_phy_tx_id s e).entries_by_trace = s.entries_by_trace ∧
    (fill_culprit_phy_tx_id s e).chainStore.length = s.chainStore.length := by
  unfold fill_culprit_phy_tx_id; (repeat' split) <;> simp [apply_ite]

@[simp] theorem fill_culprit_trace_id_frame (s : TracerState) (e : LogEntry) :
    (fill_culprit_trace_id s e).chains = s.chains ∧
    (fill_culprit_trace_id s e).queries_by_tx = s.queries_by_tx ∧
    (fill_culprit_trace_id s e).session_current_tx = s.session_current_tx ∧
    (fill_culprit_trace_id s e).chains_by_lock_id = s.chains_by_lock_id ∧
    (fill_culprit_trace_id s e).chains_by_culprit_phy_tx_id = s.chains_by_culprit_phy_tx_id ∧
    (fill_culprit_trace_id s e).entries_by_trace = s.entries_by_trace ∧
    (fill_culprit_trace_id s e).chainStore.length = s.chainStore.length := by
  cases hp : e.phy_tx_id with
  | none => simp [fill_culprit_trace_id, hp]
  | some p =>
    simp only [fill_culprit_trace_id, hp]
    cases hd : dget s.chains_by_culprit_phy_tx_id p with
    | none => simp [hd]
    | some l =>
      simp only [hd]
      split <;> simp

@[simp] theorem fill_culprit_session_id_frame (s : TracerState) (e : LogEntry) :
    (fill_culprit_session_id s e).chains = s.chains ∧
    (fill_culprit_session_id s e).queries_by_tx = s.queries_by_tx ∧
    (fill_culprit_session_id s e).session_current_tx = s.session_current_tx ∧
    (fill_culprit_session_id s e).chains_by_lock_id = s.chains_by_lock_id ∧
    (fill_culprit_session_id s e).chains_by_culprit_phy_tx_id = s.chains_by_culprit_phy_tx_id ∧
    (fill_culprit_session_id s e).chains_by_culprit_trace_id = s.chains_by_culprit_trace_id ∧
    (fill_culprit_session_id s e).entries_by_trace = s.entries_by_trace ∧
    (fill_culprit_session_id s e).chainStore.length = s.chainStore.length := by
  cases hp : e.trace_id with
  | none => simp [fill_culprit_session_id, hp]
  | some p =>
    simp only [fill_culprit_session_id, hp]
    cases hd : dget s.chains_by_culprit_trace_id p with
    | none => simp [hd]
    | some l =>
      simp only [hd]
      split <;> simp

@[simp] theorem fill_culprit_tx_id_frame (s : TracerState) (e : LogEntry) :
    (fill_culprit_tx_id s e).chains = s.chains ∧
    (fill_culprit_tx_id s e).queries_by_tx = s.queries_by_tx ∧
    (fill_culprit_tx_id s e).session_current_tx = s.session_current_tx ∧
    (fill_culprit_tx_id s e).chains_by_lock_id = s.chains_by_lock_id ∧
    (fill_culprit_tx_id s e).chains_by_culprit_phy_tx_id = s.chains_by_culprit_phy_tx_id ∧
    (fill_culprit_tx_id s e).chains_by_culprit_trace_id = s.chains_by_culprit_trace_id ∧
    (fill_culprit_tx_id s e).entries_by_trace = s.entries_by_trace ∧
    (fill_culprit_tx_id s e).chainStore.length = s.chainStore.length := by
  cases hp : e.trace_id with
  | none => simp [fill_culprit_tx_id, hp]
  | some p =>
    simp only [fill_culprit_tx_id, hp]
    cases hd : dget s.chains_by_culprit_trace_id p with
    | none => simp [hd]
    | some l =>
      simp only [hd]
      split <;> simp


theorem ite_chains (c : Prop) [Decidable c] (a b : TracerState) (d : List (String × Nat))
    (ha : a.chains = d) (hb : b.chains = d) : (if c then a else b).chains = d := by
  split <;> assumption

theorem pre_steps_chains (s : TracerState) (e : LogEntry) :
    (pre_steps s e).chains = s.chains ∧ (pre_steps s e).chainStore = s.chainStore := by
  unfold pre_steps
  constructor
  · rw [(cache_entry_by_trace_frame _ e).1, (collect_session_tx_frame _ e).1]
    exact ite_chains _ _ _ _ (collect_transaction_queries_frame s e).1 rfl
  · rw [(cache_entry_by_trace_frame _ e).2.2.2.2.2.2.2,
        (collect_session_tx_frame _ e).2.2.2.2.2.2.2]
    split
    · exact (collect_transaction_queries_frame s e).2.2.2.2.2.2
    · rfl

theorem post_fill_steps_chains (s : TracerState) (e : LogEntry) :
    (post_fill_steps s e).chains = s.chains := by
  unfold post_fill_steps
  refine ite_chains _ _ _ _ ((fill_culprit_tx_id_frame _ e).1.trans ?_) ?_ <;>
  refine ite_chains _ _ _ _ ((fill_culprit_session_id_frame _ e).1.trans ?_) ?_ <;>
  refine ite_chains _ _ _ _ ((fill_culprit_trace_id_frame _ e).1.trans ?_) ?_ <;>
  refine ite_chains _ _ _ _ ((fill_culprit_phy_tx_id_frame _ e).1.trans ?_) ?_ <;>
  refine ite_chains _ _ _ _ ((fill_lock_id_frame _ e).1.trans ?_) ?_ <;>
  exact ite_chains _ _ _ _ (fill_victim_phy_tx_id_frame s e).1 rfl


/-! ### Claim C1 -/

theorem create_new_chain_chains_set (s : TracerState) (e : LogEntry) (collect : Bool)
    (h2 : strTruthy e.trace_id = true) (h3 : strTruthy e.session_id = true) :
    (create_new_chain s e collect).chains =
      dset s.chains (e.trace_id.getD "") s.chainStore.length := by
  unfold create_new_chain
  simp [h2, h3]

theorem create_new_chain_id (s : TracerState) (e : LogEntry) (collect : Bool)
    (h : (strTruthy e.trace_id && strTruthy e.session_id) = false) :
    create_new_chain s e collect = s := by
  unfold create_new_chain
  have hg : (!strTruthy e.trace_id || !strTruthy e.session_id) = true := by
    rw [← Bool.not_and, h]
    rfl
  simp [hg]

def c1_tli1 : LogEntry :=
  { timestamp := "300"
    session_id := some "s1"
    trace_id := some "vt"
    tx_id := some "t1"
    status := some "ABORTED"
    issues := some "Transaction locks invalidated"
    raw_line := "r1" }

def c1_tli2 : LogEntry :=
  { c1_tli1 with
    session_id := some "s2"
    raw_line := "r2" }

/-- C1 counterexample: two invalidation records with the same trace id; the
claim demands that the second one be a no-op, but the scan of
`ChainTracerSinglePass` stores the chain created from the second record (its
`_create_new_chain` has no existing-chain check and overwrites
`self.chains[entry.trace_id]`), so the surviving chain is built from the
second record, not the first. -/
theorem C1_counterexample :
    (find_all_invalidation_chains [c1_tli1, c1_tli2] false).map
        LockInvalidationChain.victim_entry = [c1_tli2] ∧
    c1_tli1 ≠ c1_tli2 :=
  ⟨by rfl, by decide⟩

/-- C1 (amended): the correlator creates a chain for an invalidation record
(diagnostic message contains the invalidation marker and status equals the
aborted tag) if and only if the record carries both a trace id and a session
id — an existing chain for that trace id does NOT prevent creation: the
dictionary entry for the trace id is redirected to the freshly created
chain, so the chain stored for a victim trace id after the scan is the one
created by the LAST invalidation record observed for that trace id. -/
theorem C1_chain_creation (s : TracerState) (e : LogEntry) (collect : Bool) :
    (isTransactionLocksInvalidated e = true → strTruthy e.trace_id = true →
      strTruthy e.session_id = true →
      dget (process_entry s e collect).chains (e.trace_id.getD "") =
        some s.chainStore.length) ∧
    ((isTransactionLocksInvalidated e && strTruthy e.trace_id &&
        strTruthy e.session_id) = false →
      (process_entry s e collect).chains = s.chains) ∧
    (strTruthy e.trace_id = true → strTruthy e.session_id = true →
      getChainD (create_new_chain s e collect) s.chainStore.length =
        mkVictimChain e collect) := by
  refine ⟨?_, ?_, ?_⟩
  · intro h1 h2 h3
    unfold process_entry
    rw [post_fill_steps_chains, if_pos h1, create_new_chain_chains_set _ _ _ h2 h3,
        (pre_steps_chains s e).1, (pre_steps_chains s e).2]
    exact dget_dset_self _ _ _
  · intro hno
    unfold process_entry
    rw [post_fill_steps_chains]
    by_cases hT : isTransactionLocksInvalidated e = true
    · rw [hT] at hno
      have hAB : (strTruthy e.trace_id && strTruthy e.session_id) = false := by
        simpa using hno
      rw [if_pos hT, create_new_chain_id _ _ _ hAB]
      exact (pre_steps_chains s e).1
    · rw [if_neg hT]
      exact (pre_steps_chains s e).1
  · intro h2 h3
    unfold create_new_chain
    have hg : (!strTruthy e.trace_id || !strTruthy e.session_id) = false := by
      simp [h2, h3]
    simp [hg, getChainD, List.get?_eq_getElem?, List.getElem?_concat_length]

def c1_nontli : LogEntry := { c1_tli1 with status := some "OK" }

/-- Witness for the amended C1 theorem: a fresh correlator processing one
concrete invalidation record creates the chain under its trace id; a record
without the aborted status leaves the chain dictionary unchanged; the
created chain is exactly the one built from the record. -/
theorem C1_witness :
    dget (process_entry {} c1_tli1 false).chains "vt" = some 0 ∧
    (process_entry {} c1_nontli false).chains = ({} : TracerState).chains ∧
    getChainD (create_new_chain {} c1_tli1 false) 0 = mkVictimChain c1_tli1 false := by
  have h := C1_chain_creation {} c1_tli1 false
  have h2 := C1_chain_creation {} c1_nontli false
  exact ⟨h.1 (by decide) (by decide) (by decide), h2.2.1 (by decide),
         h.2.2 (by decide) (by decide)⟩

/-! ## Access lemmas for the chain heap -/

theorem getChainD_store_eq (s s2 : TracerState) (h : s2.chainStore = s.chainStore)
    (j : Nat) : getChainD s2 j = getChainD s j := by
  simp [getChainD, h]

theorem getChainD_of_ge (s : TracerState) (j : Nat) (h : s.chainStore.length ≤ j) :
    getChainD s j = defaultChain := by
  simp [getChainD, List.getElem?_eq_none h]

theorem setChain_of_ge (s : TracerState) (i : Nat) (c : LockInvalidationChain)
    (h : s.chainStore.length ≤ i) : setChain s i c = s := by
  simp [setChain, List.set_eq_of_length_le h]

theorem getChainD_setChain_self (s : TracerState) (i : Nat) (c : LockInvalidationChain)
    (h : i < s.chainStore.length) : getChainD (setChain s i c) i = c := by
  simp [getChainD, setChain, List.getElem?_set_self, h]

theorem getChainD_setChain_ne (s : TracerState) (i j : Nat) (c : LockInvalidationChain)
    (h : i ≠ j) : getChainD (setChain s i c) j = getChainD s j := by
  simp [getChainD, setChain, List.getElem?_set_ne h]

theorem getChainD_setChain (s : TracerState) (i : Nat) (c : LockInvalidationChain)
    (j : Nat) :
    getChainD (setChain s i c) j =
      if j = i ∧ i < s.chainStore.length then c else getChainD s j := by
  by_cases h1 : j = i
  · subst h1
    by_cases h2 : j < s.chainStore.length
    · simp [getChainD_setChain_self _ _ _ h2, h2]
    · rw [setChain_of_ge _ _ _ (Nat.le_of_not_lt h2)]
      simp [h2]
  · rw [getChainD_setChain_ne _ _ _ _ (fun hc => h1 hc.symm)]
    simp [h1]

/-- Writing a chain that agrees with the overwritten one on a projection `f`
leaves `f` of every heap slot unchanged. -/
theorem getChainD_set_preserves {α : Type} (s : TracerState) (j : Nat)
    (c : LockInvalidationChain) (i : Nat) (f : LockInvalidationChain → α)
    (hc : f c = f (getChainD s j)) :
    f (getChainD (setChain s j c) i) = f (getChainD s i) := by
  rw [getChainD_setChain]
  split
  · rename_i h
    rw [hc, h.1]
  · rfl

theorem getChainD_warn (s : TracerState) (w : String) (i : Nat) :
    getChainD (warn s w) i = getChainD s i := rfl

/-- `addDetail` only touches the `log_details` field of one chain. -/
theorem getChainD_addDetail_pres {α : Type} (s : TracerState) (j : Nat) (l : String)
    (i : Nat) (f : LockInvalidationChain → α)
    (hf : ∀ (c : LockInvalidationChain) (d : List String),
      f { c with log_details := some (osetAdd d l) } = f c) :
    f (getChainD (addDetail s j l) i) = f (getChainD s i) := by
  simp only [addDetail]
  cases hx : (getChainD s j).log_details with
  | none => rfl
  | some d => exact getChainD_set_preserves s j _ i f (hf _ d)

theorem create_getChainD (s : TracerState) (e : LogEntry) (collect : Bool) (i : Nat)
    (h : i < s.chainStore.length) :
    getChainD (create_new_chain s e collect) i = getChainD s i := by
  unfold create_new_chain
  split
  · rfl
  · simp [getChainD, List.getElem?_append_left h]

theorem getChainD_ctq (s : TracerState) (e : LogEntry) (j : Nat) :
    getChainD (collect_transaction_queries s e) j = getChainD s j :=
  getChainD_store_eq _ _ ((collect_transaction_queries_frame s e).2.2.2.2.2.2) j

theorem getChainD_cst (s : TracerState) (e : LogEntry) (j : Nat) :
    getChainD (collect_session_tx s e) j = getChainD s j :=
  getChainD_store_eq _ _ ((collect_session_tx_frame s e).2.2.2.2.2.2.2) j

theorem getChainD_cache (s : TracerState) (e : LogEntry) (j : Nat) :
    getChainD (cache_entry_by_trace s e) j = getChainD s j :=
  getChainD_store_eq _ _ ((cache_entry_by_trace_frame s e).2.2.2.2.2.2.2) j

/-! ## Generic projection preservation through the fill steps -/

theorem fill_victim_phy_pres {α : Type} (s : TracerState) (e : LogEntry) (i : Nat)
    (f : LockInvalidationChain → α)
    (hlog : ∀ (c : LockInvalidationChain) (d : List String),
      f { c with log_details := some (osetAdd d e.raw_line) } = f c)
    (hset : ∀ c : LockInvalidationChain,
      f { c with victim_phy_tx_id := e.phy_tx_id } = f c) :
    f (getChainD (fill_victim_phy_tx_id s e) i) = f (getChainD s i) := by
  unfold fill_victim_phy_tx_id
  cases hc : chainIdxFor s e.trace_id with
  | none => rfl
  | some j =>
    dsimp only
    split
    · exact getChainD_addDetail_pres s j _ i f hlog
    · split
      · exact getChainD_addDetail_pres s j _ i f hlog
      · exact (getChainD_set_preserves _ j _ i f (hset _)).trans
          (getChainD_addDetail_pres s j _ i f hlog)

theorem fill_lock_id_pres {α : Type} (s : TracerState) (e : LogEntry) (i : Nat)
    (f : LockInvalidationChain → α)
    (hlog : ∀ (c : LockInvalidationChain) (d : List String),
      f { c with log_details := some (osetAdd d e.raw_line) } = f c)
    (hset : ∀ (c : LockInvalidationChain) (x : String),
      f { c with lock_id := some x } = f c) :
    f (getChainD (fill_lock_id s e) i) = f (getChainD s i) := by
  unfold fill_lock_id
  cases hc : chainIdxFor s e.trace_id with
  | none => rfl
  | some j =>
    dsimp only
    split
    · exact getChainD_addDetail_pres s j _ i f hlog
    · split
      · exact getChainD_addDetail_pres s j _ i f hlog
      · split <;>
          exact (getChainD_set_preserves _ j _ i f (hset _ _)).trans
            (getChainD_addDetail_pres s j _ i f hlog)

theorem phy_goLoop_pres {α : Type} (e : LogEntry) (ls : List String)
    (s : TracerState) (i : Nat) (f : LockInvalidationChain → α)
    (hlog : ∀ (c : LockInvalidationChain) (d : List String),
      f { c with log_details := some (osetAdd d e.raw_line) } = f c)
    (hset : ∀ c : LockInvalidationChain,
      f { c with culprit_phy_tx_id := e.phy_tx_id } = f c) :
    f (getChainD (fill_culprit_phy_goLoop e ls s) i) = f (getChainD s i) := by
  induction ls generalizing s with
  | nil => rfl
  | cons lid rest ih =>
    unfold fill_culprit_phy_goLoop
    cases hd : dget s.chains_by_lock_id lid with
    | none => exact ih s
    | some j =>
      dsimp only
      (repeat' split)
      all_goals first
        | rfl
        | exact getChainD_addDetail_pres s j _ i f hlog
        | exact (ih _).trans (getChainD_addDetail_pres s j _ i f hlog)
        | exact (ih _).trans ((getChainD_set_preserves _ j _ i f (hset _)).trans
            (getChainD_addDetail_pres s j _ i f hlog))

theorem fill_culprit_phy_pres {α : Type} (s : TracerState) (e : LogEntry) (i : Nat)
    (f : LockInvalidationChain → α)
    (hlog : ∀ (c : LockInvalidationChain) (d : List String),
      f { c with log_details := some (osetAdd d e.raw_line) } = f c)
    (hset : ∀ c : LockInvalidationChain,
      f { c with culprit_phy_tx_id := e.phy_tx_id } = f c) :
    f (getChainD (fill_culprit_phy_tx_id s e) i) = f (getChainD s i) := by
  unfold fill_culprit_phy_tx_id
  split
  · rfl
  · split
    · rfl
    · exact phy_goLoop_pres e _ s i f hlog hset

theorem trace_goLoop_pres {α : Type} (e : LogEntry) (ls : List Nat)
    (s : TracerState) (i : Nat) (f : LockInvalidationChain → α)
    (hlog : ∀ (c : LockInvalidationChain) (d : List String),
      f { c with log_details := some (osetAdd d e.raw_line) } = f c)
    (hset : ∀ c : LockInvalidationChain,
      f { c with culprit_trace_id := e.trace_id } = f c) :
    f (getChainD (fill_culprit_trace_goLoop e ls s) i) = f (getChainD s i) := by
  induction ls generalizing s with
  | nil => rfl
  | cons j rest ih =>
    unfold fill_culprit_trace_goLoop
    dsimp only
    (repeat' split)
    all_goals first
      | rfl
      | exact getChainD_addDetail_pres s j _ i f hlog
      | exact (ih _).trans (getChainD_addDetail_pres s j _ i f hlog)
      | exact (ih _).trans ((getChainD_set_preserves _ j _ i f (hset _)).trans
          (getChainD_addDetail_pres s j _ i f hlog))

theorem fill_culprit_trace_pres {α : Type} (s : TracerState) (e : LogEntry) (i : Nat)
    (f : LockInvalidationChain → α)
    (hlog : ∀ (c : LockInvalidationChain) (d : List String),
      f { c with log_details := some (osetAdd d e.raw_line) } = f c)
    (hset : ∀ c : LockInvalidationChain,
      f { c with culprit_trace_id := e.trace_id } = f c) :
    f (getChainD (fill_culprit_trace_id s e) i) = f (getChainD s i) := by
  unfold fill_culprit_trace_id
  cases hp : e.phy_tx_id with
  | none => rfl
  | some p =>
    dsimp only
    cases hd : dget s.chains_by_culprit_phy_tx_id p with
    | none => rfl
    | some l =>
      dsimp only
      split
      · rfl
      · exact trace_goLoop_pres e l s i f hlog hset

theorem session_goLoop_pres {α : Type} (e : LogEntry) (ls : List Nat)
    (s : TracerState) (i : Nat) (f : LockInvalidationChain → α)
    (hlog : ∀ (c : LockInvalidationChain) (d : List String),
      f { c with log_details := some (osetAdd d e.raw_line) } = f c)
    (hset : ∀ c : LockInvalidationChain,
      f { c with culprit_session_id := e.session_id } = f c) :
    f (getChainD (fill_culprit_session_goLoop e ls s) i) = f (getChainD s i) := by
  induction ls generalizing s with
  | nil => rfl
  | cons j rest ih =>
    unfold fill_culprit_session_goLoop
    dsimp only
    (repeat' split)
    all_goals first
      | rfl
      | exact getChainD_addDetail_pres s j _ i f hlog
      | exact (ih _).trans (getChainD_addDetail_pres s j _ i f hlog)
      | exact (ih _).trans ((getChainD_set_preserves _ j _ i f (hset _)).trans
          (getChainD_addDetail_pres s j _ i f hlog))

theorem fill_culprit_session_pres {α : Type} (s : TracerState) (e : LogEntry) (i : Nat)
    (f : LockInvalidationChain → α)
    (hlog : ∀ (c : LockInvalidationChain) (d : List String),
      f { c with log_details := some (osetAdd d e.raw_line) } = f c)
    (hset : ∀ c : LockInvalidationChain,
      f { c with culprit_session_id := e.session_id } = f c) :
    f (getChainD (fill_culprit_session_id s e) i) = f (getChainD s i) := by
  unfold fill_culprit_session_id
  cases hp : e.trace_id with
  | none => rfl
  | some t =>
    dsimp only
    cases hd : dget s.chains_by_culprit_trace_id t with
    | none => rfl
    | some l =>
      dsimp only
      split
      · rfl
      · exact session_goLoop_pres e l s i f hlog hset

theorem tx_goLoop_pres {α : Type} (e : LogEntry) (ls : List Nat)
    (s : TracerState) (i : Nat) (f : LockInvalidationChain → α)
    (hlog : ∀ (c : LockInvalidationChain) (d : List String),
      f { c with log_details := some (osetAdd d e.raw_line) } = f c)
    (hset : ∀ c : LockInvalidationChain,
      f { c with culprit_tx_id := e.tx_id } = f c) :
    f (getChainD (fill_culprit_tx_goLoop e ls s) i) = f (getChainD s i) := by
  induction ls generalizing s with
  | nil => rfl
  | cons j rest ih =>
    unfold fill_culprit_tx_goLoop
    dsimp only
    (repeat' split)
    all_goals first
      | rfl
      | exact getChainD_addDetail_pres s j _ i f hlog
      | exact (ih _).trans (getChainD_addDetail_pres s j _ i f hlog)
      | exact (ih _).trans ((getChainD_set_preserves _ j _ i f (hset _)).trans
          (getChainD_addDetail_pres s j _ i f hlog))

theorem fill_culprit_tx_pres {α : Type} (s : TracerState) (e : LogEntry) (i : Nat)
    (f : LockInvalidationChain → α)
    (hlog : ∀ (c : LockInvalidationChain) (d : List String),
      f { c with log_details := some (osetAdd d e.raw_line) } = f c)
    (hset : ∀ c : LockInvalidationChain,
      f { c with culprit_tx_id := e.tx_id } = f c) :
    f (getChainD (fill_culprit_tx_id s e) i) = f (getChainD s i) := by
  unfold fill_culprit_tx_id
  cases hp : e.trace_id with
  | none => rfl
  | some t =>
    dsimp only
    cases hd : dget s.chains_by_culprit_trace_id t with
    | none => rfl
    | some l =>
      dsimp only
      split
      · rfl
      · exact tx_goLoop_pres e l s i f hlog hset

/-! ### Claim C8 -/

/-- C8: when a lock-broken-status record whose trace id owns a chain with an
unset lock id carries a lock-id list, the chain adopts the FIRST element of
the list, and a warning is logged if and only if the list has more than one
element (a single-element list logs nothing). -/
theorem C8_lock_id_adoption (s : TracerState) (e : LogEntry) (t : String) (i : Nat)
    (lst : List String)
    (ht : e.trace_id = some t)
    (hi : dget s.chains t = some i)
    (hiv : i < s.chainStore.length)
    (hunset : strTruthy (getChainD s i).lock_id = false)
    (hl : e.lock_id = some lst)
    (hne : lst ≠ []) :
    (getChainD (fill_lock_id s e) i).lock_id = some (lst.headD "") ∧
    (fill_lock_id s e).warnings =
      (if 1 < lst.length then s.warnings ++ [wLockSeveral] else s.warnings) := by
  have hidx : chainIdxFor s e.trace_id = some i := by simp [chainIdxFor, ht, hi]
  have hemp : lst.isEmpty = false := by
    cases lst with
    | nil => exact absurd rfl hne
    | cons a as => rfl
  unfold fill_lock_id
  rw [hidx]
  dsimp only
  rw [if_neg (by simp [hunset]), if_neg (by simp [hl, listTruthy, hemp])]
  rw [hl]
  dsimp only [Option.getD]
  by_cases hlen : 1 < lst.length
  · rw [if_pos hlen, if_pos hlen]
    have hlt : i < (warn (addDetail s i e.raw_line) wLockSeveral).chainStore.length := by
      simp [hiv]
    constructor
    · show (getChainD (setChain _ i _) i).lock_id = _
      rw [getChainD_setChain_self _ _ _ hlt]
    · show (setChain _ i _).warnings = _
      simp [warn]
  · rw [if_neg hlen, if_neg hlen]
    have hlt : i < (addDetail s i e.raw_line).chainStore.length := by
      simp [hiv]
    constructor
    · show (getChainD (setChain _ i _) i).lock_id = _
      rw [getChainD_setChain_self _ _ _ hlt]
    · show (setChain _ i _).warnings = _
      simp

def c8_chain : LockInvalidationChain :=
  { victim_session_id := "s"
    victim_trace_id := "vt"
    victim_entry := {} }

def c8_state : TracerState :=
  { chainStore := [c8_chain]
    chains := [("vt", 0)] }

def c8_entry : LogEntry :=
  { trace_id := some "vt"
    status := some "LOCKS_BROKEN"
    lock_id := some ["L1", "L2"]
    raw_line := "c8" }

/-- Witness for C8: a two-element lock-id list is adopted by its first
element and logs the multiple-lock-ids warning. -/
theorem C8_witness :
    (getChainD (fill_lock_id c8_state c8_entry) 0).lock_id = some "L1" ∧
    (fill_lock_id c8_state c8_entry).warnings =
      (if 1 < (["L1", "L2"] : List String).length then
        c8_state.warnings ++ [wLockSeveral]
      else c8_state.warnings) :=
  C8_lock_id_adoption c8_state c8_entry "vt" 0 ["L1", "L2"] (by rfl) (by rfl)
    (by decide) (by decide) (by rfl) (by decide)

/-! ### Claim C4 -/

/-- The pair of facts tracked through one record for claim C4: chain `i`
already records `v` as the victim physical-transaction id, and its culprit
physical-transaction id has some fixed value `w`. -/
def C4inv (i : Nat) (v : String) (w : Option String) (s : TracerState) : Prop :=
  (getChainD s i).victim_phy_tx_id = some v ∧
  (getChainD s i).culprit_phy_tx_id = w

theorem C4inv_step (i : Nat) (v : String) (w : Option String) (c : Prop)
    [Decidable c] (g : TracerState → TracerState) (s : TracerState)
    (hg : ∀ s2, C4inv i v w s2 → C4inv i v w (g s2)) (h : C4inv i v w s) :
    C4inv i v w (if c then g s else s) := by
  split
  · exact hg s h
  · exact h

theorem pre_C4 (s : TracerState) (e : LogEntry) (i : Nat) (v : String)
    (w : Option String) (h : C4inv i v w s) : C4inv i v w (pre_steps s e) := by
  obtain ⟨h1, h2⟩ := h
  have hq : getChainD
      (if strTruthy e.query_action = true then collect_transaction_queries s e else s) i =
      getChainD s i := by
    split
    · exact getChainD_ctq s e i
    · rfl
  unfold pre_steps
  dsimp only
  exact ⟨by rw [getChainD_cache, getChainD_cst, hq]; exact h1,
         by rw [getChainD_cache, getChainD_cst, hq]; exact h2⟩

theorem create_C4 (s : TracerState) (e : LogEntry) (collect : Bool) (i : Nat)
    (v : String) (w : Option String) (h : C4inv i v w s) :
    C4inv i v w (create_new_chain s e collect) := by
  obtain ⟨h1, h2⟩ := h
  have hval : i < s.chainStore.length := by
    by_contra hge
    rw [getChainD_of_ge s i (Nat.le_of_not_lt hge)] at h1
    simp [defaultChain] at h1
  exact ⟨by rw [create_getChainD _ _ _ _ hval]; exact h1,
         by rw [create_getChainD _ _ _ _ hval]; exact h2⟩

theorem fill_victim_phy_C4 (s : TracerState) (e : LogEntry) (i : Nat) (v : String)
    (w : Option String) (hv : v ≠ "") (h : C4inv i v w s) :
    C4inv i v w (fill_victim_phy_tx_id s e) := by
  obtain ⟨h1, h2⟩ := h
  refine ⟨?_, (fill_victim_phy_pres s e i (fun c => c.culprit_phy_tx_id)
    (fun c d => rfl) (fun c => rfl)).trans h2⟩
  unfold fill_victim_phy_tx_id
  cases hc : chainIdxFor s e.trace_id with
  | none => exact h1
  | some j =>
    dsimp only
    by_cases hj : j = i
    · subst hj
      rw [if_pos (by rw [h1]; simp [strTruthy, hv])]
      exact (getChainD_addDetail_pres s j _ j (fun c => c.victim_phy_tx_id)
        (fun c d => rfl)).trans h1
    · split
      · exact (getChainD_addDetail_pres s j _ i (fun c => c.victim_phy_tx_id)
          (fun c d => rfl)).trans h1
      · split
        · exact (getChainD_addDetail_pres s j _ i (fun c => c.victim_phy_tx_id)
            (fun c d => rfl)).trans h1
        · rw [getChainD_setChain_ne _ _ _ _ hj]
          exact (getChainD_addDetail_pres s j _ i (fun c => c.victim_phy_tx_id)
            (fun c d => rfl)).trans h1

theorem fill_lock_C4 (s : TracerState) (e : LogEntry) (i : Nat) (v : String)
    (w : Option String) (h : C4inv i v w s) : C4inv i v w (fill_lock_id s e) :=
  ⟨(fill_lock_id_pres s e i (fun c => c.victim_phy_tx_id)
      (fun c d => rfl) (fun c x => rfl)).trans h.1,
   (fill_lock_id_pres s e i (fun c => c.culprit_phy_tx_id)
      (fun c d => rfl) (fun c x => rfl)).trans h.2⟩

/-- The core of C4: while scanning the broken-lock ids of a record whose
physical-transaction id equals chain `i`'s already-recorded victim
physical-transaction id, the loop takes the self-notification skip branch for
chain `i`, so its culprit physical-transaction id is never written. -/
theorem phy_goLoop_C4 (e : LogEntry) (ls : List String) (s : TracerState)
    (i : Nat) (v : String) (w : Option String) (hv : v ≠ "")
    (hphy : e.phy_tx_id = some v) (h : C4inv i v w s) :
    C4inv i v w (fill_culprit_phy_goLoop e ls s) := by
  induction ls generalizing s with
  | nil => exact h
  | cons lid rest ih =>
    unfold fill_culprit_phy_goLoop
    cases hd : dget s.chains_by_lock_id lid with
    | none => exact ih s h
    | some j =>
      dsimp only
      have had : C4inv i v w (addDetail s j e.raw_line) :=
        ⟨(getChainD_addDetail_pres s j _ i (fun c => c.victim_phy_tx_id)
            (fun c d => rfl)).trans h.1,
         (getChainD_addDetail_pres s j _ i (fun c => c.culprit_phy_tx_id)
            (fun c d => rfl)).trans h.2⟩
      split
      · exact ih _ had
      · split
        · exact ih _ had
        · split
          · rename_i hskip hconf hunset
            by_cases hj : j = i
            · exfalso
              apply hskip
              subst hj
              rw [had.1, hphy]
              simp [strTruthy, hv]
            · refine ih _ ⟨?_, ?_⟩
              · exact (congrArg (fun c => c.victim_phy_tx_id)
                  (getChainD_setChain_ne _ j i _ hj)).trans had.1
              · exact (congrArg (fun c => c.culprit_phy_tx_id)
                  (getChainD_setChain_ne _ j i _ hj)).trans had.2
          · exact ih _ had

theorem fill_phy_C4 (s : TracerState) (e : LogEntry) (i : Nat) (v : String)
    (w : Option String) (hv : v ≠ "") (hphy : e.phy_tx_id = some v)
    (h : C4inv i v w s) : C4inv i v w (fill_culprit_phy_tx_id s e) := by
  unfold fill_culprit_phy_tx_id
  split
  · exact h
  · split
    · exact h
    · exact phy_goLoop_C4 e _ s i v w hv hphy h

theorem fill_trace_C4 (s : TracerState) (e : LogEntry) (i : Nat) (v : String)
    (w : Option String) (h : C4inv i v w s) : C4inv i v w (fill_culprit_trace_id s e) :=
  ⟨(fill_culprit_trace_pres s e i (fun c => c.victim_phy_tx_id)
      (fun c d => rfl) (fun c => rfl)).trans h.1,
   (fill_culprit_trace_pres s e i (fun c => c.culprit_phy_tx_id)
      (fun c d => rfl) (fun c => rfl)).trans h.2⟩

theorem fill_session_C4 (s : TracerState) (e : LogEntry) (i : Nat) (v : String)
    (w : Option String) (h : C4inv i v w s) :
    C4inv i v w (fill_culprit_session_id s e) :=
  ⟨(fill_culprit_session_pres s e i (fun c => c.victim_phy_tx_id)
      (fun c d => rfl) (fun c => rfl)).trans h.1,
   (fill_culprit_session_pres s e i (fun c => c.culprit_phy_tx_id)
      (fun c d => rfl) (fun c => rfl)).trans h.2⟩

theorem fill_tx_C4 (s : TracerState) (e : LogEntry) (i : Nat) (v : String)
    (w : Option String) (h : C4inv i v w s) : C4inv i v w (fill_culprit_tx_id s e) :=
  ⟨(fill_culprit_tx_pres s e i (fun c => c.victim_phy_tx_id)
      (fun c d => rfl) (fun c => rfl)).trans h.1,
   (fill_culprit_tx_pres s e i (fun c => c.culprit_phy_tx_id)
      (fun c d => rfl) (fun c => rfl)).trans h.2⟩

theorem post_fill_C4 (s : TracerState) (e : LogEntry) (i : Nat) (v : String)
    (w : Option String) (hv : v ≠ "") (hphy : e.phy_tx_id = some v)
    (h : C4inv i v w s) : C4inv i v w (post_fill_steps s e) := by
  unfold post_fill_steps
  dsimp only
  refine C4inv_step i v w _ (fill_culprit_tx_id · e) _
    (fun s2 h2 => fill_tx_C4 s2 e i v w h2) ?_
  refine C4inv_step i v w _ (fill_culprit_session_id · e) _
    (fun s2 h2 => fill_session_C4 s2 e i v w h2) ?_
  refine C4inv_step i v w _ (fill_culprit_trace_id · e) _
    (fun s2 h2 => fill_trace_C4 s2 e i v w h2) ?_
  refine C4inv_step i v w _ (fill_culprit_phy_tx_id · e) _
    (fun s2 h2 => fill_phy_C4 s2 e i v w hv hphy h2) ?_
  refine C4inv_step i v w _ (fill_lock_id · e) _
    (fun s2 h2 => fill_lock_C4 s2 e i v w h2) ?_
  exact C4inv_step i v w _ (fill_victim_phy_tx_id · e) _
    (fun s2 h2 => fill_victim_phy_C4 s2 e i v w hv h2) h

/-- C4: a record whose physical-transaction id equals a chain's
already-recorded victim physical-transaction id never becomes that chain's
culprit: processing the record leaves the chain's culprit
physical-transaction id exactly as it was (the break-locks loop skips the
victim's own lock-break self-notification). -/
theorem C4_self_notification (s : TracerState) (e : LogEntry) (collect : Bool)
    (i : Nat) (v : String) (hv : v ≠ "") (hphy : e.phy_tx_id = some v)
    (hvic : (getChainD s i).victim_phy_tx_id = some v) :
    (getChainD (process_entry s e collect) i).culprit_phy_tx_id =
      (getChainD s i).culprit_phy_tx_id := by
  have h0 : C4inv i v ((getChainD s i).culprit_phy_tx_id) s := ⟨hvic, rfl⟩
  have hp : C4inv i v ((getChainD s i).culprit_phy_tx_id) (process_entry s e collect) := by
    unfold process_entry
    dsimp only
    apply post_fill_C4 _ _ _ _ _ hv hphy
    refine C4inv_step i v _ _ (fun s2 => create_new_chain s2 e collect) _
      (fun s2 h2 => create_C4 s2 e collect i v _ h2) ?_
    exact pre_C4 s e i v _ h0
  exact hp.2

def c4_state : TracerState :=
  { chainStore := [{ victim_session_id := "s"
                     victim_trace_id := "vt"
                     victim_entry := {}
                     lock_id := some "L"
                     victim_phy_tx_id := some "P" }]
    chains := [("vt", 0)]
    chains_by_lock_id := [("L", 0)] }

def c4_entry : LogEntry :=
  { phy_tx_id := some "P"
    break_lock_id := some ["L"]
    raw_line := "c4" }

/-- Witness for C4: a concrete break-locks record carrying the victim
chain's own physical-transaction id leaves the culprit field untouched. -/
theorem C4_witness :
    (getChainD (process_entry c4_state c4_entry false) 0).culprit_phy_tx_id =
      (getChainD c4_state 0).culprit_phy_tx_id :=
  C4_self_notification c4_state c4_entry false 0 "P" (by decide) (by rfl) (by rfl)

/-! ### Claim C9 -/

theorem getChainD_pre_steps (s : TracerState) (e : LogEntry) (i : Nat) :
    getChainD (pre_steps s e) i = getChainD s i := by
  unfold pre_steps
  dsimp only
  rw [getChainD_cache, getChainD_cst]
  split
  · exact getChainD_ctq s e i
  · rfl

/-- The chain appended by `_create_new_chain` starts with an unset culprit
trace id, so the culprit trace id of the chain seen at any heap index is
unchanged by chain creation. -/
theorem create_trace_pres (s : TracerState) (e : LogEntry) (collect : Bool)
    (i : Nat) :
    (getChainD (create_new_chain s e collect) i).culprit_trace_id =
      (getChainD s i).culprit_trace_id := by
  unfold create_new_chain
  split
  · rfl
  · unfold getChainD
    dsimp only
    rcases Nat.lt_trichotomy i s.chainStore.length with h | h | h
    · rw [List.get?_eq_getElem?, List.get?_eq_getElem?, List.getElem?_append_left h]
    · rw [h, List.get?_eq_getElem?, List.get?_eq_getElem?, List.getElem?_concat_length,
          List.getElem?_eq_none (Nat.le_refl _)]
      rfl
    · rw [List.get?_eq_getElem?, List.get?_eq_getElem?,
          List.getElem?_eq_none (by simpa using h),
          List.getElem?_eq_none (Nat.le_of_lt h)]

theorem create_tx_pres (s : TracerState) (e : LogEntry) (collect : Bool)
    (i : Nat) :
    (getChainD (create_new_chain s e collect) i).culprit_tx_id =
      (getChainD s i).culprit_tx_id := by
  unfold create_new_chain
  split
  · rfl
  · unfold getChainD
    dsimp only
    rcases Nat.lt_trichotomy i s.chainStore.length with h | h | h
    · rw [List.get?_eq_getElem?, List.get?_eq_getElem?, List.getElem?_append_left h]
    · rw [h, List.get?_eq_getElem?, List.get?_eq_getElem?, List.getElem?_concat_length,
          List.getElem?_eq_none (Nat.le_refl _)]
      rfl
    · rw [List.get?_eq_getElem?, List.get?_eq_getElem?,
          List.getElem?_eq_none (by simpa using h),
          List.getElem?_eq_none (Nat.le_of_lt h)]

/-- With the sentinel trace id, the `_fill_culprit_trace_id` loop returns at
the validity guard of its first iteration, so no chain acquires a culprit
trace id. -/
theorem trace_goLoop_empty (e : LogEntry) (he : e.trace_id = some "Empty") :
    ∀ (l : List Nat) (s : TracerState) (i : Nat),
      (getChainD (fill_culprit_trace_goLoop e l s) i).culprit_trace_id =
        (getChainD s i).culprit_trace_id := by
  intro l
  induction l with
  | nil => intro s i; rfl
  | cons j rest ih =>
    intro s i
    unfold fill_culprit_trace_goLoop
    dsimp only
    split
    · exact getChainD_addDetail_pres s j _ i (fun c => c.culprit_trace_id)
        (fun c d => rfl)
    · have hinv : (!strTruthy e.trace_id || e.trace_id == some "Empty") = true := by
        rw [he]
        decide
      rw [if_pos hinv]
      exact getChainD_addDetail_pres s j _ i (fun c => c.culprit_trace_id)
        (fun c d => rfl)

theorem fill_trace_empty (s : TracerState) (e : LogEntry) (i : Nat)
    (he : e.trace_id = some "Empty") :
    (getChainD (fill_culprit_trace_id s e) i).culprit_trace_id =
      (getChainD s i).culprit_trace_id := by
  unfold fill_culprit_trace_id
  dsimp only
  split
  · rfl
  · split
    · rfl
    · exact trace_goLoop_empty e he _ s i

/-- With the sentinel logical-transaction id, the `_fill_culprit_tx_id` loop
returns at the validity guard of its first iteration, so no chain acquires a
culprit transaction id. -/
theorem tx_goLoop_empty (e : LogEntry) (he : e.tx_id = some "Empty") :
    ∀ (l : List Nat) (s : TracerState) (i : Nat),
      (getChainD (fill_culprit_tx_goLoop e l s) i).culprit_tx_id =
        (getChainD s i).culprit_tx_id := by
  intro l
  induction l with
  | nil => intro s i; rfl
  | cons j rest ih =>
    intro s i
    unfold fill_culprit_tx_goLoop
    dsimp only
    have hinv : (!strTruthy e.tx_id || e.tx_id == some "Empty") = true := by
      rw [he]
      decide
    rw [if_pos hinv]
    exact getChainD_addDetail_pres s j _ i (fun c => c.culprit_tx_id)
      (fun c d => rfl)

theorem fill_tx_empty (s : TracerState) (e : LogEntry) (i : Nat)
    (he : e.tx_id = some "Empty") :
    (getChainD (fill_culprit_tx_id s e) i).culprit_tx_id =
      (getChainD s i).culprit_tx_id := by
  unfold fill_culprit_tx_id
  dsimp only
  split
  · rfl
  · split
    · rfl
    · exact tx_goLoop_empty e he _ s i

theorem post_fill_trace_empty (s : TracerState) (e : LogEntry) (i : Nat)
    (he : e.trace_id = some "Empty") :
    (getChainD (post_fill_steps s e) i).culprit_trace_id =
      (getChainD s i).culprit_trace_id := by
  have p1 : ∀ s2 : TracerState,
      (getChainD (fill_victim_phy_tx_id s2 e) i).culprit_trace_id =
        (getChainD s2 i).culprit_trace_id :=
    fun s2 => fill_victim_phy_pres s2 e i (fun c => c.culprit_trace_id)
      (fun c d => rfl) (fun c => rfl)
  have p2 : ∀ s2 : TracerState,
      (getChainD (fill_lock_id s2 e) i).culprit_trace_id =
        (getChainD s2 i).culprit_trace_id :=
    fun s2 => fill_lock_id_pres s2 e i (fun c => c.culprit_trace_id)
      (fun c d => rfl) (fun c x => rfl)
  have p3 : ∀ s2 : TracerState,
      (getChainD (fill_culprit_phy_tx_id s2 e) i).culprit_trace_id =
        (getChainD s2 i).culprit_trace_id :=
    fun s2 => fill_culprit_phy_pres s2 e i (fun c => c.culprit_trace_id)
      (fun c d => rfl) (fun c => rfl)
  have p4 : ∀ s2 : TracerState,
      (getChainD (fill_culprit_trace_id s2 e) i).culprit_trace_id =
        (getChainD s2 i).culprit_trace_id :=
    fun s2 => fill_trace_empty s2 e i he
  have p5 : ∀ s2 : TracerState,
      (getChainD (fill_culprit_session_id s2 e) i).culprit_trace_id =
        (getChainD s2 i).culprit_trace_id :=
    fun s2 => fill_culprit_session_pres s2 e i (fun c => c.culprit_trace_id)
      (fun c d => rfl) (fun c => rfl)
  have p6 : ∀ s2 : TracerState,
      (getChainD (fill_culprit_tx_id s2 e) i).culprit_trace_id =
        (getChainD s2 i).culprit_trace_id :=
    fun s2 => fill_culprit_tx_pres s2 e i (fun c => c.culprit_trace_id)
      (fun c d => rfl) (fun c => rfl)
  unfold post_fill_steps
  dsimp only
  (repeat' split) <;> simp only [p1, p2, p3, p4, p5, p6]

theorem post_fill_tx_empty (s : TracerState) (e : LogEntry) (i : Nat)
    (he : e.tx_id = some "Empty") :
    (getChainD (post_fill_steps s e) i).culprit_tx_id =
      (getChainD s i).culprit_tx_id := by
  have p1 : ∀ s2 : TracerState,
      (getChainD (fill_victim_phy_tx_id s2 e) i).culprit_tx_id =
        (getChainD s2 i).culprit_tx_id :=
    fun s2 => fill_victim_phy_pres s2 e i (fun c => c.culprit_tx_id)
      (fun c d => rfl) (fun c => rfl)
  have p2 : ∀ s2 : TracerState,
      (getChainD (fill_lock_id s2 e) i).culprit_tx_id =
        (getChainD s2 i).culprit_tx_id :=
    fun s2 => fill_lock_id_pres s2 e i (fun c => c.culprit_tx_id)
      (fun c d => rfl) (fun c x => rfl)
  have p3 : ∀ s2 : TracerState,
      (getChainD (fill_culprit_phy_tx_id s2 e) i).culprit_tx_id =
        (getChainD s2 i).culprit_tx_id :=
    fun s2 => fill_culprit_phy_pres s2 e i (fun c => c.culprit_tx_id)
      (fun c d => rfl) (fun c => rfl)
  have p4 : ∀ s2 : TracerState,
      (getChainD (fill_culprit_trace_id s2 e) i).culprit_tx_id =
        (getChainD s2 i).culprit_tx_id :=
    fun s2 => fill_culprit_trace_pres s2 e i (fun c => c.culprit_tx_id)
      (fun c d => rfl) (fun c => rfl)
  have p5 : ∀ s2 : TracerState,
      (getChainD (fill_culprit_session_id s2 e) i).culprit_tx_id =
        (getChainD s2 i).culprit_tx_id :=
    fun s2 => fill_culprit_session_pres s2 e i (fun c => c.culprit_tx_id)
      (fun c d => rfl) (fun c => rfl)
  have p6 : ∀ s2 : TracerState,
      (getChainD (fill_culprit_tx_id s2 e) i).culprit_tx_id =
        (getChainD s2 i).culprit_tx_id :=
    fun s2 => fill_tx_empty s2 e i he
  unfold post_fill_steps
  dsimp only
  (repeat' split) <;> simp only [p1, p2, p3, p4, p5, p6]

/-- C9: the correlator treats the literal string Empty as an absent
identifier.  A record whose trace id is Empty is never cached as a trace
representative and processing it never changes any chain's culprit trace id;
a record whose logical-transaction id is Empty never changes any chain's
culprit transaction id, and query accumulation never uses Empty as the
transaction key directly (any bucket it changes is the one inferred from the
session's current transaction); a victim transaction id equal to the literal
Unknown is stored as unset on a newly created chain. -/
theorem C9_sentinel_ids (s : TracerState) (e e2 : LogEntry) (collect : Bool)
    (i : Nat) (k : String) :
    (e.trace_id = some "Empty" → cache_entry_by_trace s e = s) ∧
    (e.trace_id = some "Empty" →
      (getChainD (process_entry s e collect) i).culprit_trace_id =
        (getChainD s i).culprit_trace_id) ∧
    (e.tx_id = some "Empty" →
      (getChainD (process_entry s e collect) i).culprit_tx_id =
        (getChainD s i).culprit_tx_id) ∧
    (e.tx_id = some "Empty" →
      dget (collect_transaction_queries s e).queries_by_tx k ≠
        dget s.queries_by_tx k →
      dget s.session_current_tx (e.session_id.getD "") = some k) ∧
    (e2.tx_id = some "Unknown" → (mkVictimChain e2 collect).victim_tx_id = none) := by
  refine ⟨?_, ?_, ?_, ?_, ?_⟩
  · intro he
    have hc : (strTruthy e.trace_id && !(e.trace_id == some "Empty")) = false := by
      rw [he]
      decide
    unfold cache_entry_by_trace
    rw [hc]
    rfl
  · intro he
    unfold process_entry
    dsimp only
    rw [post_fill_trace_empty _ e i he]
    split
    · rw [create_trace_pres, getChainD_pre_steps]
    · rw [getChainD_pre_steps]
  · intro he
    unfold process_entry
    dsimp only
    rw [post_fill_tx_empty _ e i he]
    split
    · rw [create_tx_pres, getChainD_pre_steps]
    · rw [getChainD_pre_steps]
  · intro he hk
    unfold collect_transaction_queries at hk
    split at hk
    · exact absurd rfl hk
    · split at hk
      · rename_i hcond
        rw [he] at hcond
        exact absurd hcond (by decide)
      · split at hk
        · split at hk
          · rename_i inferred heq
            split at hk
            · exact absurd rfl hk
            · by_cases hkk : k = inferred
              · rw [hkk]
                exact heq
              · exact absurd (dget_dset_ne s.queries_by_tx inferred k _ hkk) hk
          · exact absurd rfl hk
        · exact absurd rfl hk
  · intro he
    simp [mkVictimChain, he]

def c9_state : TracerState :=
  { session_current_tx := [("S", "T1")] }

def c9_entry : LogEntry :=
  { session_id := some "S"
    trace_id := some "Empty"
    tx_id := some "Empty"
    query_action := some "EXECUTE" }

def c9_entry2 : LogEntry := { tx_id := some "Unknown" }

/-- Witness for C9: a concrete record with the sentinel ids exercises every
conjunct of the sentinel theorem. -/
theorem C9_witness :
    cache_entry_by_trace c9_state c9_entry = c9_state ∧
    (getChainD (process_entry c9_state c9_entry false) 0).culprit_trace_id =
      (getChainD c9_state 0).culprit_trace_id ∧
    (getChainD (process_entry c9_state c9_entry false) 0).culprit_tx_id =
      (getChainD c9_state 0).culprit_tx_id ∧
    dget c9_state.session_current_tx (c9_entry.session_id.getD "") = some "T1" ∧
    (mkVictimChain c9_entry2 false).victim_tx_id = none := by
  obtain ⟨h1, h2, h3, h4, h5⟩ :=
    C9_sentinel_ids c9_state c9_entry c9_entry2 false 0 "T1"
  exact ⟨h1 rfl, h2 rfl, h3 rfl, h4 rfl (by decide), h5 rfl⟩

/-! ### Claim C7 -/

theorem lexLe_refl : ∀ l : List Char, lexLe l l = true := by
  intro l
  induction l with
  | nil => rfl
  | cons a as ih =>
    unfold lexLe
    rw [if_neg (Nat.lt_irrefl a.toNat), if_neg (Nat.lt_irrefl a.toNat)]
    exact ih

theorem lexLe_total : ∀ a b : List Char, lexLe a b = true ∨ lexLe b a = true := by
  intro a
  induction a with
  | nil => intro b; left; rfl
  | cons x xs ih =>
    intro b
    cases b with
    | nil => right; rfl
    | cons y ys =>
      rcases Nat.lt_trichotomy x.toNat y.toNat with h | h | h
      · left
        unfold lexLe
        rw [if_pos h]
      · rcases ih ys with h2 | h2
        · left
          unfold lexLe
          rw [if_neg (by rw [h]; exact Nat.lt_irrefl _),
              if_neg (by rw [h]; exact Nat.lt_irrefl _)]
          exact h2
        · right
          unfold lexLe
          rw [if_neg (by rw [h]; exact Nat.lt_irrefl _),
              if_neg (by rw [h]; exact Nat.lt_irrefl _)]
          exact h2
      · right
        unfold lexLe
        rw [if_pos h]

theorem tsLe_of_eq (a b : LogEntry) (h : a.timestamp = b.timestamp) :
    tsLe a b = true := by
  unfold tsLe
  rw [h]
  exact lexLe_refl _

theorem tsLe_total (a b : LogEntry) : tsLe a b = true ∨ tsLe b a = true :=
  lexLe_total _ _

/-- Executable non-decreasing-by-timestamp check on a query list. -/
def tsSorted : List LogEntry → Bool
  | [] => true
  | [_] => true
  | a :: b :: l => tsLe a b && tsSorted (b :: l)

theorem tsSorted_insert (a : LogEntry) :
    ∀ l : List LogEntry, tsSorted l = true → tsSorted (insertByTs a l) = true := by
  intro l
  induction l with
  | nil => intro h; rfl
  | cons b l ih =>
    intro h
    unfold insertByTs
    split
    · rename_i hab
      simp only [tsSorted, Bool.and_eq_true]
      exact ⟨hab, h⟩
    · rename_i hab
      have hba : tsLe b a = true := by
        rcases tsLe_total a b with h2 | h2
        · exact absurd h2 hab
        · exact h2
      cases l with
      | nil =>
        unfold insertByTs
        simp only [tsSorted, Bool.and_eq_true]
        exact ⟨hba, trivial⟩
      | cons c l2 =>
        simp only [tsSorted, Bool.and_eq_true] at h
        obtain ⟨hbc, hcl⟩ := h
        have hrec := ih hcl
        by_cases hac : tsLe a c = true
        · rw [insertByTs, if_pos hac]
          simp only [tsSorted, Bool.and_eq_true]
          exact ⟨hba, hac, hcl⟩
        · rw [insertByTs, if_neg hac]
          rw [insertByTs, if_neg hac] at hrec
          simp only [tsSorted, Bool.and_eq_true]
          exact ⟨hbc, hrec⟩

theorem tsSorted_sortByTs : ∀ l : List LogEntry, tsSorted (sortByTs l) = true := by
  intro l
  induction l with
  | nil => rfl
  | cons a l ih => exact tsSorted_insert a _ ih

/-- Stability of the insertion: an element is inserted strictly after every
stored element with a smaller timestamp and before every element with an
equal or larger one, so filtering at any fixed timestamp keeps the original
relative order. -/
theorem filter_insertByTs (a : LogEntry) (t : String) :
    ∀ l : List LogEntry,
      (insertByTs a l).filter (fun e2 => e2.timestamp == t) =
        if a.timestamp == t then
          a :: l.filter (fun e2 => e2.timestamp == t)
        else l.filter (fun e2 => e2.timestamp == t) := by
  intro l
  induction l with
  | nil =>
    by_cases hp : (a.timestamp == t) = true <;>
      simp [insertByTs, List.filter_cons, hp]
  | cons b l ih =>
    unfold insertByTs
    split
    · by_cases hp : (a.timestamp == t) = true <;>
        simp [List.filter_cons, hp]
    · rename_i hab
      by_cases hp : (a.timestamp == t) = true
      · have hbt : (b.timestamp == t) = false := by
          cases hx : (b.timestamp == t) with
          | false => rfl
          | true =>
            exact absurd (tsLe_of_eq a b ((eq_of_beq hp).trans (eq_of_beq hx).symm)) hab
        simp [List.filter_cons, hbt, ih, hp]
      · simp [List.filter_cons, ih, hp]

theorem sortByTs_filter (t : String) :
    ∀ l : List LogEntry,
      (sortByTs l).filter (fun e2 => e2.timestamp == t) =
        l.filter (fun e2 => e2.timestamp == t) := by
  intro l
  induction l with
  | nil => rfl
  | cons a l ih =>
    show (insertByTs a (sortByTs l)).filter (fun e2 => e2.timestamp == t) =
      (a :: l).filter (fun e2 => e2.timestamp == t)
    rw [filter_insertByTs]
    by_cases hp : (a.timestamp == t) = true <;> simp [hp, ih, List.filter_cons]

set_option maxHeartbeats 1600000 in
/-- Generic projection preservation through all six guarded fill steps. -/
theorem post_fill_pres {α : Type} (s : TracerState) (e : LogEntry) (i : Nat)
    (f : LockInvalidationChain → α)
    (hlog : ∀ (c : LockInvalidationChain) (d : List String),
      f { c with log_details := some (osetAdd d e.raw_line) } = f c)
    (h1 : ∀ c : LockInvalidationChain, f { c with victim_phy_tx_id := e.phy_tx_id } = f c)
    (h2 : ∀ (c : LockInvalidationChain) (x : String), f { c with lock_id := some x } = f c)
    (h3 : ∀ c : LockInvalidationChain, f { c with culprit_phy_tx_id := e.phy_tx_id } = f c)
    (h4 : ∀ c : LockInvalidationChain, f { c with culprit_trace_id := e.trace_id } = f c)
    (h5 : ∀ c : LockInvalidationChain, f { c with culprit_session_id := e.session_id } = f c)
    (h6 : ∀ c : LockInvalidationChain, f { c with culprit_tx_id := e.tx_id } = f c) :
    f (getChainD (post_fill_steps s e) i) = f (getChainD s i) := by
  have p1 : ∀ s2 : TracerState,
      f (getChainD (fill_victim_phy_tx_id s2 e) i) = f (getChainD s2 i) :=
    fun s2 => fill_victim_phy_pres s2 e i f hlog h1
  have p2 : ∀ s2 : TracerState,
      f (getChainD (fill_lock_id s2 e) i) = f (getChainD s2 i) :=
    fun s2 => fill_lock_id_pres s2 e i f hlog h2
  have p3 : ∀ s2 : TracerState,
      f (getChainD (fill_culprit_phy_tx_id s2 e) i) = f (getChainD s2 i) :=
    fun s2 => fill_culprit_phy_pres s2 e i f hlog h3
  have p4 : ∀ s2 : TracerState,
      f (getChainD (fill_culprit_trace_id s2 e) i) = f (getChainD s2 i) :=
    fun s2 => fill_culprit_trace_pres s2 e i f hlog h4
  have p5 : ∀ s2 : TracerState,
      f (getChainD (fill_culprit_session_id s2 e) i) = f (getChainD s2 i) :=
    fun s2 => fill_culprit_session_pres s2 e i f hlog h5
  have p6 : ∀ s2 : TracerState,
      f (getChainD (fill_culprit_tx_id s2 e) i) = f (getChainD s2 i) :=
    fun s2 => fill_culprit_tx_pres s2 e i f hlog h6
  unfold post_fill_steps
  dsimp only
  (repeat' split) <;> simp only [p1, p2, p3, p4, p5, p6]

/-- A field on which a fresh chain agrees with the placeholder chain is
unchanged at every heap index by chain creation. -/
theorem create_pres {α : Type} (s : TracerState) (e : LogEntry) (collect : Bool)
    (i : Nat) (f : LockInvalidationChain → α)
    (hmk : ∀ (e2 : LogEntry) (b : Bool), f (mkVictimChain e2 b) = f defaultChain) :
    f (getChainD (create_new_chain s e collect) i) = f (getChainD s i) := by
  unfold create_new_chain
  split
  · rfl
  · unfold getChainD
    dsimp only
    rcases Nat.lt_trichotomy i s.chainStore.length with h | h | h
    · rw [List.get?_eq_getElem?, List.get?_eq_getElem?, List.getElem?_append_left h]
    · rw [h, List.get?_eq_getElem?, List.get?_eq_getElem?, List.getElem?_concat_length,
          List.getElem?_eq_none (Nat.le_refl _)]
      exact hmk e collect
    · rw [List.get?_eq_getElem?, List.get?_eq_getElem?,
          List.getElem?_eq_none (by simpa using h),
          List.getElem?_eq_none (Nat.le_of_lt h)]

theorem process_pres {α : Type} (s : TracerState) (e : LogEntry) (collect : Bool)
    (i : Nat) (f : LockInvalidationChain → α)
    (hlog : ∀ (c : LockInvalidationChain) (d : List String),
      f { c with log_details := some (osetAdd d e.raw_line) } = f c)
    (h1 : ∀ c : LockInvalidationChain, f { c with victim_phy_tx_id := e.phy_tx_id } = f c)
    (h2 : ∀ (c : LockInvalidationChain) (x : String), f { c with lock_id := some x } = f c)
    (h3 : ∀ c : LockInvalidationChain, f { c with culprit_phy_tx_id := e.phy_tx_id } = f c)
    (h4 : ∀ c : LockInvalidationChain, f { c with culprit_trace_id := e.trace_id } = f c)
    (h5 : ∀ c : LockInvalidationChain, f { c with culprit_session_id := e.session_id } = f c)
    (h6 : ∀ c : LockInvalidationChain, f { c with culprit_tx_id := e.tx_id } = f c)
    (hmk : ∀ (e2 : LogEntry) (b : Bool), f (mkVictimChain e2 b) = f defaultChain) :
    f (getChainD (process_entry s e collect) i) = f (getChainD s i) := by
  unfold process_entry
  dsimp only
  refine (post_fill_pres _ e i f hlog h1 h2 h3 h4 h5 h6).trans ?_
  split
  · exact (create_pres _ e collect i f hmk).trans (congrArg f (getChainD_pre_steps s e i))
  · exact congrArg f (getChainD_pre_steps s e i)

theorem scan_foldl_queries_none (collect : Bool) :
    ∀ (entries : List LogEntry) (s : TracerState),
      (∀ j : Nat, (getChainD s j).victim_queries = none ∧
        (getChainD s j).culprit_queries = none) →
      ∀ j : Nat,
        (getChainD (entries.foldl (fun s2 e2 => process_entry s2 e2 collect) s) j).victim_queries = none ∧
        (getChainD (entries.foldl (fun s2 e2 => process_entry s2 e2 collect) s) j).culprit_queries = none := by
  intro entries
  induction entries with
  | nil => intro s h j; exact h j
  | cons e rest ih =>
    intro s h j
    rw [List.foldl_cons]
    refine ih (process_entry s e collect) (fun j2 => ⟨?_, ?_⟩) j
    · exact (process_pres s e collect j2 (fun c => c.victim_queries) (fun c d => rfl)
        (fun c => rfl) (fun c x => rfl) (fun c => rfl) (fun c => rfl) (fun c => rfl)
        (fun c => rfl) (fun e2 b => rfl)).trans (h j2).1
    · exact (process_pres s e collect j2 (fun c => c.culprit_queries) (fun c d => rfl)
        (fun c => rfl) (fun c x => rfl) (fun c => rfl) (fun c => rfl) (fun c => rfl)
        (fun c => rfl) (fun e2 b => rfl)).trans (h j2).2

/-- No step of the scan ever attaches a query list: those are only written by
the finalization pass. -/
theorem runScan_queries_none (entries : List LogEntry) (collect : Bool) (j : Nat) :
    (getChainD (runScan entries collect) j).victim_queries = none ∧
    (getChainD (runScan entries collect) j).culprit_queries = none := by
  unfold runScan
  refine scan_foldl_queries_none collect entries {} (fun j2 => ?_) j
  rw [getChainD_of_ge ({} : TracerState) j2 (Nat.zero_le j2)]
  exact ⟨rfl, rfl⟩

/-- Each query list attached to a chain is the timestamp-sorted copy of some
bucket of the query accumulator `q`. -/
def QOk (q : List (String × List LogEntry)) (c : LockInvalidationChain) : Prop :=
  (c.victim_queries = none ∨
    ∃ txid, c.victim_queries = some (sortByTs ((dget q txid).getD []))) ∧
  (c.culprit_queries = none ∨
    ∃ txid, c.culprit_queries = some (sortByTs ((dget q txid).getD [])))

theorem populate_victim_QInv (q : List (String × List LogEntry)) (st : TracerState)
    (i0 : Nat) (hq : st.queries_by_tx = q) (hc : ∀ j, QOk q (getChainD st j)) :
    (populate_victim st i0).queries_by_tx = q ∧
    ∀ j, QOk q (getChainD (populate_victim st i0) j) := by
  unfold populate_victim
  dsimp only
  split
  · refine ⟨hq, ?_⟩
    intro j
    rw [getChainD_setChain]
    split
    · constructor
      · right
        refine ⟨(getChainD st i0).victim_tx_id.getD "", ?_⟩
        show some (get_sorted_queries st ((getChainD st i0).victim_tx_id.getD "")) =
          some (sortByTs ((dget q ((getChainD st i0).victim_tx_id.getD "")).getD []))
        unfold get_sorted_queries
        rw [hq]
      · exact (hc i0).2
    · exact hc j
  · exact ⟨hq, hc⟩

theorem populate_culprit_QInv (q : List (String × List LogEntry)) (st : TracerState)
    (i0 : Nat) (hq : st.queries_by_tx = q) (hc : ∀ j, QOk q (getChainD st j)) :
    (populate_culprit st i0).queries_by_tx = q ∧
    ∀ j, QOk q (getChainD (populate_culprit st i0) j) := by
  unfold populate_culprit
  dsimp only
  split
  · refine ⟨hq, ?_⟩
    intro j
    rw [getChainD_setChain]
    split
    · constructor
      · exact (hc i0).1
      · right
        refine ⟨(getChainD st i0).culprit_tx_id.getD "", ?_⟩
        show some (get_sorted_queries st ((getChainD st i0).culprit_tx_id.getD "")) =
          some (sortByTs ((dget q ((getChainD st i0).culprit_tx_id.getD "")).getD []))
        unfold get_sorted_queries
        rw [hq]
    · exact hc j
  · exact ⟨hq, hc⟩

theorem populate_step_QInv (q : List (String × List LogEntry)) (st : TracerState)
    (i0 : Nat) (hq : st.queries_by_tx = q) (hc : ∀ j, QOk q (getChainD st j)) :
    (populate_step st i0).queries_by_tx = q ∧
    ∀ j, QOk q (getChainD (populate_step st i0) j) := by
  unfold populate_step
  obtain ⟨hq1, hc1⟩ := populate_victim_QInv q st i0 hq hc
  exact populate_culprit_QInv q _ i0 hq1 hc1

theorem populate_fold_QInv (q : List (String × List LogEntry)) :
    ∀ (l : List Nat) (st : TracerState), st.queries_by_tx = q →
      (∀ j, QOk q (getChainD st j)) →
      (l.foldl populate_step st).queries_by_tx = q ∧
      ∀ j, QOk q (getChainD (l.foldl populate_step st) j) := by
  intro l
  induction l with
  | nil => intro st hq hc; exact ⟨hq, hc⟩
  | cons i rest ih =>
    intro st hq hc
    rw [List.foldl_cons]
    obtain ⟨hq1, hc1⟩ := populate_step_QInv q st i hq hc
    exact ih (populate_step st i) hq1 hc1

theorem complete_step_QOk (q : List (String × List LogEntry)) (st : TracerState)
    (i0 : Nat) (hc : ∀ j, QOk q (getChainD st j)) :
    ∀ j, QOk q (getChainD (complete_step st i0) j) := by
  intro j
  unfold complete_step
  dsimp only
  (repeat' split)
  all_goals first
    | exact hc j
    | (rw [getChainD_setChain]; split; exacts [⟨(hc i0).1, (hc i0).2⟩, hc j])

theorem complete_fold_QOk (q : List (String × List LogEntry)) :
    ∀ (l : List Nat) (st : TracerState), (∀ j, QOk q (getChainD st j)) →
      ∀ j, QOk q (getChainD (l.foldl complete_step st) j) := by
  intro l
  induction l with
  | nil => intro st hc; exact hc
  | cons i rest ih =>
    intro st hc
    rw [List.foldl_cons]
    exact ih (complete_step st i) (complete_step_QOk q st i hc)

theorem validate_chainStore (s : TracerState) :
    (validate_chains s).chainStore = s.chainStore := by
  unfold validate_chains
  suffices h : ∀ (l : List Nat) (st : TracerState),
      (l.foldl (fun st2 i =>
        if chainIncomplete (getChainD st2 i) then warn st2 wIncompleteChain else st2)
        st).chainStore = st.chainStore from h _ s
  intro l
  induction l with
  | nil => intro st; rfl
  | cons i rest ih =>
    intro st
    rw [List.foldl_cons, ih]
    split <;> rfl

theorem getChainD_validate (s : TracerState) (j : Nat) :
    getChainD (validate_chains s) j = getChainD s j :=
  getChainD_store_eq s (validate_chains s) (validate_chainStore s) j

/-- C7: every victim or culprit query list attached to an output chain is the
stable timestamp-sort of an accumulator bucket: it is non-decreasing by
timestamp, and at each fixed timestamp it preserves the original
accumulation order of the bucket. -/
theorem C7_sorted_stable_queries (entries : List LogEntry) (collect : Bool)
    (c : LockInvalidationChain)
    (hc : c ∈ find_all_invalidation_chains entries collect)
    (ql : List LogEntry)
    (hql : c.victim_queries = some ql ∨ c.culprit_queries = some ql) :
    tsSorted ql = true ∧
    ∃ txid,
      ql = sortByTs ((dget (runScan entries collect).queries_by_tx txid).getD []) ∧
      ∀ t, ql.filter (fun e2 => e2.timestamp == t) =
        ((dget (runScan entries collect).queries_by_tx txid).getD []).filter
          (fun e2 => e2.timestamp == t) := by
  have h0 : ∀ j, QOk (runScan entries collect).queries_by_tx
      (getChainD (runScan entries collect) j) := by
    intro j
    obtain ⟨h1, h2⟩ := runScan_queries_none entries collect j
    exact ⟨Or.inl h1, Or.inl h2⟩
  have h1 : (populate_queries (runScan entries collect)).queries_by_tx =
      (runScan entries collect).queries_by_tx ∧
      ∀ j, QOk (runScan entries collect).queries_by_tx
        (getChainD (populate_queries (runScan entries collect)) j) := by
    unfold populate_queries
    exact populate_fold_QInv _ _ _ rfl h0
  have h2 : ∀ j, QOk (runScan entries collect).queries_by_tx
      (getChainD (complete_remaining_chains (populate_queries (runScan entries collect))) j) := by
    unfold complete_remaining_chains
    exact complete_fold_QOk _ _ _ h1.2
  have h3 : ∀ j, QOk (runScan entries collect).queries_by_tx
      (getChainD (validate_chains (complete_remaining_chains
        (populate_queries (runScan entries collect)))) j) := by
    intro j
    rw [getChainD_validate]
    exact h2 j
  unfold find_all_invalidation_chains at hc
  dsimp only at hc
  obtain ⟨i, hmem, hgc⟩ := List.mem_map.mp hc
  have hQc : QOk (runScan entries collect).queries_by_tx c := hgc ▸ h3 i
  rcases hql with hv | hcu
  · rcases hQc.1 with hn | ⟨txid, hsome⟩
    · rw [hv] at hn
      exact Option.noConfusion hn
    · rw [hv] at hsome
      have hqe : ql = sortByTs ((dget (runScan entries collect).queries_by_tx txid).getD []) :=
        Option.some_inj.mp hsome
      refine ⟨?_, txid, hqe, ?_⟩
      · rw [hqe]
        exact tsSorted_sortByTs _
      · intro t
        rw [hqe]
        exact sortByTs_filter t _
  · rcases hQc.2 with hn | ⟨txid, hsome⟩
    · rw [hcu] at hn
      exact Option.noConfusion hn
    · rw [hcu] at hsome
      have hqe : ql = sortByTs ((dget (runScan entries collect).queries_by_tx txid).getD []) :=
        Option.some_inj.mp hsome
      refine ⟨?_, txid, hqe, ?_⟩
      · rw [hqe]
        exact tsSorted_sortByTs _
      · intro t
        rw [hqe]
        exact sortByTs_filter t _

def c7_q : LogEntry :=
  { timestamp := "2024-01-01 00:00:01"
    tx_id := some "T1"
    query_action := some "EXECUTE"
    query_text := some "SELECT 1" }

def c7_tli : LogEntry :=
  { timestamp := "2024-01-01 00:00:02"
    trace_id := some "VT"
    session_id := some "VS"
    tx_id := some "T1"
    issues := some "Transaction locks invalidated"
    status := some "ABORTED" }

def c7_chain : LockInvalidationChain :=
  (find_all_invalidation_chains [c7_q, c7_tli] false).headD defaultChain

/-- Witness for C7: a run with one accumulated query yields a chain whose
attached victim query list is a sorted, stable copy of its bucket. -/
theorem C7_witness :
    tsSorted (c7_chain.victim_queries.getD []) = true ∧
    ∃ txid, c7_chain.victim_queries.getD [] =
        sortByTs ((dget (runScan [c7_q, c7_tli] false).queries_by_tx txid).getD []) ∧
      ∀ t, (c7_chain.victim_queries.getD []).filter (fun e2 => e2.timestamp == t) =
        ((dget (runScan [c7_q, c7_tli] false).queries_by_tx txid).getD []).filter
          (fun e2 => e2.timestamp == t) := by
  refine C7_sorted_stable_queries [c7_q, c7_tli] false c7_chain ?_ _ (Or.inl ?_)
  · rw [show find_all_invalidation_chains [c7_q, c7_tli] false = [c7_chain] from rfl]
    exact List.mem_singleton.mpr rfl
  · decide

/-! ### Claim C2 -/

theorem trace_upd_getChainD (s1 : TracerState) (j : Nat) (c' : LockInvalidationChain)
    (d : List (String × List Nat)) (k : Nat) :
    getChainD { setChain s1 j c' with chains_by_culprit_trace_id := d } k =
      getChainD (setChain s1 j c') k := rfl

theorem trace_upd_len (s1 : TracerState) (j : Nat) (c' : LockInvalidationChain)
    (d : List (String × List Nat)) :
    ({ setChain s1 j c' with chains_by_culprit_trace_id := d }).chainStore.length =
      s1.chainStore.length := by
  show (setChain s1 j c').chainStore.length = s1.chainStore.length
  exact (setChain_frame s1 j c').2.2.2.2.2.2.2.2

/-- A culprit trace id already equal to the record's trace id survives the
rest of the `_fill_culprit_trace_id` loop. -/
theorem trace_goLoop_keep (e : LogEntry) (tid : String) (htid : e.trace_id = some tid) :
    ∀ (l : List Nat) (s : TracerState) (i : Nat),
      (getChainD s i).culprit_trace_id = some tid →
      (getChainD (fill_culprit_trace_goLoop e l s) i).culprit_trace_id = some tid := by
  intro l
  induction l with
  | nil => intro s i h; exact h
  | cons j rest ih =>
    intro s i h
    unfold fill_culprit_trace_goLoop
    dsimp only
    have had : (getChainD (addDetail s j e.raw_line) i).culprit_trace_id = some tid :=
      (getChainD_addDetail_pres s j e.raw_line i (fun c => c.culprit_trace_id)
        (fun c d => rfl)).trans h
    split
    · exact had
    · split
      · exact had
      · split
        · refine ih _ i ?_
          rw [trace_upd_getChainD, getChainD_setChain]
          split
          · exact htid
          · exact had
        · exact ih _ i had

/-- When no chain in the waiting list carries a conflicting culprit trace id
and the record's trace id is valid, the `_fill_culprit_trace_id` loop assigns
it to every chain of the list. -/
theorem trace_goLoop_assign (e : LogEntry) (tid : String)
    (htid : e.trace_id = some tid) (hne : tid ≠ "") (hnemp : tid ≠ "Empty") :
    ∀ (l : List Nat) (s : TracerState),
      (∀ j ∈ l, j < s.chainStore.length) →
      (∀ j ∈ l, (getChainD s j).culprit_trace_id = none ∨
        (getChainD s j).culprit_trace_id = some tid) →
      ∀ i ∈ l, (getChainD (fill_culprit_trace_goLoop e l s) i).culprit_trace_id = some tid := by
  intro l
  induction l with
  | nil => intro s _ _ i hi; exact absurd hi (List.not_mem_nil i)
  | cons j rest ih =>
    intro s hlen hok i hi
    unfold fill_culprit_trace_goLoop
    dsimp only
    have hadc : ∀ k : Nat, (getChainD (addDetail s j e.raw_line) k).culprit_trace_id =
        (getChainD s k).culprit_trace_id :=
      fun k => getChainD_addDetail_pres s j e.raw_line k (fun c => c.culprit_trace_id)
        (fun c d => rfl)
    have hjok := hok j (List.mem_cons_self j rest)
    have hnoconf : ¬((strTruthy (getChainD (addDetail s j e.raw_line) j).culprit_trace_id &&
        !((getChainD (addDetail s j e.raw_line) j).culprit_trace_id == e.trace_id)) = true) := by
      rw [hadc j, htid]
      rcases hjok with h1 | h1 <;> rw [h1] <;> simp [strTruthy]
    rw [if_neg hnoconf]
    have hval : ¬((!strTruthy e.trace_id || e.trace_id == some "Empty") = true) := by
      rw [htid]
      simp [strTruthy, hne, hnemp]
    rw [if_neg hval]
    rcases hjok with hnone | hsome
    · have hunset : (!strTruthy (getChainD (addDetail s j e.raw_line) j).culprit_trace_id) = true := by
        rw [hadc j, hnone]
        rfl
      rw [if_pos hunset]
      rcases List.mem_cons.mp hi with hij | hirest
      · subst hij
        refine trace_goLoop_keep e tid htid rest _ i ?_
        rw [trace_upd_getChainD, getChainD_setChain]
        split
        · exact htid
        · rename_i hcond
          exfalso
          apply hcond
          refine ⟨rfl, ?_⟩
          rw [(addDetail_frame s i e.raw_line).2.2.2.2.2.2.2.2]
          exact hlen i (List.mem_cons_self i rest)
      · refine ih _ ?_ ?_ i hirest
        · intro k hk
          rw [trace_upd_len, (addDetail_frame s j e.raw_line).2.2.2.2.2.2.2.2]
          exact hlen k (List.mem_cons_of_mem j hk)
        · intro k hk
          rw [trace_upd_getChainD, getChainD_setChain]
          split
          · right
            exact htid
          · rw [hadc k]
            exact hok k (List.mem_cons_of_mem j hk)
    · have hsetno : ¬((!strTruthy (getChainD (addDetail s j e.raw_line) j).culprit_trace_id) = true) := by
        rw [hadc j, hsome]
        simp [strTruthy, hne]
      rw [if_neg hsetno]
      rcases List.mem_cons.mp hi with hij | hirest
      · subst hij
        exact trace_goLoop_keep e tid htid rest _ i ((hadc i).trans hsome)
      · refine ih _ ?_ ?_ i hirest
        · intro k hk
          rw [(addDetail_frame s j e.raw_line).2.2.2.2.2.2.2.2]
          exact hlen k (List.mem_cons_of_mem j hk)
        · intro k hk
          rw [hadc k]
          exact hok k (List.mem_cons_of_mem j hk)

/-- A culprit session id already equal to the record's session id survives
the rest of the `_fill_culprit_session_id` loop. -/
theorem session_goLoop_keep (e : LogEntry) (sid : String)
    (hsid : e.session_id = some sid) :
    ∀ (l : List Nat) (s : TracerState) (i : Nat),
      (getChainD s i).culprit_session_id = some sid →
      (getChainD (fill_culprit_session_goLoop e l s) i).culprit_session_id = some sid := by
  intro l
  induction l with
  | nil => intro s i h; exact h
  | cons j rest ih =>
    intro s i h
    unfold fill_culprit_session_goLoop
    dsimp only
    have had : (getChainD (addDetail s j e.raw_line) i).culprit_session_id = some sid :=
      (getChainD_addDetail_pres s j e.raw_line i (fun c => c.culprit_session_id)
        (fun c d => rfl)).trans h
    split
    · exact had
    · split
      · exact had
      · split
        · refine ih _ i ?_
          rw [getChainD_setChain]
          split
          · exact hsid
          · exact had
        · exact ih _ i had

/-- When no chain in the waiting list carries a conflicting culprit session
id and the record has a session id, the `_fill_culprit_session_id` loop
assigns it to every chain of the list. -/
theorem session_goLoop_assign (e : LogEntry) (sid : String)
    (hsid : e.session_id = some sid) (hne : sid ≠ "") :
    ∀ (l : List Nat) (s : TracerState),
      (∀ j ∈ l, j < s.chainStore.length) →
      (∀ j ∈ l, (getChainD s j).culprit_session_id = none ∨
        (getChainD s j).culprit_session_id = some sid) →
      ∀ i ∈ l, (getChainD (fill_culprit_session_goLoop e l s) i).culprit_session_id = some sid := by
  intro l
  induction l with
  | nil => intro s _ _ i hi; exact absurd hi (List.not_mem_nil i)
  | cons j rest ih =>
    intro s hlen hok i hi
    unfold fill_culprit_session_goLoop
    dsimp only
    have hadc : ∀ k : Nat, (getChainD (addDetail s j e.raw_line) k).culprit_session_id =
        (getChainD s k).culprit_session_id :=
      fun k => getChainD_addDetail_pres s j e.raw_line k (fun c => c.culprit_session_id)
        (fun c d => rfl)
    have hjok := hok j (List.mem_cons_self j rest)
    have hmiss : ¬((!strTruthy e.session_id) = true) := by
      rw [hsid]
      simp [strTruthy, hne]
    rw [if_neg hmiss]
    have hnoconf : ¬((strTruthy (getChainD (addDetail s j e.raw_line) j).culprit_session_id &&
        !((getChainD (addDetail s j e.raw_line) j).culprit_session_id == e.session_id)) = true) := by
      rw [hadc j, hsid]
      rcases hjok with h1 | h1 <;> rw [h1] <;> simp [strTruthy]
    rw [if_neg hnoconf]
    rcases hjok with hnone | hsome
    · have hunset : (!strTruthy (getChainD (addDetail s j e.raw_line) j).culprit_session_id) = true := by
        rw [hadc j, hnone]
        rfl
      rw [if_pos hunset]
      rcases List.mem_cons.mp hi with hij | hirest
      · subst hij
        refine session_goLoop_keep e sid hsid rest _ i ?_
        rw [getChainD_setChain]
        split
        · exact hsid
        · rename_i hcond
          exfalso
          apply hcond
          refine ⟨rfl, ?_⟩
          rw [(addDetail_frame s i e.raw_line).2.2.2.2.2.2.2.2]
          exact hlen i (List.mem_cons_self i rest)
      · refine ih _ ?_ ?_ i hirest
        · intro k hk
          rw [(setChain_frame _ _ _).2.2.2.2.2.2.2.2,
              (addDetail_frame s j e.raw_line).2.2.2.2.2.2.2.2]
          exact hlen k (List.mem_cons_of_mem j hk)
        · intro k hk
          rw [getChainD_setChain]
          split
          · right
            exact hsid
          · rw [hadc k]
            exact hok k (List.mem_cons_of_mem j hk)
    · have hsetno : ¬((!strTruthy (getChainD (addDetail s j e.raw_line) j).culprit_session_id) = true) := by
        rw [hadc j, hsome]
        simp [strTruthy, hne]
      rw [if_neg hsetno]
      rcases List.mem_cons.mp hi with hij | hirest
      · subst hij
        exact session_goLoop_keep e sid hsid rest _ i ((hadc i).trans hsome)
      · refine ih _ ?_ ?_ i hirest
        · intro k hk
          rw [(addDetail_frame s j e.raw_line).2.2.2.2.2.2.2.2]
          exact hlen k (List.mem_cons_of_mem j hk)
        · intro k hk
          rw [hadc k]
          exact hok k (List.mem_cons_of_mem j hk)

/-- C2 (amended): the per-record culprit trace-id and session-id assignment
reaches every chain of the waiting list only in the absence of conflicts: if
no chain of the list carries a culprit id differing from the record's id (and
the record's id is valid), every chain of the list ends up with the record's
id.  (With a conflict on an earlier chain the loop aborts, see the
counterexample.) -/
theorem C2_no_conflict_assignment (s : TracerState) (e : LogEntry) :
    (∀ p tid l, e.phy_tx_id = some p →
      dget s.chains_by_culprit_phy_tx_id p = some l →
      e.trace_id = some tid → tid ≠ "" → tid ≠ "Empty" →
      (∀ j ∈ l, j < s.chainStore.length) →
      (∀ j ∈ l, (getChainD s j).culprit_trace_id = none ∨
        (getChainD s j).culprit_trace_id = some tid) →
      ∀ i ∈ l, (getChainD (fill_culprit_trace_id s e) i).culprit_trace_id = some tid) ∧
    (∀ t sid l, e.trace_id = some t →
      dget s.chains_by_culprit_trace_id t = some l →
      e.session_id = some sid → sid ≠ "" →
      (∀ j ∈ l, j < s.chainStore.length) →
      (∀ j ∈ l, (getChainD s j).culprit_session_id = none ∨
        (getChainD s j).culprit_session_id = some sid) →
      ∀ i ∈ l, (getChainD (fill_culprit_session_id s e) i).culprit_session_id = some sid) := by
  constructor
  · intro p tid l hp hlu htid hne hnemp hlen hok i hi
    have hie : l.isEmpty = false := by
      cases l with
      | nil => exact absurd hi (List.not_mem_nil i)
      | cons a as => rfl
    unfold fill_culprit_trace_id
    dsimp only
    simp only [hp, hlu, hie, Bool.false_eq_true, if_false]
    exact trace_goLoop_assign e tid htid hne hnemp l s hlen hok i hi
  · intro t sid l ht hlu hsid hne hlen hok i hi
    have hie : l.isEmpty = false := by
      cases l with
      | nil => exact absurd hi (List.not_mem_nil i)
      | cons a as => rfl
    unfold fill_culprit_session_id
    dsimp only
    simp only [ht, hlu, hie, Bool.false_eq_true, if_false]
    exact session_goLoop_assign e sid hsid hne l s hlen hok i hi

def c2_chain0 : LockInvalidationChain :=
  { victim_session_id := "s0"
    victim_trace_id := "v0"
    victim_entry := {}
    culprit_trace_id := some "OTHER" }

def c2_chain1 : LockInvalidationChain :=
  { victim_session_id := "s1"
    victim_trace_id := "v1"
    victim_entry := {} }

def c2_state : TracerState :=
  { chainStore := [c2_chain0, c2_chain1]
    chains_by_culprit_phy_tx_id := [("P", [0, 1])] }

def c2_entry : LogEntry :=
  { trace_id := some "T"
    phy_tx_id := some "P"
    raw_line := "c2" }

/-- Counterexample for C2: chain 1 waits on physical-transaction id P with an
unset culprit trace id, the record carries P and a non-empty valid trace id,
yet after the record is processed chain 1 still has no culprit trace id: the
conflict on chain 0 (which already has a different culprit trace id) aborts
the whole waiting-list loop. -/
theorem C2_counterexample :
    culpritPhyHas c2_state c2_entry = true ∧
    c2_entry.trace_id = some "T" ∧
    dget c2_state.chains_by_culprit_phy_tx_id "P" = some [0, 1] ∧
    (getChainD c2_state 1).culprit_trace_id = none ∧
    (getChainD (process_entry c2_state c2_entry false) 1).culprit_trace_id = none := by
  decide

def c2w_chain0 : LockInvalidationChain :=
  { victim_session_id := "s0"
    victim_trace_id := "v0"
    victim_entry := {} }

def c2w_chain1 : LockInvalidationChain :=
  { victim_session_id := "s1"
    victim_trace_id := "v1"
    victim_entry := {} }

def c2w_state : TracerState :=
  { chainStore := [c2w_chain0, c2w_chain1]
    chains_by_culprit_phy_tx_id := [("P", [0, 1])]
    chains_by_culprit_trace_id := [("T", [0, 1])] }

def c2w_entry : LogEntry :=
  { trace_id := some "T"
    session_id := some "SS"
    phy_tx_id := some "P"
    raw_line := "c2w" }

/-- Witness for the amended C2: with two conflict-free waiting chains, both
receive the culprit trace id and both receive the culprit session id. -/
theorem C2_witness :
    (getChainD (fill_culprit_trace_id c2w_state c2w_entry) 0).culprit_trace_id = some "T" ∧
    (getChainD (fill_culprit_trace_id c2w_state c2w_entry) 1).culprit_trace_id = some "T" ∧
    (getChainD (fill_culprit_session_id c2w_state c2w_entry) 0).culprit_session_id = some "SS" ∧
    (getChainD (fill_culprit_session_id c2w_state c2w_entry) 1).culprit_session_id = some "SS" := by
  obtain ⟨h1, h2⟩ := C2_no_conflict_assignment c2w_state c2w_entry
  exact ⟨h1 "P" "T" [0, 1] rfl rfl rfl (by decide) (by decide) (by decide) (by decide)
          0 (by decide),
        h1 "P" "T" [0, 1] rfl rfl rfl (by decide) (by decide) (by decide) (by decide)
          1 (by decide),
        h2 "T" "SS" [0, 1] rfl rfl rfl (by decide) (by decide) (by decide)
          0 (by decide),
        h2 "T" "SS" [0, 1] rfl rfl rfl (by decide) (by decide) (by decide)
          1 (by decide)⟩

/-! ### Claim C5 -/

theorem dget_dset_cases {α : Type} (d : List (String × α)) (k0 : String) (v : α)
    (k : String) (x : α) (h : dget (dset d k0 v) k = some x) :
    (k = k0 ∧ x = v) ∨ dget d k = some x := by
  by_cases hk : k = k0
  · subst hk
    rw [dget_dset_self] at h
    exact Or.inl ⟨rfl, (Option.some_inj.mp h).symm⟩
  · rw [dget_dset_ne d k0 k v hk] at h
    exact Or.inr h

theorem strTruthy_ne_none (o : Option String) (h : strTruthy o = true) : o ≠ none := by
  cases o with
  | none => exact absurd h (by decide)
  | some s => exact fun hc => Option.noConfusion hc

theorem ite_warn_len (b : Prop) [Decidable b] (s1 : TracerState) (w : String) :
    (if b then warn s1 w else s1).chainStore.length = s1.chainStore.length := by
  split <;> rfl

/-- The scan invariant behind claim C5: every dictionary index is a valid
heap index where needed, a chain with a set culprit transaction id has a
set culprit physical-transaction id different from it, and every chain
reachable through the culprit dictionaries already has its culprit
physical-transaction id set. -/
def C5Inv (s : TracerState) : Prop :=
  (∀ k j, dget s.chains k = some j → j < s.chainStore.length) ∧
  (∀ k j, dget s.chains_by_lock_id k = some j → j < s.chainStore.length) ∧
  (∀ i : Nat, (getChainD s i).culprit_tx_id ≠ none →
    strTruthy (getChainD s i).culprit_phy_tx_id = true ∧
    (getChainD s i).culprit_tx_id ≠ (getChainD s i).culprit_phy_tx_id) ∧
  (∀ k l2, dget s.chains_by_culprit_trace_id k = some l2 →
    ∀ i ∈ l2, strTruthy (getChainD s i).culprit_phy_tx_id = true) ∧
  (∀ k l2, dget s.chains_by_culprit_phy_tx_id k = some l2 →
    ∀ i ∈ l2, strTruthy (getChainD s i).culprit_phy_tx_id = true)

theorem C5transfer (s s2 : TracerState)
    (hlen : s2.chainStore.length = s.chainStore.length)
    (hch : s2.chains = s.chains)
    (hlk : s2.chains_by_lock_id = s.chains_by_lock_id)
    (htr : s2.chains_by_culprit_trace_id = s.chains_by_culprit_trace_id)
    (hph : s2.chains_by_culprit_phy_tx_id = s.chains_by_culprit_phy_tx_id)
    (hgc : ∀ i : Nat,
      (getChainD s2 i).culprit_tx_id = (getChainD s i).culprit_tx_id ∧
      (getChainD s2 i).culprit_phy_tx_id = (getChainD s i).culprit_phy_tx_id)
    (h : C5Inv s) : C5Inv s2 := by
  obtain ⟨hA, hB, hC, hD, hE⟩ := h
  refine ⟨?_, ?_, ?_, ?_, ?_⟩
  · intro k j hk
    rw [hlen]
    exact hA k j (by rw [hch] at hk; exact hk)
  · intro k j hk
    rw [hlen]
    exact hB k j (by rw [hlk] at hk; exact hk)
  · intro i hne
    rw [(hgc i).1, (hgc i).2]
    exact hC i (by rw [(hgc i).1] at hne; exact hne)
  · intro k l2 hl i hi
    rw [(hgc i).2]
    exact hD k l2 (by rw [htr] at hl; exact hl) i hi
  · intro k l2 hl i hi
    rw [(hgc i).2]
    exact hE k l2 (by rw [hph] at hl; exact hl) i hi

theorem warn_C5 (s : TracerState) (w : String) (h : C5Inv s) : C5Inv (warn s w) :=
  C5transfer s (warn s w) rfl rfl rfl rfl rfl (fun i => ⟨rfl, rfl⟩) h

theorem addDetail_C5 (s : TracerState) (j : Nat) (r : String) (h : C5Inv s) :
    C5Inv (addDetail s j r) :=
  C5transfer s (addDetail s j r)
    (addDetail_frame s j r).2.2.2.2.2.2.2.2
    (addDetail_frame s j r).1
    (addDetail_frame s j r).2.2.2.1
    (addDetail_frame s j r).2.2.2.2.2.1
    (addDetail_frame s j r).2.2.2.2.1
    (fun i => ⟨getChainD_addDetail_pres s j r i (fun c => c.culprit_tx_id) (fun c d => rfl),
               getChainD_addDetail_pres s j r i (fun c => c.culprit_phy_tx_id) (fun c d => rfl)⟩)
    h

/-- A heap write that keeps both culprit ids of the written chain keeps the
invariant. -/
theorem setChainKeep_C5 (s : TracerState) (j : Nat) (c' : LockInvalidationChain)
    (htx : c'.culprit_tx_id = (getChainD s j).culprit_tx_id)
    (hphy : c'.culprit_phy_tx_id = (getChainD s j).culprit_phy_tx_id)
    (h : C5Inv s) : C5Inv (setChain s j c') :=
  C5transfer s (setChain s j c') (setChain_frame s j c').2.2.2.2.2.2.2.2
    rfl rfl rfl rfl
    (fun i => ⟨getChainD_set_preserves s j c' i (fun c => c.culprit_tx_id) htx,
               getChainD_set_preserves s j c' i (fun c => c.culprit_phy_tx_id) hphy⟩)
    h

theorem lockdict_upd_C5 (s : TracerState) (d : List (String × Nat))
    (hd : ∀ k j, dget d k = some j → j < s.chainStore.length)
    (h : C5Inv s) : C5Inv { s with chains_by_lock_id := d } :=
  ⟨h.1, hd, h.2.2.1, h.2.2.2.1, h.2.2.2.2⟩

theorem tracedict_upd_C5 (s : TracerState) (d : List (String × List Nat))
    (hd : ∀ k l2, dget d k = some l2 → ∀ i ∈ l2,
      strTruthy (getChainD s i).culprit_phy_tx_id = true)
    (h : C5Inv s) : C5Inv { s with chains_by_culprit_trace_id := d } :=
  ⟨h.1, h.2.1, h.2.2.1, hd, h.2.2.2.2⟩

theorem phydict_upd_C5 (s : TracerState) (d : List (String × List Nat))
    (hd : ∀ k l2, dget d k = some l2 → ∀ i ∈ l2,
      strTruthy (getChainD s i).culprit_phy_tx_id = true)
    (h : C5Inv s) : C5Inv { s with chains_by_culprit_phy_tx_id := d } :=
  ⟨h.1, h.2.1, h.2.2.1, h.2.2.2.1, hd⟩

/-- Setting a previously unset culprit physical-transaction id to a truthy
value keeps the invariant. -/
theorem setphy_C5 (s : TracerState) (j : Nat) (v : Option String)
    (hvt : strTruthy v = true)
    (hunset : strTruthy (getChainD s j).culprit_phy_tx_id = false)
    (h : C5Inv s) :
    C5Inv (setChain s j { getChainD s j with culprit_phy_tx_id := v }) := by
  obtain ⟨hA, hB, hC, hD, hE⟩ := h
  have hjtx : (getChainD s j).culprit_tx_id = none := by
    by_contra hne
    exact Bool.false_ne_true (hunset.symm.trans (hC j hne).1)
  refine ⟨?_, ?_, ?_, ?_, ?_⟩
  · intro k j2 hk
    rw [(setChain_frame _ _ _).2.2.2.2.2.2.2.2]
    exact hA k j2 hk
  · intro k j2 hk
    rw [(setChain_frame _ _ _).2.2.2.2.2.2.2.2]
    exact hB k j2 hk
  · intro i hne2
    by_cases hcond : i = j ∧ j < s.chainStore.length
    · rw [getChainD_setChain] at hne2
      rw [if_pos hcond] at hne2
      exact absurd hjtx hne2
    · rw [getChainD_setChain] at hne2 ⊢
      rw [if_neg hcond] at hne2 ⊢
      exact hC i hne2
  · intro k l2 hl i hi
    have hpre := hD k l2 hl i hi
    rw [getChainD_setChain]
    split
    · exact hvt
    · exact hpre
  · intro k l2 hl i hi
    have hpre := hE k l2 hl i hi
    rw [getChainD_setChain]
    split
    · exact hvt
    · exact hpre

/-- Setting a previously unset culprit transaction id to a non-sentinel value
different from the (already set) culprit physical-transaction id keeps the
invariant. -/
theorem settx_C5 (s : TracerState) (j : Nat) (v : Option String)
    (hvne : v ≠ none)
    (hphy : strTruthy (getChainD s j).culprit_phy_tx_id = true)
    (hne : v ≠ (getChainD s j).culprit_phy_tx_id)
    (h : C5Inv s) :
    C5Inv (setChain s j { getChainD s j with culprit_tx_id := v }) := by
  obtain ⟨hA, hB, hC, hD, hE⟩ := h
  refine ⟨?_, ?_, ?_, ?_, ?_⟩
  · intro k j2 hk
    rw [(setChain_frame _ _ _).2.2.2.2.2.2.2.2]
    exact hA k j2 hk
  · intro k j2 hk
    rw [(setChain_frame _ _ _).2.2.2.2.2.2.2.2]
    exact hB k j2 hk
  · intro i hne2
    by_cases hcond : i = j ∧ j < s.chainStore.length
    · rw [getChainD_setChain] at hne2 ⊢
      rw [if_pos hcond] at hne2 ⊢
      exact ⟨hphy, hne⟩
    · rw [getChainD_setChain] at hne2 ⊢
      rw [if_neg hcond] at hne2 ⊢
      exact hC i hne2
  · intro k l2 hl i hi
    have hpre := hD k l2 hl i hi
    rw [getChainD_setChain]
    split
    · exact hphy
    · exact hpre
  · intro k l2 hl i hi
    have hpre := hE k l2 hl i hi
    rw [getChainD_setChain]
    split
    · exact hphy
    · exact hpre

theorem C5_step (c : Prop) [Decidable c] (g : TracerState → TracerState)
    (s : TracerState) (hg : ∀ s2, C5Inv s2 → C5Inv (g s2)) (h : C5Inv s) :
    C5Inv (if c then g s else s) := by
  split
  · exact hg s h
  · exact h

theorem pre_steps_C5 (s : TracerState) (e : LogEntry) (h : C5Inv s) :
    C5Inv (pre_steps s e) := by
  refine C5transfer s _ ?_ ?_ ?_ ?_ ?_
    (fun i => ⟨congrArg (fun c => c.culprit_tx_id) (getChainD_pre_steps s e i),
               congrArg (fun c => c.culprit_phy_tx_id) (getChainD_pre_steps s e i)⟩) h
  all_goals (unfold pre_steps; dsimp only; split <;> simp)

theorem create_C5 (s : TracerState) (e : LogEntry) (collect : Bool) (h : C5Inv s) :
    C5Inv (create_new_chain s e collect) := by
  obtain ⟨hA, hB, hC, hD, hE⟩ := h
  have hgtx : ∀ i : Nat, (getChainD (create_new_chain s e collect) i).culprit_tx_id =
      (getChainD s i).culprit_tx_id :=
    fun i => create_pres s e collect i (fun c => c.culprit_tx_id) (fun e2 b => rfl)
  have hgphy : ∀ i : Nat, (getChainD (create_new_chain s e collect) i).culprit_phy_tx_id =
      (getChainD s i).culprit_phy_tx_id :=
    fun i => create_pres s e collect i (fun c => c.culprit_phy_tx_id) (fun e2 b => rfl)
  have hlen : s.chainStore.length ≤ (create_new_chain s e collect).chainStore.length := by
    unfold create_new_chain
    split
    · exact Nat.le_refl _
    · dsimp only
      simp only [List.length_append, List.length_cons, List.length_nil]
      omega
  have hdlock : (create_new_chain s e collect).chains_by_lock_id = s.chains_by_lock_id := by
    unfold create_new_chain
    split <;> rfl
  have hdtr : (create_new_chain s e collect).chains_by_culprit_trace_id =
      s.chains_by_culprit_trace_id := by
    unfold create_new_chain
    split <;> rfl
  have hdphy : (create_new_chain s e collect).chains_by_culprit_phy_tx_id =
      s.chains_by_culprit_phy_tx_id := by
    unfold create_new_chain
    split <;> rfl
  refine ⟨?_, ?_, ?_, ?_, ?_⟩
  · intro k j hk
    by_cases hg : (!strTruthy e.trace_id || !strTruthy e.session_id) = true
    · have hcs : create_new_chain s e collect = s := by
        unfold create_new_chain
        rw [if_pos hg]
      rw [hcs] at hk ⊢
      exact hA k j hk
    · have hcs : create_new_chain s e collect =
          { s with chainStore := s.chainStore ++ [mkVictimChain e collect]
                   chains := dset s.chains (e.trace_id.getD "") s.chainStore.length } := by
        unfold create_new_chain
        rw [if_neg hg]
      rw [hcs] at hk ⊢
      rcases dget_dset_cases _ _ _ _ _ hk with ⟨hk1, hj⟩ | hold
      · rw [hj]
        dsimp only
        simp only [List.length_append, List.length_cons, List.length_nil]
        omega
      · have := hA k j hold
        dsimp only
        simp only [List.length_append, List.length_cons, List.length_nil]
        omega
  · intro k j hk
    rw [hdlock] at hk
    exact Nat.lt_of_lt_of_le (hB k j hk) hlen
  · intro i hne
    rw [hgtx i, hgphy i]
    rw [hgtx i] at hne
    exact hC i hne
  · intro k l2 hl i hi
    rw [hgphy i]
    rw [hdtr] at hl
    exact hD k l2 hl i hi
  · intro k l2 hl i hi
    rw [hgphy i]
    rw [hdphy] at hl
    exact hE k l2 hl i hi

theorem fill_victim_phy_C5v (s : TracerState) (e : LogEntry) (h : C5Inv s) :
    C5Inv (fill_victim_phy_tx_id s e) := by
  unfold fill_victim_phy_tx_id
  cases hc : chainIdxFor s e.trace_id with
  | none => exact warn_C5 _ _ h
  | some i =>
    dsimp only
    have h1 := addDetail_C5 s i e.raw_line h
    split
    · exact warn_C5 _ _ h1
    · split
      · exact warn_C5 _ _ h1
      · exact setChainKeep_C5 _ i _ rfl rfl h1

theorem fill_lock_C5 (s : TracerState) (e : LogEntry) (h : C5Inv s) :
    C5Inv (fill_lock_id s e) := by
  unfold fill_lock_id
  cases hidx : chainIdxFor s e.trace_id with
  | none => exact warn_C5 _ _ h
  | some i =>
    dsimp only
    have h1 := addDetail_C5 s i e.raw_line h
    have hival : i < s.chainStore.length := by
      cases ht : e.trace_id with
      | none =>
        rw [ht] at hidx
        exact absurd hidx (by simp [chainIdxFor])
      | some t =>
        rw [ht] at hidx
        dsimp only [chainIdxFor] at hidx
        exact h.1 t i hidx
    split
    · exact warn_C5 _ _ h1
    · split
      · exact warn_C5 _ _ h1
      · have h2 : C5Inv (if 1 < (e.lock_id.getD []).length then
            warn (addDetail s i e.raw_line) wLockSeveral else addDetail s i e.raw_line) := by
          split
          · exact warn_C5 _ _ h1
          · exact h1
        have h3 := setChainKeep_C5
          (if 1 < (e.lock_id.getD []).length then
            warn (addDetail s i e.raw_line) wLockSeveral else addDetail s i e.raw_line) i
          { getChainD (if 1 < (e.lock_id.getD []).length then
              warn (addDetail s i e.raw_line) wLockSeveral else addDetail s i e.raw_line) i
            with lock_id := some ((e.lock_id.getD []).headD "") }
          rfl rfl h2
        refine lockdict_upd_C5 _ _ ?_ h3
        intro k j hk
        rcases dget_dset_cases _ _ _ _ _ hk with ⟨hk1, hj⟩ | hold
        · rw [hj, (setChain_frame _ _ _).2.2.2.2.2.2.2.2, ite_warn_len,
              (addDetail_frame s i e.raw_line).2.2.2.2.2.2.2.2]
          exact hival
        · exact h3.2.1 k j hold

theorem phy_upd_getChainD (s1 : TracerState) (j : Nat) (c' : LockInvalidationChain)
    (d : List (String × List Nat)) (k : Nat) :
    getChainD { setChain s1 j c' with chains_by_culprit_phy_tx_id := d } k =
      getChainD (setChain s1 j c') k := rfl

theorem phy_goLoop_C5 (e : LogEntry) (hephy : strTruthy e.phy_tx_id = true) :
    ∀ (ls : List String) (s : TracerState), C5Inv s →
      C5Inv (fill_culprit_phy_goLoop e ls s) := by
  intro ls
  induction ls with
  | nil => intro s h; exact h
  | cons lid rest ih =>
    intro s h
    unfold fill_culprit_phy_goLoop
    cases hd : dget s.chains_by_lock_id lid with
    | none => exact ih s h
    | some j =>
      dsimp only
      have h1 := addDetail_C5 s j e.raw_line h
      have hjval : j < s.chainStore.length := h.2.1 lid j hd
      split
      · exact ih _ h1
      · split
        · exact ih _ (warn_C5 _ _ h1)
        · split
          · rename_i hskip hconf hunset
            have hunset2 : strTruthy (getChainD (addDetail s j e.raw_line) j).culprit_phy_tx_id = false := by
              cases hx : strTruthy (getChainD (addDetail s j e.raw_line) j).culprit_phy_tx_id with
              | false => rfl
              | true =>
                rw [hx] at hunset
                exact absurd hunset (by decide)
            have h2 := setphy_C5 (addDetail s j e.raw_line) j e.phy_tx_id hephy hunset2 h1
            refine ih _ (phydict_upd_C5 _ _ ?_ h2)
            intro k l2 hk i2 hi2
            rcases dget_dset_cases _ _ _ _ _ hk with ⟨hk1, hl2⟩ | hold
            · subst hl2
              rcases List.mem_append.mp hi2 with hiold | hij
              · cases hdg : dget (setChain (addDetail s j e.raw_line) j
                    { getChainD (addDetail s j e.raw_line) j with culprit_phy_tx_id := e.phy_tx_id }).chains_by_culprit_phy_tx_id
                    (e.phy_tx_id.getD "") with
                | none =>
                  rw [hdg] at hiold
                  simp at hiold
                | some o =>
                  rw [hdg] at hiold
                  simp only [Option.getD_some] at hiold
                  exact h2.2.2.2.2 _ o hdg i2 hiold
              · rw [List.mem_singleton] at hij
                rw [hij]
                have hjlen : j < (addDetail s j e.raw_line).chainStore.length := by
                  rw [(addDetail_frame s j e.raw_line).2.2.2.2.2.2.2.2]
                  exact hjval
                rw [getChainD_setChain_self _ _ _ hjlen]
                exact hephy
            · exact h2.2.2.2.2 k l2 hold i2 hi2
          · exact ih _ h1

theorem fill_culprit_phy_C5 (s : TracerState) (e : LogEntry) (h : C5Inv s) :
    C5Inv (fill_culprit_phy_tx_id s e) := by
  unfold fill_culprit_phy_tx_id
  split
  · exact h
  · split
    · exact warn_C5 _ _ h
    · rename_i hbreak hphy
      have hephy : strTruthy e.phy_tx_id = true := by
        cases hx : strTruthy e.phy_tx_id with
        | true => rfl
        | false => exact absurd (by rw [hx]; rfl) hphy
      exact phy_goLoop_C5 e hephy _ s h

theorem trace_goLoop_C5 (e : LogEntry) :
    ∀ (ls : List Nat) (s : TracerState), C5Inv s →
      (∀ i ∈ ls, strTruthy (getChainD s i).culprit_phy_tx_id = true) →
      C5Inv (fill_culprit_trace_goLoop e ls s) := by
  intro ls
  induction ls with
  | nil => intro s h _; exact h
  | cons j rest ih =>
    intro s h hls
    unfold fill_culprit_trace_goLoop
    dsimp only
    have h1 := addDetail_C5 s j e.raw_line h
    have hadphy : ∀ i : Nat, (getChainD (addDetail s j e.raw_line) i).culprit_phy_tx_id =
        (getChainD s i).culprit_phy_tx_id :=
      fun i => getChainD_addDetail_pres s j e.raw_line i (fun c => c.culprit_phy_tx_id)
        (fun c d => rfl)
    have hls1 : ∀ i ∈ j :: rest,
        strTruthy (getChainD (addDetail s j e.raw_line) i).culprit_phy_tx_id = true := by
      intro i hi
      rw [hadphy i]
      exact hls i hi
    split
    · exact warn_C5 _ _ h1
    · split
      · exact warn_C5 _ _ h1
      · split
        · have h2 := setChainKeep_C5 (addDetail s j e.raw_line) j
            { getChainD (addDetail s j e.raw_line) j with culprit_trace_id := e.trace_id }
            rfl rfl h1
          refine ih _ (tracedict_upd_C5 _ _ ?_ h2) ?_
          · intro k l2 hk i2 hi2
            rcases dget_dset_cases _ _ _ _ _ hk with ⟨hk1, hl2⟩ | hold
            · subst hl2
              rcases List.mem_append.mp hi2 with hiold | hij
              · cases hdg : dget (setChain (addDetail s j e.raw_line) j
                    { getChainD (addDetail s j e.raw_line) j with culprit_trace_id := e.trace_id }).chains_by_culprit_trace_id
                    (e.trace_id.getD "") with
                | none =>
                  rw [hdg] at hiold
                  simp at hiold
                | some o =>
                  rw [hdg] at hiold
                  simp only [Option.getD_some] at hiold
                  exact h2.2.2.2.1 _ o hdg i2 hiold
              · rw [List.mem_singleton] at hij
                rw [hij, getChainD_setChain]
                split
                · exact hls1 j (List.mem_cons_self j rest)
                · exact hls1 j (List.mem_cons_self j rest)
            · exact h2.2.2.2.1 k l2 hold i2 hi2
          · intro i2 hi2
            rw [trace_upd_getChainD, getChainD_setChain]
            split
            · exact hls1 j (List.mem_cons_self j rest)
            · exact hls1 i2 (List.mem_cons_of_mem j hi2)
        · exact ih _ h1 (fun i2 hi2 => hls1 i2 (List.mem_cons_of_mem j hi2))

theorem fill_culprit_trace_C5 (s : TracerState) (e : LogEntry) (h : C5Inv s) :
    C5Inv (fill_culprit_trace_id s e) := by
  unfold fill_culprit_trace_id
  dsimp only
  split
  · exact warn_C5 _ _ h
  · rename_i l hl
    split
    · exact warn_C5 _ _ h
    · refine trace_goLoop_C5 e l s h ?_
      cases hp : e.phy_tx_id with
      | none =>
        rw [hp] at hl
        exact absurd hl (by simp)
      | some p =>
        rw [hp] at hl
        dsimp only at hl
        exact fun i hi => h.2.2.2.2 p l hl i hi

theorem session_goLoop_C5 (e : LogEntry) :
    ∀ (ls : List Nat) (s : TracerState), C5Inv s →
      C5Inv (fill_culprit_session_goLoop e ls s) := by
  intro ls
  induction ls with
  | nil => intro s h; exact h
  | cons j rest ih =>
    intro s h
    unfold fill_culprit_session_goLoop
    dsimp only
    have h1 := addDetail_C5 s j e.raw_line h
    split
    · exact warn_C5 _ _ h1
    · split
      · exact warn_C5 _ _ h1
      · split
        · exact ih _ (setChainKeep_C5 _ j _ rfl rfl h1)
        · exact ih _ h1

theorem fill_culprit_session_C5 (s : TracerState) (e : LogEntry) (h : C5Inv s) :
    C5Inv (fill_culprit_session_id s e) := by
  unfold fill_culprit_session_id
  dsimp only
  split
  · exact warn_C5 _ _ h
  · split
    · exact warn_C5 _ _ h
    · exact session_goLoop_C5 e _ _ h

theorem tx_goLoop_C5 (e : LogEntry) :
    ∀ (ls : List Nat) (s : TracerState), C5Inv s →
      (∀ i ∈ ls, strTruthy (getChainD s i).culprit_phy_tx_id = true) →
      C5Inv (fill_culprit_tx_goLoop e ls s) := by
  intro ls
  induction ls with
  | nil => intro s h _; exact h
  | cons j rest ih =>
    intro s h hls
    unfold fill_culprit_tx_goLoop
    dsimp only
    have h1 := addDetail_C5 s j e.raw_line h
    have hadphy : ∀ i : Nat, (getChainD (addDetail s j e.raw_line) i).culprit_phy_tx_id =
        (getChainD s i).culprit_phy_tx_id :=
      fun i => getChainD_addDetail_pres s j e.raw_line i (fun c => c.culprit_phy_tx_id)
        (fun c d => rfl)
    have hls1 : ∀ i ∈ j :: rest,
        strTruthy (getChainD (addDetail s j e.raw_line) i).culprit_phy_tx_id = true := by
      intro i hi
      rw [hadphy i]
      exact hls i hi
    split
    · exact warn_C5 _ _ h1
    · rename_i hvalid
      split
      · exact h1
      · split
        · exact h1
        · split
          · exact h1
          · rename_i hdup hconf hphyeq
            split
            · refine ih _ ?_ ?_
              · refine settx_C5 _ j e.tx_id ?_ ?_ ?_ h1
                · have htx : strTruthy e.tx_id = true := by
                    cases hx : strTruthy e.tx_id with
                    | true => rfl
                    | false => exact absurd (by rw [hx]; rfl) hvalid
                  exact strTruthy_ne_none e.tx_id htx
                · exact hls1 j (List.mem_cons_self j rest)
                · intro hceq
                  exact hphyeq (by rw [hceq]; simp)
              · intro i2 hi2
                rw [getChainD_setChain]
                split
                · exact hls1 j (List.mem_cons_self j rest)
                · exact hls1 i2 (List.mem_cons_of_mem j hi2)
            · exact ih _ h1 (fun i2 hi2 => hls1 i2 (List.mem_cons_of_mem j hi2))

theorem fill_culprit_tx_C5 (s : TracerState) (e : LogEntry) (h : C5Inv s) :
    C5Inv (fill_culprit_tx_id s e) := by
  unfold fill_culprit_tx_id
  dsimp only
  split
  · exact warn_C5 _ _ h
  · rename_i l hl
    split
    · exact warn_C5 _ _ h
    · refine tx_goLoop_C5 e l s h ?_
      cases ht : e.trace_id with
      | none =>
        rw [ht] at hl
        exact absurd hl (by simp)
      | some t =>
        rw [ht] at hl
        dsimp only at hl
        exact fun i hi => h.2.2.2.1 t l hl i hi

theorem post_fill_C5 (s : TracerState) (e : LogEntry) (h : C5Inv s) :
    C5Inv (post_fill_steps s e) := by
  unfold post_fill_steps
  dsimp only
  refine C5_step _ (fill_culprit_tx_id · e) _
    (fun s2 h2 => fill_culprit_tx_C5 s2 e h2) ?_
  refine C5_step _ (fill_culprit_session_id · e) _
    (fun s2 h2 => fill_culprit_session_C5 s2 e h2) ?_
  refine C5_step _ (fill_culprit_trace_id · e) _
    (fun s2 h2 => fill_culprit_trace_C5 s2 e h2) ?_
  refine C5_step _ (fill_culprit_phy_tx_id · e) _
    (fun s2 h2 => fill_culprit_phy_C5 s2 e h2) ?_
  refine C5_step _ (fill_lock_id · e) _
    (fun s2 h2 => fill_lock_C5 s2 e h2) ?_
  exact C5_step _ (fill_victim_phy_tx_id · e) _
    (fun s2 h2 => fill_victim_phy_C5v s2 e h2) h

theorem process_C5 (s : TracerState) (e : LogEntry) (collect : Bool) (h : C5Inv s) :
    C5Inv (process_entry s e collect) := by
  unfold process_entry
  dsimp only
  apply post_fill_C5
  refine C5_step _ (fun s2 => create_new_chain s2 e collect) _
    (fun s2 h2 => create_C5 s2 e collect h2) ?_
  exact pre_steps_C5 s e h

theorem C5Inv_empty : C5Inv {} := by
  refine ⟨?_, ?_, ?_, ?_, ?_⟩
  · intro k j hk
    simp [dget] at hk
  · intro k j hk
    simp [dget] at hk
  · intro i hne
    rw [getChainD_of_ge ({} : TracerState) i (Nat.zero_le i)] at hne
    exact absurd rfl hne
  · intro k l2 hl
    simp [dget] at hl
  · intro k l2 hl
    simp [dget] at hl

theorem runScan_C5 (entries : List LogEntry) (collect : Bool) :
    C5Inv (runScan entries collect) := by
  unfold runScan
  suffices hgen : ∀ (l : List LogEntry) (s : TracerState), C5Inv s →
      C5Inv (l.foldl (fun s2 e2 => process_entry s2 e2 collect) s)
    from hgen entries {} C5Inv_empty
  intro l
  induction l with
  | nil => intro s h; exact h
  | cons e rest ih =>
    intro s h
    rw [List.foldl_cons]
    exact ih _ (process_C5 s e collect h)

theorem populate_victim_C5 (st : TracerState) (i0 : Nat) (h : C5Inv st) :
    C5Inv (populate_victim st i0) := by
  unfold populate_victim
  dsimp only
  split
  · exact setChainKeep_C5 _ i0 _ rfl rfl h
  · exact h

theorem populate_culprit_C5 (st : TracerState) (i0 : Nat) (h : C5Inv st) :
    C5Inv (populate_culprit st i0) := by
  unfold populate_culprit
  dsimp only
  split
  · exact setChainKeep_C5 _ i0 _ rfl rfl h
  · exact h

theorem populate_fold_C5 : ∀ (l : List Nat) (st : TracerState), C5Inv st →
    C5Inv (l.foldl populate_step st) := by
  intro l
  induction l with
  | nil => intro st h; exact h
  | cons i rest ih =>
    intro st h
    rw [List.foldl_cons]
    refine ih _ ?_
    unfold populate_step
    exact populate_culprit_C5 _ i (populate_victim_C5 st i h)

theorem complete_step_C5 (st : TracerState) (i0 : Nat) (h : C5Inv st) :
    C5Inv (complete_step st i0) := by
  unfold complete_step
  dsimp only
  (repeat' split)
  all_goals first
    | exact h
    | exact setChainKeep_C5 _ _ _ rfl rfl h

theorem complete_fold_C5 : ∀ (l : List Nat) (st : TracerState), C5Inv st →
    C5Inv (l.foldl complete_step st) := by
  intro l
  induction l with
  | nil => intro st h; exact h
  | cons i rest ih =>
    intro st h
    rw [List.foldl_cons]
    exact ih _ (complete_step_C5 st i h)

theorem validate_C5 (s : TracerState) (h : C5Inv s) : C5Inv (validate_chains s) := by
  unfold validate_chains
  suffices hgen : ∀ (l : List Nat) (st : TracerState), C5Inv st →
      C5Inv (l.foldl (fun st2 i =>
        if chainIncomplete (getChainD st2 i) then warn st2 wIncompleteChain else st2) st)
    from hgen _ s h
  intro l
  induction l with
  | nil => intro st h2; exact h2
  | cons i rest ih =>
    intro st h2
    rw [List.foldl_cons]
    refine ih _ ?_
    split
    · exact warn_C5 _ _ h2
    · exact h2

/-- C5: a chain never ends the analysis with its culprit transaction id
equal to its culprit physical-transaction id: the logical-transaction id
guard of `_fill_culprit_tx_id` rejects a value equal to the already-set
culprit physical-transaction id, and both fields are write-once. -/
theorem C5_tx_ne_phy (entries : List LogEntry) (collect : Bool)
    (c : LockInvalidationChain)
    (hc : c ∈ find_all_invalidation_chains entries collect)
    (hne : c.culprit_tx_id ≠ none) :
    c.culprit_tx_id ≠ c.culprit_phy_tx_id := by
  have h0 := runScan_C5 entries collect
  have h1 : C5Inv (populate_queries (runScan entries collect)) := by
    unfold populate_queries
    exact populate_fold_C5 _ _ h0
  have h2 : C5Inv (complete_remaining_chains (populate_queries (runScan entries collect))) := by
    unfold complete_remaining_chains
    exact complete_fold_C5 _ _ h1
  have h3 := validate_C5 _ h2
  unfold find_all_invalidation_chains at hc
  dsimp only at hc
  obtain ⟨i, hmem, hgc⟩ := List.mem_map.mp hc
  have h4 := h3.2.2.1 i (by rw [hgc]; exact hne)
  rw [← hgc]
  exact h4.2

def c5_e1 : LogEntry :=
  { timestamp := "t1"
    trace_id := some "VT"
    session_id := some "VS"
    tx_id := some "VTX"
    issues := some "Transaction locks invalidated"
    status := some "ABORTED"
    raw_line := "e1" }

def c5_e2 : LogEntry :=
  { timestamp := "t2"
    trace_id := some "VT"
    status := some "LOCKS_BROKEN"
    phy_tx_id := some "VP"
    lock_id := some ["L1"]
    raw_line := "e2" }

def c5_e3 : LogEntry :=
  { timestamp := "t3"
    break_lock_id := some ["L1"]
    phy_tx_id := some "CP"
    raw_line := "e3" }

def c5_e4 : LogEntry :=
  { timestamp := "t4"
    phy_tx_id := some "CP"
    trace_id := some "CT"
    raw_line := "e4" }

def c5_e5 : LogEntry :=
  { timestamp := "t5"
    trace_id := some "CT"
    session_id := some "CS"
    tx_id := some "CTX"
    raw_line := "e5" }

def c5_entries : List LogEntry := [c5_e1, c5_e2, c5_e3, c5_e4, c5_e5]

def c5_chain : LockInvalidationChain :=
  (find_all_invalidation_chains c5_entries false).headD defaultChain

/-- Witness for C5: a full run that assigns a culprit transaction id yields a
chain whose culprit transaction id differs from its culprit
physical-transaction id. -/
theorem C5_witness :
    c5_chain.culprit_tx_id ≠ none ∧
    c5_chain.culprit_tx_id ≠ c5_chain.culprit_phy_tx_id := by
  refine ⟨by decide, C5_tx_ne_phy c5_entries false c5_chain ?_ (by decide)⟩
  rw [show find_all_invalidation_chains c5_entries false = [c5_chain] from rfl]
  exact List.mem_singleton.mpr rfl

end TLIAnalyzer
